import Mathlib

/-!
# SU2 dynamic-mesh subsystem: time-spectral coupler, sliding-interface locator,
grid motion coordinator and Bezier box

A shallow embedding of `MeanFlowIteration`, `SetTimeSpectral`,
`SetSliding_Interfaces`, `SetTimeSpectral_Velocities` and `SetGrid_Movement` from
`trunk/SU2_CFD/src/iteration_structure.cpp`, of `Solution_Definition`,
`Integration_Definition` and the flow part of `Solver_Definition` from
`trunk/SU2_CFD/src/definition_structure.cpp`, of
`CLinEulerVariable::SetDeltaPressure` from `trunk/SU2_CFD/src/variable_linearized.cpp`,
and of the Bernstein basis of `CFreeFormChunk` as `grid_movement_structure.hpp`
documents it, in exact arithmetic: a C++ `double` is an element of a field `α`, and
the functions of `<cmath>` the code calls are the operations of the class `LibM`.
The theorems on the trigonometric code take `α` to be the real numbers; those on
the sliding interfaces hold in every linearly ordered field and are evaluated on
rational sample data. Functions that drive operations defined elsewhere
(`MeanFlowIteration`, `SetGrid_Movement`) are embedded as the sequence of the
operations they invoke.
-/

namespace SU2

/-! ## Arithmetic and control-flow primitives -/

/-- The `<cmath>` functions and the constant `PI_NUMBER` the source uses on `double`. -/
class LibM (α : Type) where
  PI_NUMBER : α
  sin : α → α
  cos : α → α
  tan : α → α
  sqrt : α → α

/-- The real numbers with the real trigonometric functions. -/
noncomputable instance instLibMReal : LibM ℝ where
  PI_NUMBER := Real.pi
  sin := Real.sin
  cos := Real.cos
  tan := Real.tan
  sqrt := Real.sqrt

/-- The loop `for (i = 0; i < n; i++) body(i)` as a state transformer:
the body runs for `i = 0, 1, ..., n-1` in this order. -/
def forLoop {σ : Type} : Nat → (Nat → σ → σ) → σ → σ
  | 0, _, s => s
  | n + 1, body, s => body n (forLoop n body s)

/-- The assignment `M[k][j] = v` on a two-index array. -/
def setEntry {α : Type} (M : Nat → Nat → α) (k j : Nat) (v : α) : Nat → Nat → α :=
  fun k' j' => if k' = k ∧ j' = j then v else M k' j'

/-! ## `SetTimeSpectral`: the operator matrix -/

/-- The value assigned to `D[kZone][jZone]` in the body of the double loop of
`SetTimeSpectral` (lines 1178-1192). `kZone-jZone` is an `int` (the operands are
`unsigned short`, promoted), `pow(-1.0, kZone-jZone)` the integer power. -/
def timeSpectralEntry {α : Type} [Field α] [LibM α] (period : α) (nZone kZone jZone : Nat) : α :=
  if nZone % 2 = 0 then
    if kZone = jZone then 0
    else
      (LibM.PI_NUMBER / period) * (-1 : α) ^ ((kZone : ℤ) - (jZone : ℤ))
        * (1 / LibM.tan (LibM.PI_NUMBER * (((kZone : ℤ) - (jZone : ℤ) : ℤ) : α) / (nZone : α)))
  else
    if kZone = jZone then 0
    else
      (LibM.PI_NUMBER / period) * (-1 : α) ^ ((kZone : ℤ) - (jZone : ℤ))
        * (1 / LibM.sin (LibM.PI_NUMBER * (((kZone : ℤ) - (jZone : ℤ) : ℤ) : α) / (nZone : α)))

/-- The double loop "Build the time-spectral operator matrix" of `SetTimeSpectral`
(lines 1175-1194), run on an array with contents `D0`. -/
def buildTimeSpectralOperator {α : Type} [Field α] [LibM α] (period : α) (nZone : Nat)
    (D0 : Nat → Nat → α) : Nat → Nat → α :=
  forLoop nZone (fun kZone D =>
    forLoop nZone (fun jZone D =>
      setEntry D kZone jZone (timeSpectralEntry period nZone kZone jZone)) D) D0

/-- The matrix `D` of `SetTimeSpectral` after allocation (lines 1169-1172) and the
build loop. The freshly allocated storage is taken as zero-filled; every entry
with both indices below `nZone` is assigned by the loop before it is read
(`buildTimeSpectralOperator_apply`). -/
def timeSpectralOperator {α : Type} [Field α] [LibM α] (period : α) (nZone : Nat) :
    Nat → Nat → α :=
  buildTimeSpectralOperator period nZone (fun _ _ => 0)

/-! ## Containers -/

/-- The first zone, `ZONE_0`. -/
abbrev ZONE_0 : Nat := 0

/-- The finest grid level, `MESH_0`. -/
abbrev MESH_0 : Nat := 0

/-- Time integration schemes. The enumeration is declared in a header outside the
sources at hand; the code below only compares against `EULER_IMPLICIT`. -/
inductive TimeIntScheme where
  | RUNGE_KUTTA_EXPLICIT
  | EULER_EXPLICIT
  | EULER_IMPLICIT
  deriving DecidableEq

/-- Positions of the solvers in a solution container that `SetTimeSpectral` uses. -/
inductive SolKind where
  | FLOW_SOL
  | ADJFLOW_SOL
  | TURB_SOL
  deriving DecidableEq

/-- Boundary kind of a marker. The enumeration is declared in a header outside the
sources at hand; `SetSliding_Interfaces` only compares against `SEND_RECEIVE`. -/
inductive MarkerBoundary where
  | SEND_RECEIVE
  | other (kind : Nat)
  deriving DecidableEq

/-- The configuration values (`CConfig` getters) read by the functions below. -/
structure CConfig (α : Type) where
  Kind_TimeIntScheme_Flow : TimeIntScheme
  Kind_TimeIntScheme_AdjFlow : TimeIntScheme
  /-- Value of `IsAdjoint()`. -/
  Adjoint : Bool
  /-- Value of `GetKind_Solver() == RANS`. -/
  Kind_Solver_RANS : Bool
  Pitching_Omega_X : Nat → α
  Pitching_Omega_Y : Nat → α
  Pitching_Omega_Z : Nat → α
  Omega_Ref : α
  MGLevels : Nat
  nTimeInstances : Nat
  nMarker_All : Nat
  Marker_All_Boundary : Nat → MarkerBoundary
  Marker_All_SendRecv : Nat → Int

/-- Key of a per-node, per-variable value of `solution_container`:
`(zone, grid level, solver, point, variable)`. -/
abbrev SolKey := Nat × Nat × SolKind × Nat × Nat

/-- The data of `solution_container` read or written by `SetTimeSpectral`. -/
structure CSolution (α : Type) where
  /-- Value of `solution_container[zone][level][solver]->GetnVar()`. -/
  nVar : Nat × Nat × SolKind → Nat
  Solution : SolKey → α
  Solution_Old : SolKey → α
  TimeSpectral_Source : SolKey → α

/-- Key of a boundary vertex: `(zone, grid level, marker, vertex)`. -/
abbrev VertexKey := Nat × Nat × Nat × Nat

/-- The donor data of a boundary vertex (`CVertex`), written by `SetDonorElem` and
`SetBasisFunction`. -/
structure CVertex (α : Type) where
  Donor_Elem : Nat
  Basis_Function : Nat → α

/-- The data of `geometry_container`. Keys list zone and grid level first, then the
indices inside that geometry: `Coord (zone, level, point, dim)`,
`elem_Node (zone, level, element, local node)`, `nVertex (zone, level, marker)`,
and vertex data under a `VertexKey`: the node and matching zone of the vertex
(`vertex_Node`, `Matching_Zone`) and its donor data (`vertex`). -/
structure CGeometry (α : Type) where
  nDim : Nat × Nat → Nat
  nPoint : Nat × Nat → Nat
  Coord : Nat × Nat × Nat × Nat → α
  GridVel : Nat × Nat × Nat × Nat → α
  nElem : Nat × Nat → Nat
  elem_Node : Nat × Nat × Nat × Nat → Nat
  nVertex : Nat × Nat × Nat → Nat
  vertex_Node : VertexKey → Nat
  Matching_Zone : VertexKey → Nat
  vertex : VertexKey → CVertex α

/-! ## `SetTimeSpectral`: the source terms -/

/-- The period of oscillation computed at lines 1089-1101 (and again at lines
1505-1517): `2*PI_NUMBER/Omega_mag`. -/
def oscillationPeriod {α : Type} [Field α] [LibM α] (config_container : Nat → CConfig α) : α :=
  let Omega_0 := (config_container ZONE_0).Pitching_Omega_X ZONE_0 / (config_container ZONE_0).Omega_Ref
  let Omega_1 := (config_container ZONE_0).Pitching_Omega_Y ZONE_0 / (config_container ZONE_0).Omega_Ref
  let Omega_2 := (config_container ZONE_0).Pitching_Omega_Z ZONE_0 / (config_container ZONE_0).Omega_Ref
  let Omega_mag := LibM.sqrt (Omega_0 ^ 2 + Omega_1 ^ 2 + Omega_2 ^ 2)
  2 * LibM.PI_NUMBER / Omega_mag

/-- The flag `implicit` of `SetTimeSpectral` (lines 1070-1074). -/
def implicitFlag {α : Type} (config : CConfig α) : Bool :=
  if config.Adjoint then decide (config.Kind_TimeIntScheme_AdjFlow = TimeIntScheme.EULER_IMPLICIT)
  else decide (config.Kind_TimeIntScheme_Flow = TimeIntScheme.EULER_IMPLICIT)

/-- The loop "Retrieve solution at this node in current zone" (lines 1211-1235):
for every variable, the contribution of column `jZone` is added to `Source`. -/
def accumulateSource {α : Type} [Field α] (solution_container : CSolution α) (D : Nat → Nat → α)
    (adjoint implicit : Bool) (iZone jZone iMGlevel iPoint nVar : Nat) (Source : Nat → α) :
    Nat → α :=
  forLoop nVar (fun iVar Source =>
    if !adjoint then
      let U := solution_container.Solution (jZone, iMGlevel, SolKind.FLOW_SOL, iPoint, iVar)
      let Source := Function.update Source iVar (Source iVar + U * D iZone jZone)
      if implicit then
        let U_old := solution_container.Solution_Old (jZone, iMGlevel, SolKind.FLOW_SOL, iPoint, iVar)
        let deltaU := U - U_old
        Function.update Source iVar (Source iVar + deltaU * D iZone jZone)
      else Source
    else
      let Psi := solution_container.Solution (jZone, iMGlevel, SolKind.ADJFLOW_SOL, iPoint, iVar)
      let Source := Function.update Source iVar (Source iVar + Psi * D jZone iZone)
      if implicit then
        let Psi_old := solution_container.Solution_Old (jZone, iMGlevel, SolKind.ADJFLOW_SOL, iPoint, iVar)
        let deltaPsi := Psi - Psi_old
        Function.update Source iVar (Source iVar + deltaPsi * D jZone iZone)
      else Source) Source

/-- The loop "Store sources for current row" (lines 1239-1245), acting on the
stored time-spectral sources. -/
def storeSource {α : Type} (adjoint : Bool) (iZone iMGlevel iPoint nVar : Nat)
    (Source : Nat → α) (TimeSpectral_Source : SolKey → α) : SolKey → α :=
  forLoop nVar (fun iVar TimeSpectral_Source =>
    if !adjoint then
      Function.update TimeSpectral_Source (iZone, iMGlevel, SolKind.FLOW_SOL, iPoint, iVar)
        (Source iVar)
    else
      Function.update TimeSpectral_Source (iZone, iMGlevel, SolKind.ADJFLOW_SOL, iPoint, iVar)
        (Source iVar)) TimeSpectral_Source

/-- The body of the loop over the points of one grid level (lines 1203-1247):
`Source` is zeroed, then for every column `jZone` the contributions are
accumulated and the running value is stored. The array `Source` has `nVar`
entries, all of them zeroed here before they are read. -/
def pointSource {α : Type} [Field α] (solution_container : CSolution α) (D : Nat → Nat → α)
    (adjoint implicit : Bool) (nZone iZone iMGlevel iPoint nVar : Nat)
    (TimeSpectral_Source : SolKey → α) : SolKey → α :=
  let Source := forLoop nVar (fun iVar Source => Function.update Source iVar 0) (fun _ => 0)
  (forLoop nZone (fun jZone (st : (Nat → α) × (SolKey → α)) =>
    let Source := accumulateSource solution_container D adjoint implicit iZone jZone iMGlevel
      iPoint nVar st.1
    (Source, storeSource adjoint iZone iMGlevel iPoint nVar Source st.2))
    (Source, TimeSpectral_Source)).2

/-- The body of the loop over the points of the finest grid for the turbulence
model (lines 1286-1301): here the source is stored after the loop over the columns. -/
def pointSourceTurb {α : Type} [Field α] (solution_container : CSolution α) (D : Nat → Nat → α)
    (nZone iZone iPoint nVar_Turb : Nat) (TimeSpectral_Source : SolKey → α) : SolKey → α :=
  let Source_Turb := forLoop nVar_Turb (fun iVar S => Function.update S iVar 0) (fun _ => 0)
  let Source_Turb := forLoop nZone (fun jZone S =>
    forLoop nVar_Turb (fun iVar S =>
      let U_Turb := solution_container.Solution (jZone, MESH_0, SolKind.TURB_SOL, iPoint, iVar)
      Function.update S iVar (S iVar + U_Turb * D iZone jZone)) S) Source_Turb
  forLoop nVar_Turb (fun iVar TimeSpectral_Source =>
    Function.update TimeSpectral_Source (iZone, MESH_0, SolKind.TURB_SOL, iPoint, iVar)
      (Source_Turb iVar)) TimeSpectral_Source

/-- The function `SetTimeSpectral` (lines 1058-1316) as a transformer of the
solution container. Only `SetTimeSpectral_Source` writes to the container, so the
loops thread the stored sources; solutions are read from the argument. The file
of force coefficients written at the end (lines 1318-1371) is output only. -/
def SetTimeSpectral {α : Type} [Field α] [LibM α] (geometry_container : CGeometry α)
    (solution_container : CSolution α) (config_container : Nat → CConfig α)
    (nZone iZone : Nat) : CSolution α :=
  let nVar := solution_container.nVar (ZONE_0, MESH_0, SolKind.FLOW_SOL)
  let implicit := implicitFlag (config_container ZONE_0)
  let adjoint := (config_container ZONE_0).Adjoint
  let period := oscillationPeriod config_container
  let D := timeSpectralOperator period nZone
  let src := forLoop ((config_container ZONE_0).MGLevels + 1) (fun iMGlevel src =>
    forLoop (geometry_container.nPoint (ZONE_0, iMGlevel)) (fun iPoint src =>
      pointSource solution_container D adjoint implicit nZone iZone iMGlevel iPoint nVar src)
      src) solution_container.TimeSpectral_Source
  let src :=
    if (config_container ZONE_0).Kind_Solver_RANS then
      let nVar_Turb := solution_container.nVar (ZONE_0, MESH_0, SolKind.TURB_SOL)
      forLoop (geometry_container.nPoint (ZONE_0, MESH_0)) (fun iPoint src =>
        pointSourceTurb solution_container D nZone iZone iPoint nVar_Turb src) src
    else src
  { solution_container with TimeSpectral_Source := src }

/-- The contribution of column `jZone` to the source of row `iZone` at one node and
variable, as the four cases of lines 1213-1234 add it up. -/
def sourceContribution {α : Type} [Field α] (solution_container : CSolution α)
    (D : Nat → Nat → α) (adjoint implicit : Bool) (iZone jZone iMGlevel iPoint iVar : Nat) : α :=
  if !adjoint then
    solution_container.Solution (jZone, iMGlevel, SolKind.FLOW_SOL, iPoint, iVar) * D iZone jZone
    + (if implicit then
        (solution_container.Solution (jZone, iMGlevel, SolKind.FLOW_SOL, iPoint, iVar)
          - solution_container.Solution_Old (jZone, iMGlevel, SolKind.FLOW_SOL, iPoint, iVar))
          * D iZone jZone
       else 0)
  else
    solution_container.Solution (jZone, iMGlevel, SolKind.ADJFLOW_SOL, iPoint, iVar) * D jZone iZone
    + (if implicit then
        (solution_container.Solution (jZone, iMGlevel, SolKind.ADJFLOW_SOL, iPoint, iVar)
          - solution_container.Solution_Old (jZone, iMGlevel, SolKind.ADJFLOW_SOL, iPoint, iVar))
          * D jZone iZone
       else 0)

/-! ## `SetSliding_Interfaces` -/

/-- How a run of a function that may call `exit(1)` ends, with the state reached. -/
inductive Outcome (σ : Type) where
  | completed (s : σ)
  | exited (s : σ)

/-- The state an outcome carries. -/
def Outcome.state {σ : Type} : Outcome σ → σ
  | .completed s => s
  | .exited s => s

/-- Applies a function to the state an outcome carries. -/
def Outcome.map {σ τ : Type} (f : σ → τ) : Outcome σ → Outcome τ
  | .completed s => .completed (f s)
  | .exited s => .exited (f s)

/-- The loop `for (i = 0; i < n; i++) body(i)` where the body may call `exit`:
nothing runs after an exit. -/
def forLoopE {σ : Type} : Nat → (Nat → σ → Outcome σ) → σ → Outcome σ
  | 0, _, s => .completed s
  | n + 1, body, s =>
    match forLoopE n body s with
    | .completed t => body n t
    | .exited t => .exited t

/-- The setter `SetDonorElem` of the vertex under `key`. -/
def SetDonorElem {α : Type} (vertex : VertexKey → CVertex α) (key : VertexKey) (iElem : Nat) :
    VertexKey → CVertex α :=
  Function.update vertex key { vertex key with Donor_Elem := iElem }

/-- The setter `SetBasisFunction` of the vertex under `key`. -/
def SetBasisFunction {α : Type} (vertex : VertexKey → CVertex α) (key : VertexKey) (k : Nat)
    (N : α) : VertexKey → CVertex α :=
  Function.update vertex key
    { vertex key with Basis_Function := Function.update (vertex key).Basis_Function k N }

/-- The tolerance `eps` of `SetSliding_Interfaces` (line 1392). -/
def eps {α : Type} [LinearOrderedField α] : α := 1e-10

/-- The basis functions `N_0, N_1, N_2` of a triangle with vertices `Coord_0`,
`Coord_1`, `Coord_2` at the point `Coord_i` (lines 1437-1460). The code divides by
`Area`; when `Area` is zero the quotients are not numbers of the field (in IEEE
arithmetic each weight is then infinite or NaN and fails the test of line 1466),
which is the result `none` here. -/
def basisFunctions {α : Type} [LinearOrderedField α] (Coord_0 Coord_1 Coord_2 Coord_i : Nat → α) :
    Option (α × α × α) :=
  let a_0 := Coord_0 0 - Coord_2 0
  let a_1 := Coord_0 1 - Coord_2 1
  let b_0 := Coord_1 0 - Coord_2 0
  let b_1 := Coord_1 1 - Coord_2 1
  let Area := 0.5 * |a_0 * b_1 - a_1 * b_0|
  if Area = 0 then none
  else
    let a0 := 0.5 * (Coord_1 0 * Coord_2 1 - Coord_2 0 * Coord_1 1) / Area
    let a1 := 0.5 * (Coord_2 0 * Coord_0 1 - Coord_0 0 * Coord_2 1) / Area
    let a2 := 0.5 * (Coord_0 0 * Coord_1 1 - Coord_1 0 * Coord_0 1) / Area
    let b0 := 0.5 * (Coord_1 1 - Coord_2 1) / Area
    let b1 := 0.5 * (Coord_2 1 - Coord_0 1) / Area
    let b2 := 0.5 * (Coord_0 1 - Coord_1 1) / Area
    let c0 := 0.5 * (Coord_2 0 - Coord_1 0) / Area
    let c1 := 0.5 * (Coord_0 0 - Coord_2 0) / Area
    let c2 := 0.5 * (Coord_1 0 - Coord_0 0) / Area
    let N_0 := a0 + b0 * Coord_i 0 + c0 * Coord_i 1
    let N_1 := a1 + b1 * Coord_i 0 + c1 * Coord_i 1
    let N_2 := a2 + b2 * Coord_i 0 + c2 * Coord_i 1
    some (N_0, N_1, N_2)

/-- The test of lines 1466-1468 on the three basis functions. -/
def withinTolerance {α : Type} [LinearOrderedField α] (N : α × α × α) : Prop :=
  (N.1 ≥ -eps ∧ N.1 ≤ 1.0 + eps) ∧ (N.2.1 ≥ -eps ∧ N.2.1 ≤ 1.0 + eps)
    ∧ (N.2.2 ≥ -eps ∧ N.2.2 ≤ 1.0 + eps)

instance withinToleranceDecidable {α : Type} [LinearOrderedField α] (N : α × α × α) :
    Decidable (withinTolerance N) :=
  inferInstanceAs (Decidable ((N.1 ≥ -eps ∧ N.1 ≤ 1.0 + eps) ∧ (N.2.1 ≥ -eps ∧ N.2.1 ≤ 1.0 + eps)
    ∧ (N.2.2 ≥ -eps ∧ N.2.2 ≤ 1.0 + eps)))

/-- The coordinates of a node, `node[iPoint]->GetCoord()`. -/
def nodeCoord {α : Type} (geometry_container : CGeometry α) (zone iPoint : Nat) : Nat → α :=
  fun iDim => geometry_container.Coord (zone, MESH_0, iPoint, iDim)

/-- The basis functions of element `iElem` of the donor zone at `Coord_i`
(lines 1429-1460). -/
def elementBasisFunctions {α : Type} [LinearOrderedField α] (geometry_container : CGeometry α)
    (donorZone : Nat) (Coord_i : Nat → α) (iElem : Nat) : Option (α × α × α) :=
  let Point_0 := geometry_container.elem_Node (donorZone, MESH_0, iElem, 0)
  let Point_1 := geometry_container.elem_Node (donorZone, MESH_0, iElem, 1)
  let Point_2 := geometry_container.elem_Node (donorZone, MESH_0, iElem, 2)
  basisFunctions (nodeCoord geometry_container donorZone Point_0)
    (nodeCoord geometry_container donorZone Point_1)
    (nodeCoord geometry_container donorZone Point_2) Coord_i

/-- The donor record the 2-D branch writes for element `iElem`, if it writes
(lines 1466-1476): the element index and its three basis functions. -/
def donorWrite {α : Type} [LinearOrderedField α] (geometry_container : CGeometry α)
    (donorZone : Nat) (Coord_i : Nat → α) (iElem : Nat) : Option (Nat × α × α × α) :=
  match elementBasisFunctions geometry_container donorZone Coord_i iElem with
  | some N => if withinTolerance N then some (iElem, N) else none
  | none => none

/-- The four setter calls of lines 1471-1474. -/
def storeDonor {α : Type} (vertex : VertexKey → CVertex α) (key : VertexKey)
    (w : Nat × α × α × α) : VertexKey → CVertex α :=
  SetBasisFunction (SetBasisFunction (SetBasisFunction (SetDonorElem vertex key w.1)
    key 0 w.2.1) key 1 w.2.2.1) key 2 w.2.2.2

/-- The body of the loop over the elements of the donor zone (lines 1426-1483). -/
def searchElement {α : Type} [LinearOrderedField α] (geometry_container : CGeometry α)
    (nDim : Nat) (key : VertexKey) (donorZone : Nat) (Coord_i : Nat → α) (iElem : Nat)
    (vertex : VertexKey → CVertex α) : Outcome (VertexKey → CVertex α) :=
  if nDim = 2 then
    match donorWrite geometry_container donorZone Coord_i iElem with
    | some w => .completed (storeDonor vertex key w)
    | none => .completed vertex
  else .exited vertex

/-- The body of the loop over the vertices of a marker (lines 1410-1485). -/
def searchVertex {α : Type} [LinearOrderedField α] (geometry_container : CGeometry α)
    (nDim iZone iMarker iVertex : Nat) (vertex : VertexKey → CVertex α) :
    Outcome (VertexKey → CVertex α) :=
  let donorZone := geometry_container.Matching_Zone (iZone, MESH_0, iMarker, iVertex)
  if donorZone ≠ iZone then
    let iPoint := geometry_container.vertex_Node (iZone, MESH_0, iMarker, iVertex)
    let Coord_i := nodeCoord geometry_container iZone iPoint
    forLoopE (geometry_container.nElem (donorZone, MESH_0)) (fun iElem vertex =>
      searchElement geometry_container nDim (iZone, MESH_0, iMarker, iVertex) donorZone
        Coord_i iElem vertex) vertex
  else .completed vertex

/-- The body of the loop over the markers of a zone (lines 1401-1488). -/
def searchMarker {α : Type} [LinearOrderedField α] (geometry_container : CGeometry α)
    (config_container : Nat → CConfig α) (nDim iZone iMarker : Nat)
    (vertex : VertexKey → CVertex α) : Outcome (VertexKey → CVertex α) :=
  if (config_container iZone).Marker_All_Boundary iMarker = MarkerBoundary.SEND_RECEIVE then
    let SendRecv := (config_container iZone).Marker_All_SendRecv iMarker
    if SendRecv < 0 then
      forLoopE (geometry_container.nVertex (iZone, MESH_0, iMarker)) (fun iVertex vertex =>
        searchVertex geometry_container nDim iZone iMarker iVertex vertex) vertex
    else .completed vertex
  else .completed vertex

/-- The function `SetSliding_Interfaces` (lines 1374-1491) in a serial build
(`NO_MPI` defined). The setters `SetDonorElem` and `SetBasisFunction` are the only
writes, so the loops thread the donor data of the vertices; mesh data are read from
the argument. -/
def SetSliding_Interfaces {α : Type} [LinearOrderedField α] (geometry_container : CGeometry α)
    (config_container : Nat → CConfig α) (nZone : Nat) : Outcome (CGeometry α) :=
  let nDim := geometry_container.nDim (ZONE_0, MESH_0)
  Outcome.map (fun vertex => { geometry_container with vertex := vertex })
    (forLoopE nZone (fun iZone vertex =>
      forLoopE (config_container iZone).nMarker_All (fun iMarker vertex =>
        searchMarker geometry_container config_container nDim iZone iMarker vertex) vertex)
      geometry_container.vertex)

/-- The write of the last element among the first `n` of the donor zone for which
`donorWrite` writes, if there is one. -/
def lastDonorWrite {α : Type} [LinearOrderedField α] (geometry_container : CGeometry α)
    (donorZone : Nat) (Coord_i : Nat → α) : Nat → Option (Nat × α × α × α)
  | 0 => none
  | n + 1 =>
    match donorWrite geometry_container donorZone Coord_i n with
    | some w => some w
    | none => lastDonorWrite geometry_container donorZone Coord_i n

/-- A vertex that `SetSliding_Interfaces` searches a donor for: it lies on a
`SEND_RECEIVE` marker of a zone below `nZone` whose send/receive code is negative,
on the finest grid, and its matching zone differs from its own. -/
def receivesDonor {α : Type} (geometry_container : CGeometry α)
    (config_container : Nat → CConfig α) (nZone : Nat) (key : VertexKey) : Prop :=
  key.1 < nZone ∧ key.2.1 = MESH_0 ∧ key.2.2.1 < (config_container key.1).nMarker_All
    ∧ (config_container key.1).Marker_All_Boundary key.2.2.1 = MarkerBoundary.SEND_RECEIVE
    ∧ (config_container key.1).Marker_All_SendRecv key.2.2.1 < 0
    ∧ key.2.2.2 < geometry_container.nVertex (key.1, MESH_0, key.2.2.1)
    ∧ geometry_container.Matching_Zone key ≠ key.1

instance receivesDonorDecidable {α : Type} (geometry_container : CGeometry α)
    (config_container : Nat → CConfig α) (nZone : Nat) (key : VertexKey) :
    Decidable (receivesDonor geometry_container config_container nZone key) :=
  inferInstanceAs (Decidable (key.1 < nZone ∧ key.2.1 = MESH_0
    ∧ key.2.2.1 < (config_container key.1).nMarker_All
    ∧ (config_container key.1).Marker_All_Boundary key.2.2.1 = MarkerBoundary.SEND_RECEIVE
    ∧ (config_container key.1).Marker_All_SendRecv key.2.2.1 < 0
    ∧ key.2.2.2 < geometry_container.nVertex (key.1, MESH_0, key.2.2.1)
    ∧ geometry_container.Matching_Zone key ≠ key.1))

/-- The donor data of a vertex after the write `w`. -/
def recordDonor {α : Type} (w : Nat × α × α × α) (old : CVertex α) : CVertex α :=
  { Donor_Elem := w.1
    Basis_Function :=
      Function.update (Function.update (Function.update old.Basis_Function 0 w.2.1) 1 w.2.2.1)
        2 w.2.2.2 }

/-- The donor data of the vertex `key` after the search over the elements of its
matching zone. -/
def donorResult {α : Type} [LinearOrderedField α] (geometry_container : CGeometry α)
    (key : VertexKey) (old : CVertex α) : CVertex α :=
  match lastDonorWrite geometry_container (geometry_container.Matching_Zone key)
      (nodeCoord geometry_container key.1 (geometry_container.vertex_Node key))
      (geometry_container.nElem (geometry_container.Matching_Zone key, MESH_0)) with
  | some w => recordDonor w old
  | none => old

/-- Twice the signed area of the triangle `X_0 X_1 X_2`: positive exactly when the
vertices are not collinear and in counter-clockwise order. -/
def orient2D {α : Type} [LinearOrderedField α] (X_0 X_1 X_2 : Nat → α) : α :=
  (X_1 0 - X_0 0) * (X_2 1 - X_0 1) - (X_2 0 - X_0 0) * (X_1 1 - X_0 1)

/-! ## `SetTimeSpectral_Velocities` -/

/-- The loop `for (i = start; i < stop; i++) body(i)`. -/
def forLoopFrom {σ : Type} (start stop : Nat) (body : Nat → σ → σ) (s : σ) : σ :=
  forLoop (stop - start) (fun i s => body (start + i) s) s

/-- The value of `highest_degree` (lines 1527-1528): `(nZone-1)/2.0` is computed
from the `int` `nZone-1` and converted to `int`, which truncates towards zero. -/
def highestDegree (nZone : Nat) : Int :=
  Int.tdiv ((nZone : Int) - 1) 2

/-- The loop "compute the Fourier coefficients" (lines 1567-1574) for the
coordinate direction `iDim`, on the arrays `ab = (a_coeffs, b_coeffs)`;
`nDegree` stands for `highest_degree+1`. -/
def fourierCoefficients {α : Type} [Field α] [LibM α] (nZone nDegree : Nat)
    (angular_positions : Nat → α) (coords : Nat → Nat → α) (iDim : Nat)
    (ab : (Nat → α) × (Nat → α)) : (Nat → α) × (Nat → α) :=
  forLoop nDegree (fun jDegree ab =>
    let a_coeffs := Function.update ab.1 jDegree 0
    let b_coeffs := Function.update ab.2 jDegree 0
    forLoop nZone (fun iZone ab =>
      (Function.update ab.1 jDegree (ab.1 jDegree
          + (2.0 / (nZone : α)) * LibM.cos ((jDegree : α) * angular_positions iZone)
            * coords iZone iDim),
       Function.update ab.2 jDegree (ab.2 jDegree
          + (2.0 / (nZone : α)) * LibM.sin ((jDegree : α) * angular_positions iZone)
            * coords iZone iDim))) (a_coeffs, b_coeffs)) ab

/-- The loop "find the interpolation of the coordinates and its derivative"
(lines 1577-1584), on the arrays `fit = (fitted_coords, fitted_velocities)`. -/
def fittedVelocities {α : Type} [Field α] [LibM α] (nZone nDegree : Nat)
    (angular_interval deltaT : α) (angular_positions a_coeffs b_coeffs : Nat → α)
    (fit : (Nat → α) × (Nat → α)) : (Nat → α) × (Nat → α) :=
  forLoop nZone (fun iZone fit =>
    let fitted_coords := Function.update fit.1 iZone (a_coeffs 0 / 2.0)
    let fitted_velocities := Function.update fit.2 iZone 0.0
    forLoopFrom 1 nDegree (fun jDegree fit =>
      (Function.update fit.1 iZone (fit.1 iZone
          + a_coeffs jDegree * LibM.cos ((jDegree : α) * angular_positions iZone)
          + b_coeffs jDegree * LibM.sin ((jDegree : α) * angular_positions iZone)),
       Function.update fit.2 iZone (fit.2 iZone
          + (angular_interval / deltaT) * (jDegree : α)
            * (b_coeffs jDegree * LibM.cos ((jDegree : α) * angular_positions iZone)
              - a_coeffs jDegree * LibM.sin ((jDegree : α) * angular_positions iZone)))))
      (fitted_coords, fitted_velocities)) fit

/-- The body of the loop over the points of one grid level (lines 1550-1593). The
work arrays `coords`, `a_coeffs`, `b_coeffs`, `fitted_coords` and
`fitted_velocities` are allocated once by the function; every entry read in a pass
is assigned earlier in the same pass, so each pass starts here from zeroed arrays. -/
def pointVelocities {α : Type} [Field α] [LibM α] (geometry_container : CGeometry α)
    (nZone nDim nDegree : Nat) (angular_interval deltaT : α) (angular_positions : Nat → α)
    (iMGlevel iPoint : Nat) (GridVel : Nat × Nat × Nat × Nat → α) :
    Nat × Nat × Nat × Nat → α :=
  let coords := forLoop nZone (fun iZone coords =>
    forLoop nDim (fun iDim coords =>
      setEntry coords iZone iDim (geometry_container.Coord (iZone, iMGlevel, iPoint, iDim)))
      coords) (fun _ _ => 0)
  forLoop nDim (fun iDim GridVel =>
    let ab := fourierCoefficients nZone nDegree angular_positions coords iDim
      (fun _ => 0, fun _ => 0)
    let fit := fittedVelocities nZone nDegree angular_interval deltaT angular_positions
      ab.1 ab.2 (fun _ => 0, fun _ => 0)
    forLoop nZone (fun iZone GridVel =>
      Function.update GridVel (iZone, iMGlevel, iPoint, iDim) (fit.2 iZone)) GridVel) GridVel

/-- The part of `SetTimeSpectral_Velocities` that computes and stores the grid
velocities (lines 1496-1595). `SetGridVel` is its only write, so the loops thread the
grid velocities; coordinates are read from the argument. -/
def storeGridVelocities {α : Type} [Field α] [LibM α] (geometry_container : CGeometry α)
    (config_container : Nat → CConfig α) (nZone : Nat) : CGeometry α :=
  let nDim := geometry_container.nDim (ZONE_0, MESH_0)
  let angular_interval := 2.0 * LibM.PI_NUMBER / (nZone : α)
  let period := oscillationPeriod config_container
  let deltaT := period / ((config_container ZONE_0).nTimeInstances : α)
  let angular_positions := forLoop nZone (fun iZone angular_positions =>
    Function.update angular_positions iZone ((iZone : α) * angular_interval)) (fun _ => 0)
  let nDegree := (highestDegree nZone + 1).toNat
  { geometry_container with
    GridVel := forLoop ((config_container ZONE_0).MGLevels + 1) (fun iMGlevel GridVel =>
      forLoop (geometry_container.nPoint (ZONE_0, iMGlevel)) (fun iPoint GridVel =>
        pointVelocities geometry_container nZone nDim nDegree angular_interval deltaT
          angular_positions iMGlevel iPoint GridVel) GridVel) geometry_container.GridVel }

/-- The clean-up loop of lines 1603-1605,
`for (iZone = 0; iZone < nDim; iZone++) delete [] coords[iZone];`, on the array
`coords`, which has the `nZone` rows allocated at lines 1531-1534: whether every row
the loop deletes is one of the allocated rows. For `iZone ≥ nZone` the loop reads
`coords[iZone]` past the end of the array and hands what it finds to `delete []`. -/
def deleteRows (nZone nDim : Nat) : Bool :=
  forLoop nDim (fun iZone ok => ok && decide (iZone < nZone)) true

/-- The function `SetTimeSpectral_Velocities` (lines 1493-1608): the geometry with
the grid velocities stored, or `none` when the run has no defined result, because
the clean-up loop at its end deletes rows of `coords` that were never allocated. -/
def SetTimeSpectral_Velocities {α : Type} [Field α] [LibM α] (geometry_container : CGeometry α)
    (config_container : Nat → CConfig α) (nZone : Nat) : Option (CGeometry α) :=
  let nDim := geometry_container.nDim (ZONE_0, MESH_0)
  let stored := storeGridVelocities geometry_container config_container nZone
  if deleteRows nZone nDim then some stored else none

/-! ## Definitions used in the statements -/

/-- The grid velocity `SetTimeSpectral_Velocities` stores at instance `iZone` for the
point `iPoint` of level `iMGlevel` and the direction `iDim`: the entry `iZone` of
`fitted_velocities` in the pass of that point and direction. -/
def fittedVelocity {α : Type} [Field α] [LibM α] (geometry_container : CGeometry α)
    (nZone nDim nDegree : Nat) (angular_interval deltaT : α) (angular_positions : Nat → α)
    (iMGlevel iPoint iDim iZone : Nat) : α :=
  let coords := forLoop nZone (fun iZone coords =>
    forLoop nDim (fun iDim coords =>
      setEntry coords iZone iDim (geometry_container.Coord (iZone, iMGlevel, iPoint, iDim)))
      coords) (fun _ _ => 0)
  let ab := fourierCoefficients nZone nDegree angular_positions coords iDim
    (fun _ => 0, fun _ => 0)
  (fittedVelocities nZone nDegree angular_interval deltaT angular_positions
    ab.1 ab.2 (fun _ => 0, fun _ => 0)).2 iZone

/-- The Fourier coefficient `a_d = (2/n)·Σ_z cos(d·θ_z)·x_z`, `θ_z = 2πz/n`, of the
samples `x_0, ..., x_{n-1}`. -/
def cosCoefficient {α : Type} [Field α] [LibM α] (n : Nat) (x : Nat → α) (d : Nat) : α :=
  (2 / (n : α)) * ∑ z in Finset.range n,
    LibM.cos ((d : α) * (2 * LibM.PI_NUMBER * (z : α) / (n : α))) * x z

/-- The Fourier coefficient `b_d = (2/n)·Σ_z sin(d·θ_z)·x_z`, `θ_z = 2πz/n`, of the
samples `x_0, ..., x_{n-1}`. -/
def sinCoefficient {α : Type} [Field α] [LibM α] (n : Nat) (x : Nat → α) (d : Nat) : α :=
  (2 / (n : α)) * ∑ z in Finset.range n,
    LibM.sin ((d : α) * (2 * LibM.PI_NUMBER * (z : α) / (n : α))) * x z

/-- The solver whose sources `SetTimeSpectral` writes. -/
def solverOf (adjoint : Bool) : SolKind :=
  if adjoint then SolKind.ADJFLOW_SOL else SolKind.FLOW_SOL

/-- The function of the signed index difference behind `timeSpectralEntry`. -/
def timeSpectralKernel {α : Type} [Field α] [LibM α] (nZone : Nat) (m : ℤ) : α :=
  if nZone % 2 = 0 then
    (-1 : α) ^ m * (1 / LibM.tan (LibM.PI_NUMBER * (m : α) / (nZone : α)))
  else
    (-1 : α) ^ m * (1 / LibM.sin (LibM.PI_NUMBER * (m : α) / (nZone : α)))

/-! ## Sample data -/

/-- A two-zone mesh in 2-D. Zone 0 has one node, at `(1/2, 1/2)`, which is the one
vertex of its marker 0 and is matched with zone 1. Zone 1 is the unit square with
nodes `(0,0)`, `(1,0)`, `(1,1)`, `(0,1)`, split along the diagonal into the
triangles `(0,1,2)` and `(0,2,3)`: the node of zone 0 lies on their common edge. -/
def sampleGeometry (α : Type) [Field α] : CGeometry α where
  nDim := fun _ => 2
  nPoint := fun k => if k.1 = 0 then 1 else 4
  Coord := fun k =>
    if k.1 = 0 then 1 / 2
    else if k.2.2.1 = 0 then 0
    else if k.2.2.1 = 1 then (if k.2.2.2 = 0 then 1 else 0)
    else if k.2.2.1 = 2 then 1
    else (if k.2.2.2 = 0 then 0 else 1)
  GridVel := fun _ => 0
  nElem := fun k => if k.1 = 1 then 2 else 0
  elem_Node := fun k =>
    if k.2.2.1 = 0 then k.2.2.2 else (if k.2.2.2 = 0 then 0 else k.2.2.2 + 1)
  nVertex := fun k => if k.1 = 0 then 1 else 0
  vertex_Node := fun _ => 0
  Matching_Zone := fun k => if k.1 = 0 then 1 else 0
  vertex := fun _ => { Donor_Elem := 0, Basis_Function := fun _ => 0 }

/-- The mesh `sampleGeometry` declared three-dimensional. -/
def sampleGeometry3D (α : Type) [Field α] : CGeometry α :=
  { sampleGeometry α with nDim := fun _ => 3 }

/-- A configuration for `sampleGeometry`: zone 0 has one marker, the receiving side
of a `SEND_RECEIVE` pair, and the other zones have no marker; direct problem with
explicit time integration, one grid level, two time instances. -/
def sampleConfig (α : Type) [Field α] (zone : Nat) : CConfig α where
  Kind_TimeIntScheme_Flow := TimeIntScheme.RUNGE_KUTTA_EXPLICIT
  Kind_TimeIntScheme_AdjFlow := TimeIntScheme.RUNGE_KUTTA_EXPLICIT
  Adjoint := false
  Kind_Solver_RANS := false
  Pitching_Omega_X := fun _ => 0
  Pitching_Omega_Y := fun _ => 0
  Pitching_Omega_Z := fun _ => 1
  Omega_Ref := 1
  MGLevels := 0
  nTimeInstances := 2
  nMarker_All := if zone = 0 then 1 else 0
  Marker_All_Boundary := fun _ => MarkerBoundary.SEND_RECEIVE
  Marker_All_SendRecv := fun _ => -1

/-- The configuration `sampleConfig` with one time instance. -/
def sampleConfigOne (α : Type) [Field α] (zone : Nat) : CConfig α :=
  { sampleConfig α zone with nTimeInstances := 1 }

/-- The configuration `sampleConfig` with three time instances. -/
def sampleConfigThree (α : Type) [Field α] (zone : Nat) : CConfig α :=
  { sampleConfig α zone with nTimeInstances := 3 }

/-- The configuration `sampleConfig` with implicit time integration. -/
def sampleConfigImplicit (α : Type) [Field α] (zone : Nat) : CConfig α :=
  { sampleConfig α zone with Kind_TimeIntScheme_Flow := TimeIntScheme.EULER_IMPLICIT }

/-- A solution container with one variable per node. -/
def sampleSolution (α : Type) [Field α] : CSolution α where
  nVar := fun _ => 1
  Solution := fun k => (k.1 : α) + 1
  Solution_Old := fun k => (k.1 : α)
  TimeSpectral_Source := fun _ => 0

/-! ## `SetGrid_Movement` -/

/-- Kinds of grid movement. The enumeration is declared in a header outside the
sources at hand; `SetGrid_Movement` has a case for each kind named here, and every
other value takes the `default` branch of its switch. -/
inductive GridMovementKind where
  | NONE
  | RIGID_MOTION
  | EXTERNAL
  | EXTERNAL_ROTATION
  | FLUTTER
  | AEROELASTIC
  | other (code : Nat)
  deriving DecidableEq

/-- Kinds of unsteady simulation. The enumeration is declared in a header outside
the sources at hand; `SetGrid_Movement` only compares against `TIME_SPECTRAL`. -/
inductive UnsteadyKind where
  | TIME_SPECTRAL
  | other (code : Nat)
  deriving DecidableEq

/-- The configuration of a zone as `SetGrid_Movement` reads it: the values of
`CConfig` above and the two getters `GetKind_GridMovement(zone)` and
`GetUnsteady_Simulation()`. -/
structure CConfigMotion (α : Type) extends CConfig α where
  Kind_GridMovement : Nat → GridMovementKind
  Unsteady_Simulation : UnsteadyKind

/-- The operations on the mesh that `SetGrid_Movement` invokes, with the arguments
that select the grid level (the receiver or first argument
`geometry_container[level]`), the finer level handed over as source, the zone index
and the iteration number. The operations themselves lie outside the sources at hand. -/
inductive MeshCall (α : Type) where
  | SetRigidPlunging (iMGlevel iZone iter : Nat)
  | SetRigidPitching (iMGlevel iZone iter : Nat)
  | SetRigidRotation (iMGlevel iZone iter : Nat)
  | SetExternal_Deformation (iMGlevel iZone iter : Nat)
  | SetBoundary_Flutter2D (iMGlevel iter : Nat)
  | SetBoundary_Flutter3D (iMGlevel iter : Nat)
  | SpringMethod (iMGlevel : Nat) (UpdateGeo : Bool)
  | SetAeroElasticMotion (iMGlevel : Nat) (Cl Cm : α) (iZone iter : Nat)
  | SetControlVolume (iMGlevel fine : Nat)
  | SetBoundControlVolume (iMGlevel fine : Nat)
  | SetCoord (iMGlevel fine : Nat)
  | SetGridVelocity (iMGlevel iter : Nat)
  | SetRestricted_GridVelocity (iMGlevel fine iter : Nat)

/-- The function `SetGrid_Movement` (lines 922-1056) as the sequence of operations
it invokes, in the order of invocation. `nDim` is the value of
`geometry_container[MESH_0]->GetnDim()`, `Total_CLift` and `Total_CMz` the values
of the two getters of `solution_container[MESH_0][FLOW_SOL]`. The messages written
to `cout` are output only. The loops run `iMGlevel` from 1 to `MGLevels`. -/
def SetGrid_Movement {α : Type} (nDim : Nat) (Total_CLift Total_CMz : α)
    (config_container : CConfigMotion α) (iZone ExtIter : Nat) : List (MeshCall α) :=
  let Kind_Grid_Movement := config_container.Kind_GridMovement iZone
  let time_spectral :=
    decide (config_container.Unsteady_Simulation = UnsteadyKind.TIME_SPECTRAL)
  let ExtIter := if time_spectral then iZone else ExtIter
  let Kind_Grid_Movement :=
    if time_spectral then config_container.Kind_GridMovement ZONE_0 else Kind_Grid_Movement
  let calls : List (MeshCall α) := []
  let calls :=
    match Kind_Grid_Movement with
    | GridMovementKind.RIGID_MOTION =>
      calls ++ [MeshCall.SetRigidPlunging MESH_0 iZone ExtIter,
        MeshCall.SetRigidPitching MESH_0 iZone ExtIter,
        MeshCall.SetRigidRotation MESH_0 iZone ExtIter]
    | GridMovementKind.EXTERNAL | GridMovementKind.EXTERNAL_ROTATION =>
      let calls :=
        if Kind_Grid_Movement = GridMovementKind.EXTERNAL_ROTATION then
          calls ++ [MeshCall.SetRigidRotation MESH_0 iZone ExtIter]
        else calls
      calls ++ [MeshCall.SetExternal_Deformation MESH_0 iZone ExtIter,
        MeshCall.SpringMethod MESH_0 true]
    | GridMovementKind.FLUTTER =>
      let calls :=
        if nDim = 2 then calls ++ [MeshCall.SetBoundary_Flutter2D MESH_0 ExtIter]
        else calls ++ [MeshCall.SetBoundary_Flutter3D MESH_0 ExtIter]
      calls ++ [MeshCall.SpringMethod MESH_0 true]
    | GridMovementKind.AEROELASTIC =>
      let Cl := Total_CLift
      let Cm := Total_CMz
      calls ++ [MeshCall.SetAeroElasticMotion MESH_0 Cl Cm iZone ExtIter]
    | GridMovementKind.NONE | GridMovementKind.other _ => calls
  let calls := forLoopFrom 1 (config_container.MGLevels + 1) (fun iMGlevel calls =>
    calls ++ [MeshCall.SetControlVolume iMGlevel (iMGlevel - 1),
      MeshCall.SetBoundControlVolume iMGlevel (iMGlevel - 1),
      MeshCall.SetCoord iMGlevel (iMGlevel - 1)]) calls
  if !time_spectral then
    if !config_container.Adjoint then
      let calls := calls ++ [MeshCall.SetGridVelocity MESH_0 ExtIter]
      forLoopFrom 1 (config_container.MGLevels + 1) (fun iMGlevel calls =>
        calls ++ [MeshCall.SetGridVelocity iMGlevel ExtIter]) calls
    else
      forLoopFrom 1 (config_container.MGLevels + 1) (fun iMGlevel calls =>
        calls ++ [MeshCall.SetRestricted_GridVelocity iMGlevel (iMGlevel - 1) ExtIter]) calls
  else calls

/-- Whether an operation is one of rigid kinematics, surface movement or volumetric
deformation. -/
def MeshCall.isMotion {α : Type} : MeshCall α → Bool
  | .SetRigidPlunging _ _ _ => true
  | .SetRigidPitching _ _ _ => true
  | .SetRigidRotation _ _ _ => true
  | .SetExternal_Deformation _ _ _ => true
  | .SetBoundary_Flutter2D _ _ => true
  | .SetBoundary_Flutter3D _ _ => true
  | .SpringMethod _ _ => true
  | .SetAeroElasticMotion _ _ _ _ _ => true
  | _ => false

/-- Whether an operation computes grid velocities. -/
def MeshCall.isVelocityUpdate {α : Type} : MeshCall α → Bool
  | .SetGridVelocity _ _ => true
  | .SetRestricted_GridVelocity _ _ _ => true
  | _ => false

/-- The restriction of the geometry to the coarse levels `1..MGLevels`, each from
the next finer level, in increasing level order. -/
def restrictionCalls (α : Type) (MGLevels : Nat) : List (MeshCall α) :=
  (List.range MGLevels).flatMap (fun i =>
    [MeshCall.SetControlVolume (i + 1) i, MeshCall.SetBoundControlVolume (i + 1) i,
      MeshCall.SetCoord (i + 1) i])

/-- The grid-velocity update of a run that is not time-spectral: `SetGridVelocity`
on the levels `0..MGLevels` for the direct problem, `SetRestricted_GridVelocity` on
the levels `1..MGLevels`, each from the next finer level, for the adjoint problem. -/
def velocityCalls (α : Type) (adjoint : Bool) (MGLevels iter : Nat) : List (MeshCall α) :=
  if adjoint then
    (List.range MGLevels).map (fun i => MeshCall.SetRestricted_GridVelocity (i + 1) i iter)
  else
    (List.range (MGLevels + 1)).map (fun l => MeshCall.SetGridVelocity l iter)

/-- The motion kind `SetGrid_Movement` switches on: that of zone 0 in a
time-spectral run, that of the zone otherwise. -/
def motionKind {α : Type} (config_container : CConfigMotion α) (iZone : Nat) :
    GridMovementKind :=
  if config_container.Unsteady_Simulation = UnsteadyKind.TIME_SPECTRAL then
    config_container.Kind_GridMovement ZONE_0
  else config_container.Kind_GridMovement iZone

/-- The iteration number `SetGrid_Movement` hands to the operations: the zone index
in a time-spectral run, the one it was called with otherwise. -/
def motionIter {α : Type} (config_container : CConfigMotion α) (iZone ExtIter : Nat) : Nat :=
  if config_container.Unsteady_Simulation = UnsteadyKind.TIME_SPECTRAL then iZone else ExtIter

/-- The operations of the branch of a motion kind. -/
def motionCalls {α : Type} (nDim : Nat) (Cl Cm : α) (kind : GridMovementKind)
    (iZone iter : Nat) : List (MeshCall α) :=
  match kind with
  | GridMovementKind.RIGID_MOTION =>
    [MeshCall.SetRigidPlunging MESH_0 iZone iter, MeshCall.SetRigidPitching MESH_0 iZone iter,
      MeshCall.SetRigidRotation MESH_0 iZone iter]
  | GridMovementKind.EXTERNAL =>
    [MeshCall.SetExternal_Deformation MESH_0 iZone iter, MeshCall.SpringMethod MESH_0 true]
  | GridMovementKind.EXTERNAL_ROTATION =>
    [MeshCall.SetRigidRotation MESH_0 iZone iter,
      MeshCall.SetExternal_Deformation MESH_0 iZone iter, MeshCall.SpringMethod MESH_0 true]
  | GridMovementKind.FLUTTER =>
    [if nDim = 2 then MeshCall.SetBoundary_Flutter2D MESH_0 iter
      else MeshCall.SetBoundary_Flutter3D MESH_0 iter, MeshCall.SpringMethod MESH_0 true]
  | GridMovementKind.AEROELASTIC => [MeshCall.SetAeroElasticMotion MESH_0 Cl Cm iZone iter]
  | GridMovementKind.NONE => []
  | GridMovementKind.other _ => []

/-- A direct, time-accurate configuration of `SetGrid_Movement` with two coarse
levels; every zone has the given motion kind. -/
def sampleConfigMotion (α : Type) [Field α] (kind : GridMovementKind) : CConfigMotion α :=
  { sampleConfig α 0 with
    MGLevels := 2
    Kind_GridMovement := fun _ => kind
    Unsteady_Simulation := UnsteadyKind.other 0 }

/-- The configuration `sampleConfigMotion` of a time-spectral run. -/
def sampleConfigTimeSpectral (α : Type) [Field α] (kind : GridMovementKind) : CConfigMotion α :=
  { sampleConfigMotion α kind with Unsteady_Simulation := UnsteadyKind.TIME_SPECTRAL }

/-! ## `Solver_Definition`: the flow problem -/

/-- Kinds of convective scheme. The enumerations of numerical schemes are declared
in a header outside the sources at hand; each type here names the values that have a
`case` in `Solver_Definition`, and every other value takes the `default` branch. -/
inductive ConvNumScheme where
  | NO_CONVECTIVE
  | SPACE_CENTERED
  | SPACE_UPWIND
  | other (code : Nat)
  deriving DecidableEq

/-- Kinds of centered scheme. -/
inductive CenteredScheme where
  | NO_CENTERED
  | LAX
  | JST
  | other (code : Nat)
  deriving DecidableEq

/-- Kinds of upwind scheme. -/
inductive UpwindScheme where
  | NO_UPWIND
  | ROE_1ST
  | ROE_2ND
  | AUSM_1ST
  | AUSM_2ND
  | ROE_TURKEL_1ST
  | ROE_TURKEL_2ND
  | HLLC_1ST
  | HLLC_2ND
  | other (code : Nat)
  deriving DecidableEq

/-- Kinds of viscous scheme. -/
inductive ViscNumScheme where
  | NONE
  | AVG_GRAD
  | AVG_GRAD_CORRECTED
  | GALERKIN
  | other (code : Nat)
  deriving DecidableEq

/-- Kinds of source term integration. -/
inductive SourNumScheme where
  | NONE
  | PIECEWISE_CONSTANT
  | other (code : Nat)
  deriving DecidableEq

/-- The terms of an equation that have a slot in `solver_container`. -/
inductive NumericsTerm where
  | CONV_TERM
  | VISC_TERM
  | SOURCE_FIRST_TERM
  | SOURCE_SECOND_TERM
  | BOUND_TERM
  deriving DecidableEq

/-- The numerics classes that the flow part of `Solver_Definition` instantiates. -/
inductive CNumerics where
  | CCentLaxArtComp_Flow
  | CCentJSTArtComp_Flow
  | CUpwRoeArtComp_Flow
  | CCentLax_Flow
  | CCentJST_Flow
  | CUpwRoe_Flow
  | CUpwAUSM_Flow
  | CUpwRoe_Turkel_Flow
  | CUpwHLLC_Flow
  | CAvgGradArtComp_Flow
  | CAvgGrad_Flow
  | CAvgGradCorrectedArtComp_Flow
  | CAvgGradCorrected_Flow
  | CSourceRotationalFrame_Flow
  | CSourceAxisymmetric_Flow
  | CSourcePieceWise_Gravity
  | CSource_Magnet
  | CSource_JouleHeating
  | CSourceNothing
  deriving DecidableEq

/-- The configuration as the flow part of `Solver_Definition` reads it: the values
of `CConfig` above, the scheme selections, `GetIncompressible()` and the five
options compared with `YES`. -/
structure CConfigSolver (α : Type) extends CConfig α where
  Kind_ConvNumScheme_Flow : ConvNumScheme
  Kind_Centered_Flow : CenteredScheme
  Kind_Upwind_Flow : UpwindScheme
  Kind_ViscNumScheme_Flow : ViscNumScheme
  Kind_SourNumScheme_Flow : SourNumScheme
  Incompressible : Bool
  Rotating_Frame : Bool
  Axisymmetric : Bool
  GravityForce : Bool
  Magnetic_Force : Bool
  JouleHeating : Bool

/-- The slots `solver_container[iMGlevel][FLOW_SOL][term]`, under the key
`(iMGlevel, term)`; `none` is a slot that has not been assigned. -/
abbrev FlowSlots := Nat × NumericsTerm → Option CNumerics

/-- The assignment `solver_container[iMGlevel][FLOW_SOL][term] = new C(...)`. -/
def setSlot (solver_container : FlowSlots) (iMGlevel : Nat) (term : NumericsTerm)
    (C : CNumerics) : FlowSlots :=
  Function.update solver_container (iMGlevel, term) (some C)

/-- The loop `for (iMGlevel = first; iMGlevel <= MGLevels; iMGlevel++)` assigning one
class to the slot `term` of every level. -/
def setSlotLevels (first MGLevels : Nat) (term : NumericsTerm) (C : CNumerics)
    (solver_container : FlowSlots) : FlowSlots :=
  forLoopFrom first (MGLevels + 1) (fun iMGlevel solver_container =>
    setSlot solver_container iMGlevel term C) solver_container

/-- The switch on the convective scheme of the flow problem (lines 742-833). No
branch of it calls `exit`; the messages and the waits for a key are not modelled. -/
def flowConvective {α : Type} (config : CConfigSolver α) (solver_container : FlowSlots) :
    FlowSlots :=
  match config.Kind_ConvNumScheme_Flow with
  | ConvNumScheme.NO_CONVECTIVE => solver_container
  | ConvNumScheme.SPACE_CENTERED =>
    if config.Incompressible then
      let solver_container :=
        match config.Kind_Centered_Flow with
        | CenteredScheme.NO_CENTERED => solver_container
        | CenteredScheme.LAX =>
          setSlot solver_container MESH_0 NumericsTerm.CONV_TERM CNumerics.CCentLaxArtComp_Flow
        | CenteredScheme.JST =>
          setSlot solver_container MESH_0 NumericsTerm.CONV_TERM CNumerics.CCentJSTArtComp_Flow
        | CenteredScheme.other _ => solver_container
      let solver_container := setSlotLevels 1 config.MGLevels NumericsTerm.CONV_TERM
        CNumerics.CCentLaxArtComp_Flow solver_container
      setSlotLevels 0 config.MGLevels NumericsTerm.BOUND_TERM CNumerics.CUpwRoeArtComp_Flow
        solver_container
    else
      let solver_container :=
        match config.Kind_Centered_Flow with
        | CenteredScheme.NO_CENTERED => solver_container
        | CenteredScheme.LAX =>
          setSlot solver_container MESH_0 NumericsTerm.CONV_TERM CNumerics.CCentLax_Flow
        | CenteredScheme.JST =>
          setSlot solver_container MESH_0 NumericsTerm.CONV_TERM CNumerics.CCentJST_Flow
        | CenteredScheme.other _ => solver_container
      let solver_container := setSlotLevels 1 config.MGLevels NumericsTerm.CONV_TERM
        CNumerics.CCentLax_Flow solver_container
      setSlotLevels 0 config.MGLevels NumericsTerm.BOUND_TERM CNumerics.CUpwRoe_Flow
        solver_container
  | ConvNumScheme.SPACE_UPWIND =>
    let both (C : CNumerics) : FlowSlots :=
      forLoopFrom 0 (config.MGLevels + 1) (fun iMGlevel solver_container =>
        setSlot (setSlot solver_container iMGlevel NumericsTerm.CONV_TERM C)
          iMGlevel NumericsTerm.BOUND_TERM C) solver_container
    if config.Incompressible then
      match config.Kind_Upwind_Flow with
      | UpwindScheme.NO_UPWIND => solver_container
      | UpwindScheme.ROE_1ST | UpwindScheme.ROE_2ND => both CNumerics.CUpwRoeArtComp_Flow
      | _ => solver_container
    else
      match config.Kind_Upwind_Flow with
      | UpwindScheme.NO_UPWIND => solver_container
      | UpwindScheme.ROE_1ST | UpwindScheme.ROE_2ND => both CNumerics.CUpwRoe_Flow
      | UpwindScheme.AUSM_1ST | UpwindScheme.AUSM_2ND => both CNumerics.CUpwAUSM_Flow
      | UpwindScheme.ROE_TURKEL_1ST | UpwindScheme.ROE_TURKEL_2ND =>
        both CNumerics.CUpwRoe_Turkel_Flow
      | UpwindScheme.HLLC_1ST | UpwindScheme.HLLC_2ND => both CNumerics.CUpwHLLC_Flow
      | UpwindScheme.other _ => solver_container
  | ConvNumScheme.other _ => solver_container

/-- The switch on the viscous scheme of the flow problem (lines 835-869): the
branches `GALERKIN` and `default` call `exit(1)`. -/
def flowViscous {α : Type} (config : CConfigSolver α) (solver_container : FlowSlots) :
    Outcome FlowSlots :=
  match config.Kind_ViscNumScheme_Flow with
  | ViscNumScheme.NONE => .completed solver_container
  | ViscNumScheme.AVG_GRAD =>
    if config.Incompressible then
      .completed (setSlotLevels 0 config.MGLevels NumericsTerm.VISC_TERM
        CNumerics.CAvgGradArtComp_Flow solver_container)
    else
      .completed (setSlotLevels 0 config.MGLevels NumericsTerm.VISC_TERM
        CNumerics.CAvgGrad_Flow solver_container)
  | ViscNumScheme.AVG_GRAD_CORRECTED =>
    if config.Incompressible then
      .completed (setSlotLevels 1 config.MGLevels NumericsTerm.VISC_TERM
        CNumerics.CAvgGradArtComp_Flow
        (setSlot solver_container MESH_0 NumericsTerm.VISC_TERM
          CNumerics.CAvgGradCorrectedArtComp_Flow))
    else
      .completed (setSlotLevels 1 config.MGLevels NumericsTerm.VISC_TERM
        CNumerics.CAvgGrad_Flow
        (setSlot solver_container MESH_0 NumericsTerm.VISC_TERM
          CNumerics.CAvgGradCorrected_Flow))
  | ViscNumScheme.GALERKIN => .exited solver_container
  | ViscNumScheme.other _ => .exited solver_container

/-- The switch on the source term integration of the flow problem (lines 871-904).
No branch of it calls `exit`. -/
def flowSource {α : Type} (config : CConfigSolver α) (solver_container : FlowSlots) :
    FlowSlots :=
  match config.Kind_SourNumScheme_Flow with
  | SourNumScheme.NONE => solver_container
  | SourNumScheme.PIECEWISE_CONSTANT =>
    forLoopFrom 0 (config.MGLevels + 1) (fun iMGlevel solver_container =>
      let solver_container :=
        if config.Rotating_Frame then
          setSlot solver_container iMGlevel NumericsTerm.SOURCE_FIRST_TERM
            CNumerics.CSourceRotationalFrame_Flow
        else if config.Axisymmetric then
          setSlot solver_container iMGlevel NumericsTerm.SOURCE_FIRST_TERM
            CNumerics.CSourceAxisymmetric_Flow
        else if config.GravityForce then
          setSlot solver_container iMGlevel NumericsTerm.SOURCE_FIRST_TERM
            CNumerics.CSourcePieceWise_Gravity
        else if config.Magnetic_Force then
          setSlot solver_container iMGlevel NumericsTerm.SOURCE_FIRST_TERM
            CNumerics.CSource_Magnet
        else if config.JouleHeating then
          setSlot solver_container iMGlevel NumericsTerm.SOURCE_FIRST_TERM
            CNumerics.CSource_JouleHeating
        else
          setSlot solver_container iMGlevel NumericsTerm.SOURCE_FIRST_TERM
            CNumerics.CSourceNothing
      setSlot solver_container iMGlevel NumericsTerm.SOURCE_SECOND_TERM CNumerics.CSourceNothing)
      solver_container
  | SourNumScheme.other _ => solver_container

/-- The block "Solver definition for the Potential, Euler, Navier-Stokes problems"
of `Solver_Definition` (lines 739-906): the three switches in sequence, on the slots
of the flow solver as allocated (none assigned). `euler` and `navierstokes` are the
booleans the function derives from the kind of solver. -/
def Solver_Definition_Flow {α : Type} (config : CConfigSolver α) (euler navierstokes : Bool)
    (solver_container : FlowSlots) : Outcome FlowSlots :=
  if euler || navierstokes then
    match flowViscous config (flowConvective config solver_container) with
    | .completed solver_container => .completed (flowSource config solver_container)
    | .exited solver_container => .exited solver_container
  else .completed solver_container

/-- An Euler configuration whose convective scheme is a value without a `case`;
no viscous scheme, no source term. -/
def sampleConfigSolver (α : Type) [Field α] : CConfigSolver α :=
  { sampleConfig α 0 with
    MGLevels := 2
    Kind_ConvNumScheme_Flow := ConvNumScheme.other 9
    Kind_Centered_Flow := CenteredScheme.NO_CENTERED
    Kind_Upwind_Flow := UpwindScheme.NO_UPWIND
    Kind_ViscNumScheme_Flow := ViscNumScheme.NONE
    Kind_SourNumScheme_Flow := SourNumScheme.NONE
    Incompressible := false
    Rotating_Frame := false
    Axisymmetric := false
    GravityForce := false
    Magnetic_Force := false
    JouleHeating := false }

/-! ## The Bezier box (`CFreeFormChunk`)

The member functions of `CFreeFormChunk` are declared and documented in
`grid_movement_structure.hpp`; their bodies are not among the sources at hand. -/

/-- Modelled from the spec: the body of `CFreeFormChunk::Factorial`, of which the
header gives the declaration and the words "the Factorial Number n! is defined as
n!=n*(n-1)*...*2*1". Integers are unbounded here. -/
def Factorial : Nat → Nat
  | 0 => 1
  | n + 1 => (n + 1) * Factorial n

/-- Modelled from the spec: the body of `CFreeFormChunk::Binomial`, of which the
header gives the declaration and the words "the binomial coefficient n over i,
defined as n!/(m!(n-m)!)" and "if the denominator is 0, the value is 1". Integers
are unbounded here; the function is used for `m ≤ n`. -/
def Binomial (n m : Nat) : Nat :=
  if Factorial m * Factorial (n - m) = 0 then 1
  else Factorial n / (Factorial m * Factorial (n - m))

/-- Modelled from the spec: the factorial as a value of the declared return type
`unsigned short` of `CFreeFormChunk::Factorial`, reduced modulo `2^16`. -/
def Factorial_ushort (n : Nat) : Nat :=
  Factorial n % 65536

/-- Modelled from the spec: the documented quotient `n!/(m!(n-m)!)`, value 1 when
the denominator is 0, formed from factorials of type `unsigned short` and returned
in the declared type `unsigned short` of `CFreeFormChunk::Binomial`. -/
def Binomial_ushort (n m : Nat) : Nat :=
  if Factorial_ushort m * Factorial_ushort (n - m) = 0 then 1
  else (Factorial_ushort n / (Factorial_ushort m * Factorial_ushort (n - m))) % 65536

/-- Modelled from the spec: the body of `CFreeFormChunk::GetBernstein`, of which the
header gives the declaration (`short` degree and order) and the words "the Bernstein
polynomial, defined as B_i^n(t) = Binomial(n,i)*t^i*(1-t)^(n-i)". An order outside
`0..n` gives 0: the spec says so for the order `-1` that the derivative formula
meets, and the basis polynomial of an order above the degree is the zero polynomial. -/
def GetBernstein {α : Type} [Field α] (val_n val_i : Int) (val_t : α) : α :=
  if val_i < 0 ∨ val_n < val_i then 0
  else (Binomial val_n.toNat val_i.toNat : α) * val_t ^ val_i.toNat
    * (1 - val_t) ^ (val_n - val_i).toNat

/-- Modelled from the spec: the first derivative returned by
`CFreeFormChunk::GetBernsteinDerivative` (`val_order = 1`), of which the header
gives the declaration and the words "calculated as
n*(GetBernstein(n-1,i-1,t)-GetBernstein(n-1,i,t)), having in account that if i=0,
GetBernstein(n-1,-1,t) = 0". -/
def GetBernsteinDerivative {α : Type} [Field α] (val_n val_i : Int) (val_t : α) : α :=
  (val_n : α) * (GetBernstein (val_n - 1) (val_i - 1) val_t - GetBernstein (val_n - 1) val_i val_t)

/-- The degrees and the control points `Coord_Control_Points[i][j][k][iDim]` of a
`CFreeFormChunk`. -/
structure CFreeFormChunk (α : Type) where
  lDegree : Nat
  mDegree : Nat
  nDegree : Nat
  Coord_Control_Points : Nat → Nat → Nat → Nat → α

/-- Modelled from the spec: the body of `CFreeFormChunk::EvalCartesianCoord`, of
which the header gives the declaration; the spec gives
`X(u,v,w) = Σ_ijk P_ijk · B_i^l(u)·B_j^m(v)·B_k^n(w)`. -/
def EvalCartesianCoord {α : Type} [Field α] (chunk : CFreeFormChunk α)
    (param_coord : Nat → α) : Nat → α :=
  fun iDim =>
    ∑ i in Finset.range (chunk.lDegree + 1), ∑ j in Finset.range (chunk.mDegree + 1),
      ∑ k in Finset.range (chunk.nDegree + 1),
        chunk.Coord_Control_Points i j k iDim
          * GetBernstein (chunk.lDegree : Int) (i : Int) (param_coord 0)
          * GetBernstein (chunk.mDegree : Int) (j : Int) (param_coord 1)
          * GetBernstein (chunk.nDegree : Int) (k : Int) (param_coord 2)

/-- Modelled from the spec: the body of `CFreeFormChunk::SetControlPoints`, of which
the header gives the declaration and the words "set the new value of the coordinates
of the control points", with `val_index` the "local index (i,j,k) of the control
point" and `movement` the "movement of the control point". -/
def SetControlPoints {α : Type} [Field α] (chunk : CFreeFormChunk α) (val_index : Nat → Nat)
    (movement : Nat → α) : CFreeFormChunk α :=
  { chunk with
    Coord_Control_Points := fun i j k iDim =>
      if i = val_index 0 ∧ j = val_index 1 ∧ k = val_index 2 then
        chunk.Coord_Control_Points i j k iDim + movement iDim
      else chunk.Coord_Control_Points i j k iDim }

/-- A box of degree `(1,1,1)`: the unit cube, control point `(i,j,k)` at the corner
`(i,j,k)`. -/
def sampleChunk (α : Type) [Field α] : CFreeFormChunk α where
  lDegree := 1
  mDegree := 1
  nDegree := 1
  Coord_Control_Points := fun i j k iDim =>
    if iDim = 0 then (i : α) else if iDim = 1 then (j : α) else (k : α)

/-- Whether an operation restricts the geometry of a finer level to a coarse level
(lines 1028-1030). -/
def MeshCall.isRestriction {α : Type} : MeshCall α → Bool
  | .SetControlVolume _ _ => true
  | .SetBoundControlVolume _ _ => true
  | .SetCoord _ _ => true
  | _ => false

/-- The configuration `sampleConfig` of an adjoint run. -/
def sampleConfigAdjoint (α : Type) [Field α] (zone : Nat) : CConfig α :=
  { sampleConfig α zone with Adjoint := true }

/-- The magnitude `Omega_mag` of the pitching frequency (lines 1506-1509), the
denominator of the period of oscillation. -/
def Omega_mag {α : Type} [Field α] [LibM α] (config_container : Nat → CConfig α) : α :=
  let Omega_0 := (config_container ZONE_0).Pitching_Omega_X ZONE_0 / (config_container ZONE_0).Omega_Ref
  let Omega_1 := (config_container ZONE_0).Pitching_Omega_Y ZONE_0 / (config_container ZONE_0).Omega_Ref
  let Omega_2 := (config_container ZONE_0).Pitching_Omega_Z ZONE_0 / (config_container ZONE_0).Omega_Ref
  LibM.sqrt (Omega_0 ^ 2 + Omega_1 ^ 2 + Omega_2 ^ 2)

/-- The mesh `sampleGeometry` with every node at the same place in every zone: the
node `p` lies at `(p + 1, p + 2)`. -/
def sampleGeometryFixed (α : Type) [Field α] : CGeometry α :=
  { sampleGeometry α with Coord := fun k => (k.2.2.1 : α) + (k.2.2.2 : α) + 1 }

/-- The two-zone mesh `sampleGeometry` with the node of zone 0 at `(3/4, 1/4)` and a
donor zone of one element, the triangle with the nodes `n0`, `n1`, `n2` of the unit
square, stored in this order; the donor record of every vertex holds the element
index 9 and zero weights. -/
def sampleGeometryTriangle (α : Type) [Field α] (n0 n1 n2 : Nat) : CGeometry α :=
  { sampleGeometry α with
    Coord := fun k =>
      if k.1 = 0 then (if k.2.2.2 = 0 then 3 / 4 else 1 / 4) else (sampleGeometry α).Coord k
    nElem := fun k => if k.1 = 1 then 1 else 0
    elem_Node := fun k => if k.2.2.2 = 0 then n0 else if k.2.2.2 = 1 then n1 else n2
    vertex := fun _ => { Donor_Elem := 9, Basis_Function := fun _ => 0 } }

/-- The mesh `sampleGeometryTriangle` declared three-dimensional. -/
def sampleGeometryTriangle3D (α : Type) [Field α] (n0 n1 n2 : Nat) : CGeometry α :=
  { sampleGeometryTriangle α n0 n1 n2 with nDim := fun _ => 3 }

/-! ## `MeanFlowIteration` -/

/-- The loop `for (i = 0; i < n; i++) { body(i); if (stop) break; }` run from the
index `i` with `k` indices left: the result is the value of the loop variable after
the loop and the state. The body returns the state and whether it leaves the loop;
the loop variable keeps its value at a `break` and is `n` when the loop runs out. -/
def forLoopBreakFrom {σ : Type} (body : Nat → σ → σ × Bool) : Nat → Nat → σ → Nat × σ
  | 0, i, s => (i, s)
  | k + 1, i, s =>
    if (body i s).2 then (i, (body i s).1)
    else forLoopBreakFrom body k (i + 1) (body i s).1

/-- The loop `for (i = 0; i < n; i++) { body(i); if (stop) break; }`. -/
def forLoopBreak {σ : Type} (n : Nat) (body : Nat → σ → σ × Bool) (s : σ) : Nat × σ :=
  forLoopBreakFrom body n 0 s

/-- Kinds of unsteady simulation as `MeanFlowIteration` tells them apart. The
enumeration is declared in a header outside the sources at hand. -/
inductive UnsteadySimulation where
  | TIME_SPECTRAL
  | DT_STEPPING_1ST
  | DT_STEPPING_2ND
  | other (code : Nat)
  deriving DecidableEq

/-- Kinds of solver as `MeanFlowIteration` tells them apart. -/
inductive FlowSolverKind where
  | EULER
  | NAVIER_STOKES
  | RANS
  | other (code : Nat)
  deriving DecidableEq

/-- Kinds of transition model; `MeanFlowIteration` only compares against `LM`. -/
inductive TransModel where
  | LM
  | other (code : Nat)
  deriving DecidableEq

/-- The positions of the equation systems in a solution container and in an
integration container (`FLOW_SOL`, ...). The constants are declared in a header
outside the sources at hand. -/
inductive SolIndex where
  | TEMPLATE_SOL
  | FLOW_SOL
  | TURB_SOL
  | TRANS_SOL
  | ELEC_SOL
  | PLASMA_SOL
  | LEVELSET_SOL
  | WAVE_SOL
  | FEA_SOL
  | ADJFLOW_SOL
  | ADJTURB_SOL
  | ADJLEVELSET_SOL
  | ADJPLASMA_SOL
  | LINFLOW_SOL
  deriving DecidableEq

/-- The systems of equations a solver call is made for. -/
inductive RuntimeSystem where
  | RUNTIME_FLOW_SYS
  | RUNTIME_TURB_SYS
  | RUNTIME_TRANS_SYS
  deriving DecidableEq

/-- The configuration values (`CConfig` getters) of a zone read by
`MeanFlowIteration`. -/
structure CConfigIteration (α : Type) where
  Unsteady_Simulation : UnsteadySimulation
  nTimeInstances : Nat
  Relative_Motion : Bool
  Grid_Movement : Bool
  Kind_GridMovement : Nat → GridMovementKind
  Kind_Solver : FlowSolverKind
  Kind_Trans_Model : TransModel
  Unst_nIntIter : Nat
  MGLevels : Nat
  Delta_UnstTime : α
  Total_UnstTime : α

/-- The operations `MeanFlowIteration` invokes. `container` is the index that selects
the containers of a zone handed to `SetGrid_Movement` (`geometry_container[i]`,
`surface_movement[i]`, `grid_movement[i]`, `chunk[i]`, `solution_container[i]`,
`config_container[i]`, all with the same `i`); `sol` is the position of the receiver
in `integration_container[iZone]`. The operations themselves lie outside this
function. -/
inductive IterCall where
  | SetGrid_Movement (container iZone iter : Nat)
  | SetSliding_Interfaces (nZone : Nat)
  | SetInitialCondition (iZone ExtIter : Nat)
  | SetGlobalParam (iZone : Nat) (solver : FlowSolverKind) (system : RuntimeSystem)
      (ExtIter : Nat)
  | SetMultiGrid_Solver (sol : SolIndex) (system : RuntimeSystem) (IntIter iZone : Nat)
  | SetSingleGrid_Solver (sol : SolIndex) (system : RuntimeSystem) (IntIter iZone : Nat)
  | SetTimeSpectral (nZone iZone : Nat)
  | SetHistory_DualTime (IntIter iZone : Nat)
  | SetDualTime_Solver (iZone : Nat) (sol : SolIndex) (iMesh : Nat)
  | SetConvergence (iZone : Nat) (sol : SolIndex) (value : Bool)
  deriving DecidableEq

/-- Whether the unsteady simulation of a zone uses dual time stepping. -/
def dualTime {α : Type} (config : CConfigIteration α) : Bool :=
  decide (config.Unsteady_Simulation = UnsteadySimulation.DT_STEPPING_1ST)
    || decide (config.Unsteady_Simulation = UnsteadySimulation.DT_STEPPING_2ND)

/-- The calls that advance the zone `iZone` by one iteration with the internal
iteration number `IntIter`: the update of the global parameters and the solution of
the flow equations, of the turbulence model and of the transition model (lines 67-88,
and again lines 104-123). -/
def advanceZone {α : Type} (config_container : Nat → CConfigIteration α)
    (ExtIter IntIter iZone : Nat) : List IterCall :=
  let calls : List IterCall := []
  let calls :=
    if (config_container iZone).Kind_Solver = FlowSolverKind.EULER then
      calls ++ [IterCall.SetGlobalParam iZone FlowSolverKind.EULER
        RuntimeSystem.RUNTIME_FLOW_SYS ExtIter]
    else calls
  let calls :=
    if (config_container iZone).Kind_Solver = FlowSolverKind.NAVIER_STOKES then
      calls ++ [IterCall.SetGlobalParam iZone FlowSolverKind.NAVIER_STOKES
        RuntimeSystem.RUNTIME_FLOW_SYS ExtIter]
    else calls
  let calls :=
    if (config_container iZone).Kind_Solver = FlowSolverKind.RANS then
      calls ++ [IterCall.SetGlobalParam iZone FlowSolverKind.RANS
        RuntimeSystem.RUNTIME_FLOW_SYS ExtIter]
    else calls
  let calls := calls ++ [IterCall.SetMultiGrid_Solver SolIndex.FLOW_SOL
    RuntimeSystem.RUNTIME_FLOW_SYS IntIter iZone]
  if (config_container iZone).Kind_Solver = FlowSolverKind.RANS then
    let calls := calls ++ [IterCall.SetGlobalParam iZone FlowSolverKind.RANS
        RuntimeSystem.RUNTIME_TURB_SYS ExtIter,
      IterCall.SetSingleGrid_Solver SolIndex.TURB_SOL RuntimeSystem.RUNTIME_TURB_SYS
        IntIter iZone]
    if (config_container iZone).Kind_Trans_Model = TransModel.LM then
      calls ++ [IterCall.SetGlobalParam iZone FlowSolverKind.RANS
          RuntimeSystem.RUNTIME_TRANS_SYS ExtIter,
        IterCall.SetSingleGrid_Solver SolIndex.TRANS_SOL RuntimeSystem.RUNTIME_TRANS_SYS
          IntIter iZone]
    else calls
  else calls

/-- The function `MeanFlowIteration` (lines 26-166) in a serial build, as the
sequence of operations it invokes. `nZone_geometry` is the value of
`geometry_container[ZONE_0][MESH_0]->GetnZone()`, and `Convergence IntIter iZone` the
value that `integration_container[iZone][FLOW_SOL]->GetConvergence()` returns at line
130, after the flow solver has run for the pseudo-iteration `IntIter` of the zone
`iZone`. After the sweep over the zones (lines 102-131) the loop variable `iZone`
keeps the value it has when the loop is left, and line 135 reads it. -/
def MeanFlowIteration {α : Type} [LinearOrderedField α] (nZone_geometry : Nat)
    (config_container : Nat → CConfigIteration α) (Convergence : Nat → Nat → Bool)
    (ExtIter : Nat) : List IterCall :=
  let time_spectral := decide
    ((config_container ZONE_0).Unsteady_Simulation = UnsteadySimulation.TIME_SPECTRAL)
  let nZone := if time_spectral then (config_container ZONE_0).nTimeInstances else nZone_geometry
  let relative_motion := (config_container ZONE_0).Relative_Motion
  let calls : List IterCall := []
  let calls := forLoop nZone (fun iZone calls =>
    if (config_container iZone).Grid_Movement && !time_spectral then
      calls ++ [IterCall.SetGrid_Movement iZone iZone ExtIter]
    else calls) calls
  let calls :=
    if relative_motion then calls ++ [IterCall.SetSliding_Interfaces nZone] else calls
  let calls := forLoop nZone (fun iZone calls =>
    let IntIter := if dualTime (config_container iZone) then 0 else ExtIter
    let calls := calls ++ [IterCall.SetInitialCondition iZone ExtIter]
    let calls := calls ++ advanceZone config_container ExtIter IntIter iZone
    if time_spectral then calls ++ [IterCall.SetTimeSpectral nZone ((iZone + 1) % nZone)]
    else calls) calls
  if dualTime (config_container ZONE_0) then
    let calls := forLoopFrom 1 (config_container ZONE_0).Unst_nIntIter (fun IntIter calls =>
      let sweep := forLoopBreak nZone (fun iZone calls =>
        let calls := calls ++ advanceZone config_container ExtIter IntIter iZone
        let calls :=
          if iZone = ZONE_0 then calls ++ [IterCall.SetHistory_DualTime IntIter iZone]
          else calls
        (calls, Convergence IntIter iZone)) calls
      let iZone := sweep.1
      let calls := sweep.2
      if (config_container ZONE_0).Kind_GridMovement ZONE_0 = GridMovementKind.AEROELASTIC then
        calls ++ [IterCall.SetGrid_Movement iZone iZone IntIter]
      else calls) calls
    forLoop nZone (fun iZone calls =>
      let calls := forLoop ((config_container iZone).MGLevels + 1) (fun iMesh calls =>
        calls ++ [IterCall.SetDualTime_Solver iZone SolIndex.FLOW_SOL iMesh,
          IterCall.SetConvergence iZone SolIndex.FLOW_SOL false]) calls
      let calls :=
        if (config_container iZone).Kind_Solver = FlowSolverKind.RANS then
          calls ++ [IterCall.SetDualTime_Solver iZone SolIndex.TURB_SOL MESH_0,
            IterCall.SetConvergence iZone SolIndex.TURB_SOL false]
        else calls
      let Physical_dt := (config_container iZone).Delta_UnstTime
      let Physical_t := ((ExtIter : α) + 1) * Physical_dt
      if Physical_t ≥ (config_container iZone).Total_UnstTime then
        calls ++ [IterCall.SetConvergence iZone SolIndex.FLOW_SOL true]
      else calls) calls
  else calls

/-- Whether an operation is a call of `SetTimeSpectral`. -/
def IterCall.isSetTimeSpectral : IterCall → Bool
  | .SetTimeSpectral _ _ => true
  | _ => false

/-- A one-zone Euler configuration with dual time stepping and aeroelastic grid
movement: two internal iterations, one grid level, total time 10 and time step 1. -/
def sampleConfigAeroelastic (α : Type) [Field α] (_zone : Nat) : CConfigIteration α where
  Unsteady_Simulation := UnsteadySimulation.DT_STEPPING_1ST
  nTimeInstances := 1
  Relative_Motion := false
  Grid_Movement := true
  Kind_GridMovement := fun _ => GridMovementKind.AEROELASTIC
  Kind_Solver := FlowSolverKind.EULER
  Kind_Trans_Model := TransModel.other 0
  Unst_nIntIter := 2
  MGLevels := 0
  Delta_UnstTime := 1
  Total_UnstTime := 10

/-- An Euler configuration of a time-spectral run with three time instances and
rigid grid motion. -/
def sampleConfigSpectralIteration (α : Type) [Field α] (_zone : Nat) : CConfigIteration α where
  Unsteady_Simulation := UnsteadySimulation.TIME_SPECTRAL
  nTimeInstances := 3
  Relative_Motion := false
  Grid_Movement := true
  Kind_GridMovement := fun _ => GridMovementKind.RIGID_MOTION
  Kind_Solver := FlowSolverKind.EULER
  Kind_Trans_Model := TransModel.other 0
  Unst_nIntIter := 0
  MGLevels := 0
  Delta_UnstTime := 1
  Total_UnstTime := 10

/-! ## `Solution_Definition` and `Integration_Definition` -/

/-- The kinds of solver that have a `case` in the switch of `Solution_Definition` or
of `Integration_Definition`; every other value matches no case. The enumeration is
declared in a header outside the sources at hand. -/
inductive SolverKind where
  | TEMPLATE_SOLVER
  | EULER
  | NAVIER_STOKES
  | RANS
  | FREE_SURFACE_EULER
  | FREE_SURFACE_NAVIER_STOKES
  | FREE_SURFACE_RANS
  | FLUID_STRUCTURE_EULER
  | FLUID_STRUCTURE_NAVIER_STOKES
  | FLUID_STRUCTURE_RANS
  | AEROACOUSTIC_NAVIER_STOKES
  | AEROACOUSTIC_RANS
  | ELECTRIC_POTENTIAL
  | WAVE_EQUATION
  | LINEAR_ELASTICITY
  | ADJ_EULER
  | ADJ_NAVIER_STOKES
  | ADJ_RANS
  | ADJ_FREE_SURFACE_EULER
  | ADJ_FREE_SURFACE_NAVIER_STOKES
  | ADJ_FREE_SURFACE_RANS
  | ADJ_PLASMA_EULER
  | ADJ_PLASMA_NAVIER_STOKES
  | LIN_EULER
  | AEROACOUSTIC_EULER
  | ADJ_AEROACOUSTIC_EULER
  | PLASMA_EULER
  | PLASMA_NAVIER_STOKES
  | other (code : Nat)
  deriving DecidableEq

/-- Kinds of turbulence model. -/
inductive TurbModel where
  | NONE
  | SA
  | SST
  | other (code : Nat)
  deriving DecidableEq

/-- Kinds of gas model of the plasma solver. -/
inductive GasModel where
  | AIR7
  | O2
  | N2
  | AIR5
  | ARGON
  | AIR21
  | other (code : Nat)
  deriving DecidableEq

/-- The second zone, `ZONE_1`. -/
abbrev ZONE_1 : Nat := 1

/-- The configuration values read by `Solution_Definition` and
`Integration_Definition`. -/
structure CConfigDefinition where
  Kind_Solver : SolverKind
  Kind_Trans_Model : TransModel
  Kind_Turb_Model : TurbModel
  Kind_GasModel : GasModel
  MGLevels : Nat

/-- The local booleans of `Solution_Definition` and of `Integration_Definition`, all
initialised to `false` (lines 284-288 and 446-450). -/
structure SolverFlags where
  euler : Bool := false
  navierstokes : Bool := false
  combustion : Bool := false
  plasma_euler : Bool := false
  plasma_navierstokes : Bool := false
  plasma_monatomic : Bool := false
  plasma_diatomic : Bool := false
  levelset : Bool := false
  adj_pot : Bool := false
  lin_pot : Bool := false
  adj_euler : Bool := false
  lin_euler : Bool := false
  adj_ns : Bool := false
  lin_ns : Bool := false
  turbulent : Bool := false
  adj_turb : Bool := false
  lin_turb : Bool := false
  electric : Bool := false
  wave : Bool := false
  fea : Bool := false
  adj_levelset : Bool := false
  adj_plasma_euler : Bool := false
  adj_plasma_navierstokes : Bool := false
  spalart_allmaras : Bool := false
  menter_sst : Bool := false
  template_solver : Bool := false
  transition : Bool := false
  deriving DecidableEq

/-- The solution classes `Solution_Definition` instantiates. -/
inductive CSolutionClass where
  | CTemplateSolution
  | CEulerSolution
  | CNSSolution
  | CTurbSASolution
  | CTurbSSTSolution
  | CTransLMSolution
  | CElectricSolution
  | CPlasmaSolution
  | CLevelSetSolution
  | CWaveSolution
  | CFEASolution
  | CAdjEulerSolution
  | CAdjNSSolution
  | CAdjTurbSolution
  | CAdjLevelSetSolution
  | CAdjPlasmaSolution
  | CLinEulerSolution
  deriving DecidableEq

/-- The integration classes `Integration_Definition` instantiates. -/
inductive CIntegrationClass where
  | CSingleGridIntegration
  | CMultiGridIntegration
  | CPotentialIntegration
  deriving DecidableEq

/-- The switch "Assign booleans" of `Solution_Definition` on the kind of solver
(lines 291-346). -/
def Solution_Definition_switch (config : CConfigDefinition) (iZone : Nat) : SolverFlags :=
  let f : SolverFlags := {}
  match config.Kind_Solver with
  | .TEMPLATE_SOLVER => { f with template_solver := true }
  | .EULER => { f with euler := true }
  | .NAVIER_STOKES => { f with navierstokes := true }
  | .RANS =>
    let f := { f with navierstokes := true, turbulent := true }
    if config.Kind_Trans_Model = TransModel.LM then { f with transition := true } else f
  | .FREE_SURFACE_EULER => { f with euler := true, levelset := true }
  | .FREE_SURFACE_NAVIER_STOKES => { f with navierstokes := true, levelset := true }
  | .FREE_SURFACE_RANS => { f with navierstokes := true, turbulent := true, levelset := true }
  | .FLUID_STRUCTURE_EULER => { f with euler := true, fea := true }
  | .FLUID_STRUCTURE_NAVIER_STOKES => { f with navierstokes := true, fea := true }
  | .FLUID_STRUCTURE_RANS => { f with navierstokes := true, turbulent := true, fea := true }
  | .AEROACOUSTIC_NAVIER_STOKES => { f with navierstokes := true, wave := true }
  | .AEROACOUSTIC_RANS => { f with navierstokes := true, turbulent := true, wave := true }
  | .ELECTRIC_POTENTIAL => { f with electric := true }
  | .WAVE_EQUATION => { f with wave := true }
  | .LINEAR_ELASTICITY => { f with fea := true }
  | .ADJ_EULER => { f with euler := true, adj_euler := true }
  | .ADJ_NAVIER_STOKES =>
    { f with navierstokes := true,
             turbulent := decide (config.Kind_Turb_Model ≠ TurbModel.NONE), adj_ns := true }
  | .ADJ_RANS => { f with navierstokes := true, turbulent := true, adj_ns := true,
                          adj_turb := true }
  | .ADJ_FREE_SURFACE_EULER =>
    { f with euler := true, adj_euler := true, levelset := true, adj_levelset := true }
  | .ADJ_FREE_SURFACE_NAVIER_STOKES =>
    { f with navierstokes := true, adj_ns := true, levelset := true, adj_levelset := true }
  | .ADJ_FREE_SURFACE_RANS =>
    { f with navierstokes := true, adj_ns := true, turbulent := true, adj_turb := true,
             levelset := true, adj_levelset := true }
  | .ADJ_PLASMA_EULER => { f with plasma_euler := true, adj_plasma_euler := true }
  | .ADJ_PLASMA_NAVIER_STOKES =>
    { f with plasma_navierstokes := true, adj_plasma_navierstokes := true }
  | .LIN_EULER => { f with euler := true, lin_euler := true }
  | .AEROACOUSTIC_EULER =>
    if iZone = ZONE_0 then { f with euler := true }
    else if iZone = ZONE_1 then { f with wave := true } else f
  | .ADJ_AEROACOUSTIC_EULER =>
    if iZone = ZONE_0 then { f with euler := true, adj_euler := true }
    else if iZone = ZONE_1 then { f with wave := true } else f
  | .PLASMA_EULER =>
    if iZone = ZONE_0 then { f with plasma_euler := true }
    else if iZone = ZONE_1 then { f with electric := true } else f
  | .PLASMA_NAVIER_STOKES =>
    if iZone = ZONE_0 then { f with plasma_navierstokes := true }
    else if iZone = ZONE_1 then { f with electric := true } else f
  | .other _ => f

/-- The switch "Assign booleans" of `Integration_Definition` on the kind of solver
(lines 453-506). -/
def Integration_Definition_switch (config : CConfigDefinition) (iZone : Nat) : SolverFlags :=
  let f : SolverFlags := {}
  match config.Kind_Solver with
  | .TEMPLATE_SOLVER => { f with template_solver := true }
  | .EULER => { f with euler := true }
  | .NAVIER_STOKES => { f with navierstokes := true }
  | .FREE_SURFACE_EULER => { f with euler := true, levelset := true }
  | .FREE_SURFACE_NAVIER_STOKES => { f with navierstokes := true, levelset := true }
  | .FLUID_STRUCTURE_EULER => { f with euler := true, fea := true }
  | .FLUID_STRUCTURE_NAVIER_STOKES => { f with navierstokes := true, fea := true }
  | .FLUID_STRUCTURE_RANS => { f with navierstokes := true, turbulent := true, fea := true }
  | .AEROACOUSTIC_NAVIER_STOKES => { f with navierstokes := true, wave := true }
  | .AEROACOUSTIC_RANS => { f with navierstokes := true, turbulent := true, wave := true }
  | .RANS =>
    let f := { f with navierstokes := true, turbulent := true }
    if config.Kind_Trans_Model = TransModel.LM then { f with transition := true } else f
  | .ELECTRIC_POTENTIAL => { f with electric := true }
  | .WAVE_EQUATION => { f with wave := true }
  | .LINEAR_ELASTICITY => { f with fea := true }
  | .ADJ_EULER => { f with euler := true, adj_euler := true }
  | .ADJ_NAVIER_STOKES =>
    { f with navierstokes := true,
             turbulent := decide (config.Kind_Turb_Model ≠ TurbModel.NONE), adj_ns := true }
  | .ADJ_RANS => { f with navierstokes := true, turbulent := true, adj_ns := true,
                          adj_turb := true }
  | .ADJ_PLASMA_EULER => { f with plasma_euler := true, adj_plasma_euler := true }
  | .ADJ_PLASMA_NAVIER_STOKES =>
    { f with plasma_navierstokes := true, adj_plasma_navierstokes := true }
  | .ADJ_FREE_SURFACE_EULER =>
    { f with euler := true, levelset := true, adj_euler := true, adj_levelset := true }
  | .ADJ_FREE_SURFACE_NAVIER_STOKES =>
    { f with navierstokes := true, levelset := true, adj_ns := true, adj_levelset := true }
  | .LIN_EULER => { f with euler := true, lin_euler := true }
  | .AEROACOUSTIC_EULER =>
    if iZone = ZONE_0 then { f with euler := true }
    else if iZone = ZONE_1 then { f with wave := true } else f
  | .ADJ_AEROACOUSTIC_EULER =>
    if iZone = ZONE_0 then { f with euler := true, adj_euler := true }
    else if iZone = ZONE_1 then { f with wave := true } else f
  | .PLASMA_EULER =>
    if iZone = ZONE_0 then { f with plasma_euler := true }
    else if iZone = ZONE_1 then { f with electric := true } else f
  | .PLASMA_NAVIER_STOKES =>
    if iZone = ZONE_0 then { f with plasma_navierstokes := true }
    else if iZone = ZONE_1 then { f with electric := true } else f
  | .FREE_SURFACE_RANS | .ADJ_FREE_SURFACE_RANS | .other _ => f

/-- The switch "Assign turbulence model booleans" (lines 348-353 and 508-513); the
`default` branch writes a message, waits for a key and goes on. -/
def turbulenceModelFlags (config : CConfigDefinition) (f : SolverFlags) : SolverFlags :=
  if f.turbulent then
    match config.Kind_Turb_Model with
    | .SA => { f with spalart_allmaras := true }
    | .SST => { f with menter_sst := true }
    | _ => f
  else f

/-- The switch on the gas model in `Solution_Definition` (lines 355-365). -/
def Solution_Definition_gasModel (config : CConfigDefinition) (f : SolverFlags) : SolverFlags :=
  if f.plasma_euler || f.plasma_navierstokes then
    match config.Kind_GasModel with
    | .AIR7 => { f with plasma_diatomic := true }
    | .O2 => { f with plasma_diatomic := true }
    | .N2 => { f with plasma_diatomic := true }
    | .AIR5 => { f with plasma_diatomic := true }
    | .ARGON => { f with plasma_monatomic := true }
    | _ => f
  else f

/-- The switch on the gas model in `Integration_Definition` (lines 515-526), which
has a case for `AIR21` as well. -/
def Integration_Definition_gasModel (config : CConfigDefinition) (f : SolverFlags) :
    SolverFlags :=
  if f.plasma_euler || f.plasma_navierstokes then
    match config.Kind_GasModel with
    | .AIR7 => { f with plasma_diatomic := true }
    | .O2 => { f with plasma_diatomic := true }
    | .N2 => { f with plasma_diatomic := true }
    | .AIR5 => { f with plasma_diatomic := true }
    | .ARGON => { f with plasma_monatomic := true }
    | .AIR21 => { f with plasma_diatomic := true }
    | _ => f
  else f

/-- The body of the loop over the grid levels of `Solution_Definition` (lines
371-433): the solution objects allocated on the level `iMGlevel`, and whether the
loop is left by one of the `break` statements. -/
def Solution_Definition_level (f : SolverFlags) (iMGlevel : Nat)
    (solution_container : Nat × SolIndex → Option CSolutionClass) :
    (Nat × SolIndex → Option CSolutionClass) × Bool :=
  let s := solution_container
  let s :=
    if f.template_solver then
      Function.update s (iMGlevel, SolIndex.TEMPLATE_SOL) (some CSolutionClass.CTemplateSolution)
    else s
  let s :=
    if f.euler then
      Function.update s (iMGlevel, SolIndex.FLOW_SOL) (some CSolutionClass.CEulerSolution)
    else s
  let s :=
    if f.navierstokes then
      Function.update s (iMGlevel, SolIndex.FLOW_SOL) (some CSolutionClass.CNSSolution)
    else s
  let s :=
    if f.turbulent then
      let s :=
        if f.spalart_allmaras then
          Function.update s (iMGlevel, SolIndex.TURB_SOL) (some CSolutionClass.CTurbSASolution)
        else if f.menter_sst then
          Function.update s (iMGlevel, SolIndex.TURB_SOL) (some CSolutionClass.CTurbSSTSolution)
        else s
      if f.transition then
        Function.update s (iMGlevel, SolIndex.TRANS_SOL) (some CSolutionClass.CTransLMSolution)
      else s
    else s
  let s :=
    if f.electric then
      Function.update s (iMGlevel, SolIndex.ELEC_SOL) (some CSolutionClass.CElectricSolution)
    else s
  let s :=
    if f.plasma_euler || f.plasma_navierstokes then
      Function.update s (iMGlevel, SolIndex.PLASMA_SOL) (some CSolutionClass.CPlasmaSolution)
    else s
  let s :=
    if f.levelset then
      Function.update s (iMGlevel, SolIndex.LEVELSET_SOL) (some CSolutionClass.CLevelSetSolution)
    else s
  let s :=
    if f.wave then
      Function.update s (iMGlevel, SolIndex.WAVE_SOL) (some CSolutionClass.CWaveSolution)
    else s
  let s :=
    if f.fea then
      Function.update s (iMGlevel, SolIndex.FEA_SOL) (some CSolutionClass.CFEASolution)
    else s
  if f.adj_pot then (s, true)
  else
    let s :=
      if f.adj_euler then
        Function.update s (iMGlevel, SolIndex.ADJFLOW_SOL) (some CSolutionClass.CAdjEulerSolution)
      else s
    let s :=
      if f.adj_ns then
        Function.update s (iMGlevel, SolIndex.ADJFLOW_SOL) (some CSolutionClass.CAdjNSSolution)
      else s
    let s :=
      if f.adj_turb then
        Function.update s (iMGlevel, SolIndex.ADJTURB_SOL) (some CSolutionClass.CAdjTurbSolution)
      else s
    let s :=
      if f.adj_levelset then
        Function.update s (iMGlevel, SolIndex.ADJLEVELSET_SOL)
          (some CSolutionClass.CAdjLevelSetSolution)
      else s
    let s :=
      if f.adj_plasma_euler || f.adj_plasma_navierstokes then
        Function.update s (iMGlevel, SolIndex.ADJPLASMA_SOL)
          (some CSolutionClass.CAdjPlasmaSolution)
      else s
    if f.lin_pot then (s, true)
    else
      let s :=
        if f.lin_euler then
          Function.update s (iMGlevel, SolIndex.LINFLOW_SOL)
            (some CSolutionClass.CLinEulerSolution)
        else s
      if f.lin_ns then (s, true) else (s, false)

/-- The function `Solution_Definition` (lines 274-437): the entries
`solution_container[iMGlevel][...]` it assigns, on a container given as
`solution_container`; an entry it does not assign keeps its content. -/
def Solution_Definition (solution_container : Nat × SolIndex → Option CSolutionClass)
    (config : CConfigDefinition) (iZone : Nat) : Nat × SolIndex → Option CSolutionClass :=
  let f := Solution_Definition_switch config iZone
  let f := turbulenceModelFlags config f
  let f := Solution_Definition_gasModel config f
  (forLoopBreak (config.MGLevels + 1) (fun iMGlevel solution_container =>
    Solution_Definition_level f iMGlevel solution_container) solution_container).2

/-- The function `Integration_Definition` (lines 440-557): the entries
`integration_container[...]` it assigns; an entry it does not assign keeps its
content. -/
def Integration_Definition (integration_container : SolIndex → Option CIntegrationClass)
    (config : CConfigDefinition) (iZone : Nat) : SolIndex → Option CIntegrationClass :=
  let f := Integration_Definition_switch config iZone
  let f := turbulenceModelFlags config f
  let f := Integration_Definition_gasModel config f
  let c := integration_container
  let c :=
    if f.template_solver then
      Function.update c SolIndex.TEMPLATE_SOL (some CIntegrationClass.CSingleGridIntegration)
    else c
  let c :=
    if f.euler then
      Function.update c SolIndex.FLOW_SOL (some CIntegrationClass.CMultiGridIntegration)
    else c
  let c :=
    if f.navierstokes then
      Function.update c SolIndex.FLOW_SOL (some CIntegrationClass.CMultiGridIntegration)
    else c
  let c :=
    if f.turbulent then
      Function.update c SolIndex.TURB_SOL (some CIntegrationClass.CSingleGridIntegration)
    else c
  let c :=
    if f.transition then
      Function.update c SolIndex.TRANS_SOL (some CIntegrationClass.CSingleGridIntegration)
    else c
  let c :=
    if f.electric then
      Function.update c SolIndex.ELEC_SOL (some CIntegrationClass.CPotentialIntegration)
    else c
  let c :=
    if f.plasma_euler then
      Function.update c SolIndex.PLASMA_SOL (some CIntegrationClass.CMultiGridIntegration)
    else c
  let c :=
    if f.plasma_navierstokes then
      Function.update c SolIndex.PLASMA_SOL (some CIntegrationClass.CMultiGridIntegration)
    else c
  let c :=
    if f.levelset then
      Function.update c SolIndex.LEVELSET_SOL (some CIntegrationClass.CSingleGridIntegration)
    else c
  let c :=
    if f.wave then
      Function.update c SolIndex.WAVE_SOL (some CIntegrationClass.CSingleGridIntegration)
    else c
  let c :=
    if f.fea then
      Function.update c SolIndex.FEA_SOL (some CIntegrationClass.CSingleGridIntegration)
    else c
  let c :=
    if f.adj_euler then
      Function.update c SolIndex.ADJFLOW_SOL (some CIntegrationClass.CMultiGridIntegration)
    else c
  let c :=
    if f.adj_ns then
      Function.update c SolIndex.ADJFLOW_SOL (some CIntegrationClass.CMultiGridIntegration)
    else c
  let c :=
    if f.adj_turb then
      Function.update c SolIndex.ADJTURB_SOL (some CIntegrationClass.CSingleGridIntegration)
    else c
  let c :=
    if f.adj_plasma_euler then
      Function.update c SolIndex.ADJPLASMA_SOL (some CIntegrationClass.CMultiGridIntegration)
    else c
  let c :=
    if f.adj_plasma_navierstokes then
      Function.update c SolIndex.ADJPLASMA_SOL (some CIntegrationClass.CMultiGridIntegration)
    else c
  let c :=
    if f.adj_levelset then
      Function.update c SolIndex.ADJLEVELSET_SOL (some CIntegrationClass.CSingleGridIntegration)
    else c
  if f.lin_euler then
    Function.update c SolIndex.LINFLOW_SOL (some CIntegrationClass.CMultiGridIntegration)
  else c

/-- A configuration with one grid level for the given kind of solver and turbulence
model; no transition model, argon as gas. -/
def sampleConfigDefinition (kind : SolverKind) (turb : TurbModel) : CConfigDefinition where
  Kind_Solver := kind
  Kind_Trans_Model := TransModel.other 0
  Kind_Turb_Model := turb
  Kind_GasModel := GasModel.ARGON
  MGLevels := 0

/-! ## `CLinEulerVariable::SetDeltaPressure` -/

/-- The data of a `CLinEulerVariable`: the dimensions, the arrays its constructors
allocate, and `DeltaPressure`. `Solution` holds the perturbed density at index 0, the
perturbed momentum at the indices `1..nDim` and the perturbed energy at index
`nVar-1`. The class is declared in a header outside the sources at hand. -/
structure CLinEulerVariable (α : Type) where
  nDim : Nat
  nVar : Nat
  Solution : Nat → α
  Solution_Old : Nat → α
  Res_Conv : Nat → α
  Res_Visc : Nat → α
  Res_Sour : Nat → α
  Residual_Sum : Nat → α
  Residual_Old : Nat → α
  Res_Visc_RK : Nat → Nat → α
  Undivided_Laplacian : Nat → α
  Limiter : Nat → α
  Grad_AuxVar : Nat → α
  Solution_time_n : Nat → α
  Solution_time_n1 : Nat → α
  Res_TruncError : Nat → α
  ForceProj_Vector : Nat → α
  DeltaPressure : α

/-- The method `CLinEulerVariable::SetDeltaPressure` (variable_linearized.cpp, lines
117-126). The index `nVar-1` is computed in `int`; `nVar` is at least 1 (the `nDim+2`
of the constructors). -/
def SetDeltaPressure {α : Type} [Field α] (var : CLinEulerVariable α) (val_velocity : Nat → α)
    (Gamma : α) : CLinEulerVariable α :=
  let acc := forLoop var.nDim (fun iDim (acc : α × α) =>
    (acc.1 + val_velocity iDim * val_velocity iDim,
     acc.2 + val_velocity iDim * var.Solution (iDim + 1))) ((0.0 : α), (0.0 : α))
  let Mod_Vel := acc.1
  let Vel_dot_DeltaRhoVel := acc.2
  { var with
    DeltaPressure := 0.5 * var.Solution 0 * Mod_Vel
      + (Gamma - 1.0) * (var.Solution (var.nVar - 1) - Vel_dot_DeltaRhoVel) }

/-- The pressure of an ideal gas with density `rho`, momentum `m` and total energy
`E` per unit volume, `p = (γ-1)·(E - |m|²/(2ρ))`, as the claim on `SetDeltaPressure`
states it. -/
def idealGasPressure {α : Type} [Field α] (nDim : Nat) (Gamma rho : α) (m : Nat → α) (E : α) : α :=
  (Gamma - 1) * (E - (∑ k in Finset.range nDim, m k ^ 2) / (2 * rho))

/-- The first-order perturbation of the ideal-gas pressure about a base state with
velocity `v`, as the claim on `SetDeltaPressure` states it:
`(γ-1)·(δE - v·δm + 0.5·|v|²·δρ)`. -/
def linearisedPressure {α : Type} [Field α] (nDim : Nat) (Gamma : α) (v : Nat → α)
    (delta_rho : α) (delta_m : Nat → α) (delta_E : α) : α :=
  (Gamma - 1) * (delta_E - ∑ k in Finset.range nDim, v k * delta_m k
    + 0.5 * (∑ k in Finset.range nDim, v k ^ 2) * delta_rho)

/-- A perturbation of the density alone in 2-D: `Solution = (1, 0, 0, 0)`. -/
def sampleLinEulerVariable (α : Type) [Field α] : CLinEulerVariable α where
  nDim := 2
  nVar := 4
  Solution := fun i => if i = 0 then 1 else 0
  Solution_Old := fun _ => 0
  Res_Conv := fun _ => 0
  Res_Visc := fun _ => 0
  Res_Sour := fun _ => 0
  Residual_Sum := fun _ => 0
  Residual_Old := fun _ => 0
  Res_Visc_RK := fun _ _ => 0
  Undivided_Laplacian := fun _ => 0
  Limiter := fun _ => 0
  Grad_AuxVar := fun _ => 0
  Solution_time_n := fun _ => 0
  Solution_time_n1 := fun _ => 0
  Res_TruncError := fun _ => 0
  ForceProj_Vector := fun _ => 0
  DeltaPressure := 0

/-! ## Loop lemmas -/

theorem forLoop_succ {σ : Type} (n : Nat) (body : Nat → σ → σ) (s : σ) :
    forLoop (n + 1) body s = body n (forLoop n body s) := rfl

theorem forLoop_zero {σ : Type} (body : Nat → σ → σ) (s : σ) :
    forLoop 0 body s = s := rfl

/-- Invariant rule for `forLoop`. -/
theorem forLoop_invariant {σ : Type} (P : Nat → σ → Prop) (body : Nat → σ → σ) (s : σ)
    (n : Nat) (h0 : P 0 s) (hstep : ∀ i, i < n → ∀ t, P i t → P (i + 1) (body i t)) :
    P n (forLoop n body s) := by
  induction n with
  | zero => exact h0
  | succ m ih =>
    rw [forLoop_succ]
    exact hstep m (Nat.lt_succ_self m) _
      (ih (fun i hi t ht => hstep i (Nat.lt_succ_of_lt hi) t ht))

/-- The inner loop over `jZone` fills row `k` up to column `m` and leaves the other
rows as they were. -/
theorem fillRow_apply {α : Type} (e : Nat → Nat → α) (k m : Nat) (D : Nat → Nat → α)
    (k' j' : Nat) :
    forLoop m (fun jZone D => setEntry D k jZone (e k jZone)) D k' j'
      = if k' = k ∧ j' < m then e k j' else D k' j' := by
  induction m with
  | zero => simp [forLoop]
  | succ m ih =>
    rw [forLoop_succ]
    simp only [setEntry, ih]
    by_cases hk : k' = k
    · by_cases hj : j' = m
      · simp [hk, hj]
      · by_cases hlt : j' < m
        · have : j' < m + 1 := Nat.lt_succ_of_lt hlt
          simp [hk, hj, hlt, this]
        · have : ¬ j' < m + 1 := by omega
          simp [hk, hj, hlt, this]
    · simp [hk]

/-- The double loop fills the leading `m × n` block. -/
theorem fillMatrix_apply {α : Type} (e : Nat → Nat → α) (n m : Nat) (D : Nat → Nat → α)
    (k' j' : Nat) :
    forLoop m (fun kZone D =>
        forLoop n (fun jZone D => setEntry D kZone jZone (e kZone jZone)) D) D k' j'
      = if k' < m ∧ j' < n then e k' j' else D k' j' := by
  induction m with
  | zero => simp [forLoop]
  | succ m ih =>
    rw [forLoop_succ, fillRow_apply, ih]
    by_cases hk : k' = m
    · by_cases hj : j' < n
      · simp [hk, hj]
      · simp [hk, hj]
    · by_cases hlt : k' < m
      · have : k' < m + 1 := Nat.lt_succ_of_lt hlt
        simp [hk, hlt, this]
      · have : ¬ k' < m + 1 := by omega
        simp [hk, hlt, this]

theorem buildTimeSpectralOperator_apply {α : Type} [Field α] [LibM α] (period : α)
    (nZone : Nat) (D0 : Nat → Nat → α) (k j : Nat) (hk : k < nZone) (hj : j < nZone) :
    buildTimeSpectralOperator period nZone D0 k j = timeSpectralEntry period nZone k j := by
  unfold buildTimeSpectralOperator
  rw [fillMatrix_apply (fun k j => timeSpectralEntry period nZone k j)]
  simp [hk, hj]

theorem timeSpectralOperator_apply {α : Type} [Field α] [LibM α] (period : α)
    (nZone : Nat) (k j : Nat) (hk : k < nZone) (hj : j < nZone) :
    timeSpectralOperator period nZone k j = timeSpectralEntry period nZone k j :=
  buildTimeSpectralOperator_apply period nZone _ k j hk hj

/-! ## The operator matrix: algebraic properties -/

theorem libM_tan_real (x : ℝ) : LibM.tan x = Real.tan x := rfl
theorem libM_sin_real (x : ℝ) : LibM.sin x = Real.sin x := rfl
theorem libM_cos_real (x : ℝ) : LibM.cos x = Real.cos x := rfl
theorem libM_pi_real : (LibM.PI_NUMBER : ℝ) = Real.pi := rfl

theorem timeSpectralEntry_eq_kernel (period : ℝ) (n k j : Nat) :
    timeSpectralEntry period n k j
      = (Real.pi / period) * timeSpectralKernel n ((k : ℤ) - (j : ℤ)) := by
  unfold timeSpectralEntry timeSpectralKernel
  by_cases hkj : k = j
  · subst hkj
    simp [libM_tan_real, libM_sin_real, libM_pi_real]
  · simp only [hkj, if_false, libM_pi_real]
    split_ifs <;> ring

theorem neg_one_zpow_neg_real (m : ℤ) : (-1 : ℝ) ^ (-m) = (-1 : ℝ) ^ m := by
  rcases Int.even_or_odd m with h | h
  · rw [Even.neg_one_zpow h, Even.neg_one_zpow h.neg]
  · rw [Odd.neg_one_zpow h, Odd.neg_one_zpow h.neg]

theorem timeSpectralKernel_neg (n : Nat) (m : ℤ) :
    (timeSpectralKernel n (-m) : ℝ) = - timeSpectralKernel n m := by
  unfold timeSpectralKernel
  simp only [libM_tan_real, libM_sin_real, libM_pi_real, neg_one_zpow_neg_real, Int.cast_neg]
  have e : Real.pi * (-(m : ℝ)) / (n : ℝ) = -(Real.pi * (m : ℝ) / (n : ℝ)) := by ring
  rw [e, Real.tan_neg, Real.sin_neg]
  split_ifs
  · rw [one_div, one_div, inv_neg]; ring
  · rw [one_div, one_div, inv_neg]; ring

theorem timeSpectralKernel_add_period (n : Nat) (hn : 1 ≤ n) (m : ℤ) :
    (timeSpectralKernel n (m + (n : ℤ)) : ℝ) = timeSpectralKernel n m := by
  have hn0 : (n : ℝ) ≠ 0 := by
    have : 0 < n := hn
    exact_mod_cast this.ne'
  have e : Real.pi * ((m + (n : ℤ) : ℤ) : ℝ) / (n : ℝ) = Real.pi * (m : ℝ) / (n : ℝ) + Real.pi := by
    push_cast
    field_simp
    ring
  unfold timeSpectralKernel
  simp only [libM_tan_real, libM_sin_real, libM_pi_real]
  rw [e]
  have h1 : (-1 : ℝ) ≠ 0 := by norm_num
  by_cases hpar : n % 2 = 0
  · simp only [hpar, if_true]
    have hev : Even (n : ℤ) := by
      have : Even n := Nat.even_iff.mpr hpar
      exact_mod_cast this
    rw [zpow_add₀ h1, Even.neg_one_zpow hev, Real.tan_periodic]
    ring
  · simp only [hpar, if_false]
    have hod : Odd (n : ℤ) := by
      have : Odd n := Nat.odd_iff.mpr (by omega)
      exact_mod_cast this
    rw [zpow_add₀ h1, Odd.neg_one_zpow hod, Real.sin_add_pi]
    rw [one_div, one_div, inv_neg]; ring

/-- The sum of an `n`-periodic function over `n` consecutive integers starting at `a`. -/
theorem sum_range_shift_periodic (G : ℤ → ℝ) (n : Nat)
    (hG : ∀ m, G (m + (n : ℤ)) = G m) (a : Nat) :
    ∑ j in Finset.range n, G ((a : ℤ) + (j : ℤ)) = ∑ j in Finset.range n, G (j : ℤ) := by
  induction a with
  | zero => simp
  | succ a ih =>
    rw [← ih]
    have h1 := Finset.sum_range_succ (fun j : Nat => G ((a : ℤ) + (j : ℤ))) n
    have h2 := Finset.sum_range_succ' (fun j : Nat => G ((a : ℤ) + (j : ℤ))) n
    simp only [Nat.cast_add, Nat.cast_one, Nat.cast_zero, add_zero] at h1 h2
    have h3 : ∀ j : Nat, G (((a : ℤ) + 1) + (j : ℤ)) = G ((a : ℤ) + ((j : ℤ) + 1)) := by
      intro j; congr 1; ring
    simp only [Nat.cast_add, Nat.cast_one, h3]
    have h4 := hG (a : ℤ)
    linarith

theorem sum_range_odd_periodic (G : ℤ → ℝ) (n : Nat)
    (hG : ∀ m, G (m + (n : ℤ)) = G m) (hodd : ∀ m, G (-m) = - G m) (i : Nat) (hi : i ≤ n) :
    ∑ j in Finset.range n, G ((i : ℤ) - (j : ℤ)) = 0 := by
  have hS0 : ∑ j in Finset.range n, G (j : ℤ) = 0 := by
    have h1 : ∑ j in Finset.range n, G (j : ℤ)
        = ∑ j in Finset.range n, - G (((1 : Nat) : ℤ) + (j : ℤ)) := by
      rw [← Finset.sum_range_reflect (fun j : Nat => G (j : ℤ)) n]
      refine Finset.sum_congr rfl (fun j hj => ?_)
      have hj' : j < n := Finset.mem_range.mp hj
      have e : ((n - 1 - j : Nat) : ℤ) = -(((1 : Nat) : ℤ) + (j : ℤ)) + (n : ℤ) := by omega
      rw [e, hG, hodd]
    rw [Finset.sum_neg_distrib, sum_range_shift_periodic G n hG 1] at h1
    linarith
  have h2 : ∑ j in Finset.range n, G ((i : ℤ) - (j : ℤ))
      = ∑ j in Finset.range n, - G (((n - i : Nat) : ℤ) + (j : ℤ)) := by
    refine Finset.sum_congr rfl (fun j _ => ?_)
    have e : ((n - i : Nat) : ℤ) + (j : ℤ) = -((i : ℤ) - (j : ℤ)) + (n : ℤ) := by omega
    rw [e, hG, hodd, neg_neg]
  rw [h2, Finset.sum_neg_distrib, sum_range_shift_periodic G n hG (n - i), hS0, neg_zero]

/-- C1: for every number of time instances `n ≥ 1` and every non-zero period, each
row of the time-spectral operator matrix built by `SetTimeSpectral` sums to zero
(over the reals). -/
theorem SetTimeSpectral_operator_row_sum_zero (n : Nat) (hn : 1 ≤ n) (period : ℝ)
    (_hperiod : period ≠ 0) (i : Nat) (hi : i < n) :
    ∑ j in Finset.range n, timeSpectralOperator period n i j = 0 := by
  have h1 : ∑ j in Finset.range n, timeSpectralOperator period n i j
      = ∑ j in Finset.range n,
          (Real.pi / period) * timeSpectralKernel n ((i : ℤ) - (j : ℤ)) := by
    refine Finset.sum_congr rfl (fun j hj => ?_)
    rw [timeSpectralOperator_apply period n i j hi (Finset.mem_range.mp hj),
      timeSpectralEntry_eq_kernel]
  rw [h1, ← Finset.mul_sum,
    sum_range_odd_periodic (fun m => timeSpectralKernel n m) n
      (fun m => timeSpectralKernel_add_period n hn m)
      (fun m => timeSpectralKernel_neg n m) i hi.le, mul_zero]

/-! ## Stores written by loops -/

/-- A loop whose body writes, at step `i`, the values `val i` on the keys `R i`,
with every key written in at most one step. -/
theorem forLoop_keyed {κ β : Type} (R : Nat → κ → Prop) [∀ i k, Decidable (R i k)]
    (idx : κ → Nat) (hR : ∀ i k, R i k → idx k = i) (val : Nat → κ → β)
    (body : Nat → (κ → β) → (κ → β))
    (hbody : ∀ i s k, body i s k = if R i k then val i k else s k)
    (n : Nat) (s0 : κ → β) (k : κ) :
    forLoop n body s0 k = if idx k < n ∧ R (idx k) k then val (idx k) k else s0 k := by
  induction n with
  | zero => simp [forLoop]
  | succ n ih =>
    rw [forLoop_succ, hbody, ih]
    by_cases hn : R n k
    · have := hR n k hn
      subst this
      simp [hn]
    · by_cases hk : R (idx k) k
      · have hne : idx k ≠ n := fun h => hn (h ▸ hk)
        by_cases hlt : idx k < n
        · have : idx k < n + 1 := Nat.lt_succ_of_lt hlt
          simp [hn, hk, hlt, this]
        · have : ¬ idx k < n + 1 := by omega
          simp [hn, hk, hlt, this]
      · simp [hn, hk]

/-- A loop that modifies entry `i` of an array at step `i`. -/
theorem forLoop_modify_apply {β : Type} (f : Nat → β → β) (n : Nat) (A0 : Nat → β) (v : Nat) :
    forLoop n (fun i A => Function.update A i (f i (A i))) A0 v
      = if v < n then f v (A0 v) else A0 v := by
  induction n with
  | zero => simp [forLoop]
  | succ n ih =>
    rw [forLoop_succ]
    by_cases hv : v = n
    · subst hv
      simp [ih]
    · rw [Function.update_noteq hv, ih]
      by_cases hlt : v < n
      · have : v < n + 1 := Nat.lt_succ_of_lt hlt
        simp [hlt, this]
      · have : ¬ v < n + 1 := by omega
        simp [hlt, this]

theorem accumulateSource_apply {α : Type} [Field α] (sol : CSolution α) (D : Nat → Nat → α)
    (adjoint implicit : Bool) (iZone jZone iMGlevel iPoint nVar : Nat) (Source : Nat → α)
    (v : Nat) :
    accumulateSource sol D adjoint implicit iZone jZone iMGlevel iPoint nVar Source v
      = if v < nVar then
          Source v + sourceContribution sol D adjoint implicit iZone jZone iMGlevel iPoint v
        else Source v := by
  unfold accumulateSource
  have hb : forLoop nVar (fun iVar (Source : Nat → α) =>
      if (!adjoint) = true then
        let U := sol.Solution (jZone, iMGlevel, SolKind.FLOW_SOL, iPoint, iVar)
        let Source := Function.update Source iVar (Source iVar + U * D iZone jZone)
        if implicit = true then
          let U_old := sol.Solution_Old (jZone, iMGlevel, SolKind.FLOW_SOL, iPoint, iVar)
          let deltaU := U - U_old
          Function.update Source iVar (Source iVar + deltaU * D iZone jZone)
        else Source
      else
        let Psi := sol.Solution (jZone, iMGlevel, SolKind.ADJFLOW_SOL, iPoint, iVar)
        let Source := Function.update Source iVar (Source iVar + Psi * D jZone iZone)
        if implicit = true then
          let Psi_old := sol.Solution_Old (jZone, iMGlevel, SolKind.ADJFLOW_SOL, iPoint, iVar)
          let deltaPsi := Psi - Psi_old
          Function.update Source iVar (Source iVar + deltaPsi * D jZone iZone)
        else Source) Source
      = forLoop nVar (fun i A => Function.update A i
          (A i + sourceContribution sol D adjoint implicit iZone jZone iMGlevel iPoint i))
          Source := by
    congr 1
    funext iVar S
    cases adjoint <;> cases implicit <;>
      simp [sourceContribution, Function.update_idem, add_assoc]
  rw [hb]
  exact forLoop_modify_apply
    (fun i x => x + sourceContribution sol D adjoint implicit iZone jZone iMGlevel iPoint i)
    nVar Source v

theorem storeSource_apply {α : Type} (adjoint : Bool) (iZone iMGlevel iPoint nVar : Nat)
    (Source : Nat → α) (src : SolKey → α) (key : SolKey) :
    storeSource adjoint iZone iMGlevel iPoint nVar Source src key
      = if key.2.2.2.2 < nVar ∧ key = (iZone, iMGlevel, solverOf adjoint, iPoint, key.2.2.2.2)
        then Source key.2.2.2.2 else src key := by
  unfold storeSource
  have hb : (fun iVar (TimeSpectral_Source : SolKey → α) =>
      if (!adjoint) = true then
        Function.update TimeSpectral_Source (iZone, iMGlevel, SolKind.FLOW_SOL, iPoint, iVar)
          (Source iVar)
      else
        Function.update TimeSpectral_Source (iZone, iMGlevel, SolKind.ADJFLOW_SOL, iPoint, iVar)
          (Source iVar))
      = (fun iVar (TimeSpectral_Source : SolKey → α) =>
        Function.update TimeSpectral_Source (iZone, iMGlevel, solverOf adjoint, iPoint, iVar)
          (Source iVar)) := by
    funext iVar s
    cases adjoint <;> simp [solverOf]
  rw [hb]
  exact forLoop_keyed (fun i (k : SolKey) => k = (iZone, iMGlevel, solverOf adjoint, iPoint, i))
    (fun k => k.2.2.2.2) (fun i k h => by rw [h]) (fun i _ => Source i) _
    (fun i s k => by simp [Function.update_apply]) nVar src key

/-- The loop over the columns in `pointSource`, after `m` columns: `Source` holds
the partial sums, and so do the stored sources of the node once a column has run. -/
theorem pointSource_loop {α : Type} [Field α] (sol : CSolution α) (D : Nat → Nat → α)
    (adjoint implicit : Bool) (iZone l p nVar : Nat) (src : SolKey → α) (m : Nat) :
    forLoop m (fun jZone (st : (Nat → α) × (SolKey → α)) =>
        (accumulateSource sol D adjoint implicit iZone jZone l p nVar st.1,
          storeSource adjoint iZone l p nVar
            (accumulateSource sol D adjoint implicit iZone jZone l p nVar st.1) st.2))
        (fun _ => 0, src)
      = (fun v => if v < nVar then
            ∑ j in Finset.range m, sourceContribution sol D adjoint implicit iZone j l p v
          else 0,
         fun key => if 1 ≤ m ∧ key.2.2.2.2 < nVar
              ∧ key = (iZone, l, solverOf adjoint, p, key.2.2.2.2) then
            ∑ j in Finset.range m,
              sourceContribution sol D adjoint implicit iZone j l p key.2.2.2.2
          else src key) := by
  induction m with
  | zero =>
    rw [forLoop_zero]
    refine Prod.ext ?_ ?_
    · funext v; simp
    · funext key; simp
  | succ m ih =>
    rw [forLoop_succ, ih]
    refine Prod.ext ?_ ?_
    · funext v
      simp only [accumulateSource_apply]
      by_cases hv : v < nVar
      · simp [hv, Finset.sum_range_succ]
      · simp [hv]
    · funext key
      simp only [storeSource_apply, accumulateSource_apply]
      by_cases hk : key.2.2.2.2 < nVar ∧ key = (iZone, l, solverOf adjoint, p, key.2.2.2.2)
      · rw [if_pos hk, if_pos hk.1, if_pos hk.1, if_pos ⟨Nat.succ_le_succ (Nat.zero_le m), hk⟩,
          Finset.sum_range_succ]
      · have hk' : ¬ (1 ≤ m ∧ key.2.2.2.2 < nVar
            ∧ key = (iZone, l, solverOf adjoint, p, key.2.2.2.2)) := fun h => hk h.2
        have hk'' : ¬ (1 ≤ m + 1 ∧ key.2.2.2.2 < nVar
            ∧ key = (iZone, l, solverOf adjoint, p, key.2.2.2.2)) := fun h => hk h.2
        rw [if_neg hk, if_neg hk', if_neg hk'']

theorem pointSource_apply {α : Type} [Field α] (sol : CSolution α) (D : Nat → Nat → α)
    (adjoint implicit : Bool) (nZone iZone l p nVar : Nat) (src : SolKey → α) (key : SolKey) :
    pointSource sol D adjoint implicit nZone iZone l p nVar src key
      = if 1 ≤ nZone ∧ key.2.2.2.2 < nVar
            ∧ key = (iZone, l, solverOf adjoint, p, key.2.2.2.2) then
          ∑ j in Finset.range nZone,
            sourceContribution sol D adjoint implicit iZone j l p key.2.2.2.2
        else src key := by
  unfold pointSource
  have h0 : forLoop nVar (fun iVar (Source : Nat → α) => Function.update Source iVar 0)
      (fun _ => 0) = fun _ => 0 := by
    funext v
    rw [forLoop_modify_apply (fun _ _ => (0 : α))]
    simp
  simp only [h0]
  rw [pointSource_loop]

/-- The two outer loops of the source computation (grid levels, then points). -/
theorem sourceLoops_apply {α : Type} [Field α] (sol : CSolution α) (D : Nat → Nat → α)
    (adjoint implicit : Bool) (nZone iZone nVar nLevel : Nat) (nPoint : Nat → Nat)
    (src : SolKey → α) (key : SolKey) :
    forLoop nLevel (fun iMGlevel src =>
        forLoop (nPoint iMGlevel) (fun iPoint src =>
          pointSource sol D adjoint implicit nZone iZone iMGlevel iPoint nVar src) src) src key
      = if key.2.1 < nLevel ∧ key.2.2.2.1 < nPoint key.2.1 ∧ 1 ≤ nZone ∧ key.2.2.2.2 < nVar
            ∧ key = (iZone, key.2.1, solverOf adjoint, key.2.2.2.1, key.2.2.2.2) then
          ∑ j in Finset.range nZone,
            sourceContribution sol D adjoint implicit iZone j key.2.1 key.2.2.2.1 key.2.2.2.2
        else src key := by
  have hinner : ∀ (l : Nat) (s : SolKey → α) (k : SolKey),
      forLoop (nPoint l) (fun iPoint src =>
          pointSource sol D adjoint implicit nZone iZone l iPoint nVar src) s k
        = if k.2.2.2.1 < nPoint l ∧ (1 ≤ nZone ∧ k.2.2.2.2 < nVar
              ∧ k = (iZone, l, solverOf adjoint, k.2.2.2.1, k.2.2.2.2)) then
            ∑ j in Finset.range nZone,
              sourceContribution sol D adjoint implicit iZone j l k.2.2.2.1 k.2.2.2.2
          else s k := by
    intro l s k
    exact forLoop_keyed
      (fun p (k : SolKey) => 1 ≤ nZone ∧ k.2.2.2.2 < nVar
        ∧ k = (iZone, l, solverOf adjoint, p, k.2.2.2.2))
      (fun k => k.2.2.2.1) (fun i k h => by rw [h.2.2])
      (fun p k => ∑ j in Finset.range nZone,
        sourceContribution sol D adjoint implicit iZone j l p k.2.2.2.2) _
      (fun i s k => pointSource_apply sol D adjoint implicit nZone iZone l i nVar s k)
      (nPoint l) s k
  exact forLoop_keyed
    (fun l (k : SolKey) => k.2.2.2.1 < nPoint l ∧ (1 ≤ nZone ∧ k.2.2.2.2 < nVar
      ∧ k = (iZone, l, solverOf adjoint, k.2.2.2.1, k.2.2.2.2)))
    (fun k => k.2.1) (fun i k h => by rw [h.2.2.2])
    (fun l k => ∑ j in Finset.range nZone,
      sourceContribution sol D adjoint implicit iZone j l k.2.2.2.1 k.2.2.2.2) _
    (fun i s k => hinner i s k) nLevel src key

/-- A storing loop leaves alone every key it never addresses. -/
theorem forLoop_store_frame {κ β : Type} [DecidableEq κ] (mk : Nat → κ) (val : Nat → β)
    (n : Nat) (s : κ → β) (key : κ) (hkey : ∀ i, key ≠ mk i) :
    forLoop n (fun i s => Function.update s (mk i) (val i)) s key = s key := by
  induction n with
  | zero => rfl
  | succ n ih => rw [forLoop_succ, Function.update_noteq (hkey n), ih]

/-- The turbulence part writes only turbulence sources of instance `iZone` on the
finest grid. -/
theorem pointSourceTurb_frame {α : Type} [Field α] (sol : CSolution α) (D : Nat → Nat → α)
    (nZone iZone p nVar_Turb : Nat) (src : SolKey → α) (key : SolKey)
    (hkey : key.1 ≠ iZone ∨ key.2.2.1 ≠ SolKind.TURB_SOL) :
    pointSourceTurb sol D nZone iZone p nVar_Turb src key = src key := by
  unfold pointSourceTurb
  simp only []
  apply forLoop_store_frame (fun i => ((iZone, MESH_0, SolKind.TURB_SOL, p, i) : SolKey))
  intro i h
  rcases hkey with hk | hk
  · exact hk (by rw [h])
  · exact hk (by rw [h])

theorem turbLoop_frame {α : Type} [Field α] (sol : CSolution α) (D : Nat → Nat → α)
    (nZone iZone nVar_Turb n : Nat) (src : SolKey → α) (key : SolKey)
    (hkey : key.1 ≠ iZone ∨ key.2.2.1 ≠ SolKind.TURB_SOL) :
    forLoop n (fun iPoint src => pointSourceTurb sol D nZone iZone iPoint nVar_Turb src) src key
      = src key := by
  induction n with
  | zero => rfl
  | succ n ih => rw [forLoop_succ, pointSourceTurb_frame _ _ _ _ _ _ _ _ hkey, ih]

/-- The stored flow (or adjoint) sources after `SetTimeSpectral`. -/
theorem SetTimeSpectral_Source_apply {α : Type} [Field α] [LibM α] (g : CGeometry α)
    (sol : CSolution α) (cfg : Nat → CConfig α) (nZone iZone : Nat) (key : SolKey)
    (hkind : key.2.2.1 ≠ SolKind.TURB_SOL) :
    (SetTimeSpectral g sol cfg nZone iZone).TimeSpectral_Source key
      = if key.2.1 < (cfg ZONE_0).MGLevels + 1 ∧ key.2.2.2.1 < g.nPoint (ZONE_0, key.2.1)
            ∧ 1 ≤ nZone ∧ key.2.2.2.2 < sol.nVar (ZONE_0, MESH_0, SolKind.FLOW_SOL)
            ∧ key = (iZone, key.2.1, solverOf (cfg ZONE_0).Adjoint, key.2.2.2.1, key.2.2.2.2)
        then
          ∑ j in Finset.range nZone,
            sourceContribution sol (timeSpectralOperator (oscillationPeriod cfg) nZone)
              (cfg ZONE_0).Adjoint (implicitFlag (cfg ZONE_0)) iZone j
              key.2.1 key.2.2.2.1 key.2.2.2.2
        else sol.TimeSpectral_Source key := by
  unfold SetTimeSpectral
  simp only []
  split_ifs with hr h1 h2
  · rw [turbLoop_frame _ _ _ _ _ _ _ _ (Or.inr hkind),
      sourceLoops_apply sol _ _ _ nZone iZone _ _ (fun l => g.nPoint (ZONE_0, l)), if_pos h1]
  · rw [turbLoop_frame _ _ _ _ _ _ _ _ (Or.inr hkind),
      sourceLoops_apply sol _ _ _ nZone iZone _ _ (fun l => g.nPoint (ZONE_0, l)), if_neg h1]
  · rw [sourceLoops_apply sol _ _ _ nZone iZone _ _ (fun l => g.nPoint (ZONE_0, l)), if_pos h2]
  · rw [sourceLoops_apply sol _ _ _ nZone iZone _ _ (fun l => g.nPoint (ZONE_0, l)), if_neg h2]

/-- The sources of the instances other than `iZone` are not written. -/
theorem SetTimeSpectral_Source_frame {α : Type} [Field α] [LibM α] (g : CGeometry α)
    (sol : CSolution α) (cfg : Nat → CConfig α) (nZone iZone : Nat) (key : SolKey)
    (hzone : key.1 ≠ iZone) :
    (SetTimeSpectral g sol cfg nZone iZone).TimeSpectral_Source key
      = sol.TimeSpectral_Source key := by
  have hmain : ∀ (adjoint implicit : Bool) (D : Nat → Nat → α),
      forLoop ((cfg ZONE_0).MGLevels + 1) (fun iMGlevel src =>
        forLoop (g.nPoint (ZONE_0, iMGlevel)) (fun iPoint src =>
          pointSource sol D adjoint implicit nZone iZone iMGlevel iPoint
            (sol.nVar (ZONE_0, MESH_0, SolKind.FLOW_SOL)) src) src) sol.TimeSpectral_Source key
        = sol.TimeSpectral_Source key := by
    intro adjoint implicit D
    rw [sourceLoops_apply sol D adjoint implicit nZone iZone _ _ (fun l => g.nPoint (ZONE_0, l))]
    have : ¬ (key.2.1 < (cfg ZONE_0).MGLevels + 1 ∧ key.2.2.2.1 < g.nPoint (ZONE_0, key.2.1)
        ∧ 1 ≤ nZone ∧ key.2.2.2.2 < sol.nVar (ZONE_0, MESH_0, SolKind.FLOW_SOL)
        ∧ key = (iZone, key.2.1, solverOf adjoint, key.2.2.2.1, key.2.2.2.2)) := by
      rintro ⟨_, _, _, _, h⟩
      exact hzone (by rw [h])
    rw [if_neg this]
  unfold SetTimeSpectral
  simp only []
  split_ifs with hr
  · rw [turbLoop_frame _ _ _ _ _ _ _ _ (Or.inl hzone), hmain]
  · rw [hmain]

/-! ## Claims on `SetTimeSpectral` -/

/-- C2: for all indices `k, j < n` (so `n ≥ 1`) and every period, the matrix built by
`SetTimeSpectral` has a zero diagonal and, off the diagonal,
`D[k][j] = (π/period)·(-1)^(k-j)·cot(π(k-j)/n)` for even `n` and
`(π/period)·(-1)^(k-j)·csc(π(k-j)/n)` for odd `n`, with `k-j` a signed integer.
The matrix is `timeSpectralOperator period n`, a function of the period and `n` alone. -/
theorem SetTimeSpectral_operator_entries (n : Nat) (period : ℝ) (k j : Nat)
    (hk : k < n) (hj : j < n) :
    timeSpectralOperator period n k k = 0 ∧
    (k ≠ j →
      (n % 2 = 0 → timeSpectralOperator period n k j
        = (Real.pi / period) * (-1 : ℝ) ^ ((k : ℤ) - (j : ℤ))
            * Real.cot (Real.pi * (((k : ℤ) - (j : ℤ) : ℤ) : ℝ) / (n : ℝ))) ∧
      (n % 2 = 1 → timeSpectralOperator period n k j
        = (Real.pi / period) * (-1 : ℝ) ^ ((k : ℤ) - (j : ℤ))
            * (Real.sin (Real.pi * (((k : ℤ) - (j : ℤ) : ℤ) : ℝ) / (n : ℝ)))⁻¹)) := by
  refine ⟨?_, fun hkj => ⟨fun hev => ?_, fun hodd => ?_⟩⟩
  · rw [timeSpectralOperator_apply period n k k hk hk]
    simp [timeSpectralEntry]
  · rw [timeSpectralOperator_apply period n k j hk hj]
    simp only [timeSpectralEntry, hev, hkj, if_true, if_false, libM_pi_real, libM_tan_real]
    rw [Real.cot_eq_cos_div_sin, Real.tan_eq_sin_div_cos, one_div_div]
  · rw [timeSpectralOperator_apply period n k j hk hj]
    have hne : ¬ n % 2 = 0 := by omega
    simp only [timeSpectralEntry, hne, hkj, if_false, libM_pi_real, libM_sin_real, one_div]

theorem SetTimeSpectral_operator_entries_witness :
    timeSpectralOperator (1 : ℝ) 3 0 0 = 0 ∧
    ((0 : Nat) ≠ 1 →
      (3 % 2 = 0 → timeSpectralOperator (1 : ℝ) 3 0 1
        = (Real.pi / 1) * (-1 : ℝ) ^ (((0 : Nat) : ℤ) - ((1 : Nat) : ℤ))
            * Real.cot (Real.pi * (((((0 : Nat) : ℤ) - ((1 : Nat) : ℤ) : ℤ)) : ℝ) / ((3 : Nat) : ℝ))) ∧
      (3 % 2 = 1 → timeSpectralOperator (1 : ℝ) 3 0 1
        = (Real.pi / 1) * (-1 : ℝ) ^ (((0 : Nat) : ℤ) - ((1 : Nat) : ℤ))
            * (Real.sin (Real.pi * (((((0 : Nat) : ℤ) - ((1 : Nat) : ℤ) : ℤ)) : ℝ) / ((3 : Nat) : ℝ)))⁻¹)) :=
  SetTimeSpectral_operator_entries 3 1 0 1 (by decide) (by decide)

/-- C3: for a non-adjoint run with explicit time integration, after
`SetTimeSpectral(..., nZone, iZone)` the time-spectral source stored for instance
`iZone` at every point of every grid level `0..MGLevels` and every flow variable is
the full sum over `j < nZone` of `D[iZone][j]·U_j`; the sources of the other
instances are not written. -/
theorem SetTimeSpectral_explicit_source (g : CGeometry ℝ) (sol : CSolution ℝ)
    (cfg : Nat → CConfig ℝ) (nZone iZone : Nat) (hi : iZone < nZone)
    (hadj : (cfg ZONE_0).Adjoint = false)
    (hexp : (cfg ZONE_0).Kind_TimeIntScheme_Flow ≠ TimeIntScheme.EULER_IMPLICIT) :
    (∀ l p v, l ≤ (cfg ZONE_0).MGLevels → p < g.nPoint (ZONE_0, l) →
      v < sol.nVar (ZONE_0, MESH_0, SolKind.FLOW_SOL) →
      (SetTimeSpectral g sol cfg nZone iZone).TimeSpectral_Source
          (iZone, l, SolKind.FLOW_SOL, p, v)
        = ∑ j in Finset.range nZone,
            timeSpectralOperator (oscillationPeriod cfg) nZone iZone j
              * sol.Solution (j, l, SolKind.FLOW_SOL, p, v)) ∧
    (∀ key : SolKey, key.1 ≠ iZone →
      (SetTimeSpectral g sol cfg nZone iZone).TimeSpectral_Source key
        = sol.TimeSpectral_Source key) := by
  refine ⟨fun l p v hl hp hv => ?_, fun key hkey => SetTimeSpectral_Source_frame g sol cfg nZone iZone key hkey⟩
  rw [SetTimeSpectral_Source_apply g sol cfg nZone iZone _ (by simp)]
  have himp : implicitFlag (cfg ZONE_0) = false := by
    simp [implicitFlag, hadj, hexp]
  have hcond : l < (cfg ZONE_0).MGLevels + 1 ∧ p < g.nPoint (ZONE_0, l) ∧ 1 ≤ nZone
      ∧ v < sol.nVar (ZONE_0, MESH_0, SolKind.FLOW_SOL)
      ∧ ((iZone, l, SolKind.FLOW_SOL, p, v) : SolKey)
          = (iZone, l, solverOf (cfg ZONE_0).Adjoint, p, v) :=
    ⟨Nat.lt_succ_of_le hl, hp, by omega, hv, by simp [solverOf, hadj]⟩
  rw [if_pos hcond]
  refine Finset.sum_congr rfl (fun j _ => ?_)
  simp [sourceContribution, hadj, himp, mul_comm]

/-- C4: for a non-adjoint run with implicit (`EULER_IMPLICIT`) time integration the
source stored for instance `iZone` at every point and variable is
`Σ_j D[iZone][j]·U_j + Σ_j D[iZone][j]·(U_j - U_old_j)`. -/
theorem SetTimeSpectral_implicit_source (g : CGeometry ℝ) (sol : CSolution ℝ)
    (cfg : Nat → CConfig ℝ) (nZone iZone : Nat) (hi : iZone < nZone)
    (hadj : (cfg ZONE_0).Adjoint = false)
    (himp : (cfg ZONE_0).Kind_TimeIntScheme_Flow = TimeIntScheme.EULER_IMPLICIT) :
    ∀ l p v, l ≤ (cfg ZONE_0).MGLevels → p < g.nPoint (ZONE_0, l) →
      v < sol.nVar (ZONE_0, MESH_0, SolKind.FLOW_SOL) →
      (SetTimeSpectral g sol cfg nZone iZone).TimeSpectral_Source
          (iZone, l, SolKind.FLOW_SOL, p, v)
        = ∑ j in Finset.range nZone,
            timeSpectralOperator (oscillationPeriod cfg) nZone iZone j
              * sol.Solution (j, l, SolKind.FLOW_SOL, p, v)
          + ∑ j in Finset.range nZone,
            timeSpectralOperator (oscillationPeriod cfg) nZone iZone j
              * (sol.Solution (j, l, SolKind.FLOW_SOL, p, v)
                  - sol.Solution_Old (j, l, SolKind.FLOW_SOL, p, v)) := by
  intro l p v hl hp hv
  rw [SetTimeSpectral_Source_apply g sol cfg nZone iZone _ (by simp)]
  have himp' : implicitFlag (cfg ZONE_0) = true := by
    simp [implicitFlag, hadj, himp]
  have hcond : l < (cfg ZONE_0).MGLevels + 1 ∧ p < g.nPoint (ZONE_0, l) ∧ 1 ≤ nZone
      ∧ v < sol.nVar (ZONE_0, MESH_0, SolKind.FLOW_SOL)
      ∧ ((iZone, l, SolKind.FLOW_SOL, p, v) : SolKey)
          = (iZone, l, solverOf (cfg ZONE_0).Adjoint, p, v) :=
    ⟨Nat.lt_succ_of_le hl, hp, by omega, hv, by simp [solverOf, hadj]⟩
  rw [if_pos hcond, ← Finset.sum_add_distrib]
  refine Finset.sum_congr rfl (fun j _ => ?_)
  simp [sourceContribution, hadj, himp', mul_comm]


/-! ## Loops with exit -/

theorem forLoopE_succ {σ : Type} (n : Nat) (body : Nat → σ → Outcome σ) (s : σ) :
    forLoopE (n + 1) body s
      = match forLoopE n body s with
        | .completed t => body n t
        | .exited t => .exited t := rfl

/-- A loop whose body never exits is the plain loop. -/
theorem forLoopE_completed {σ : Type} (body : Nat → σ → Outcome σ) (f : Nat → σ → σ)
    (hbody : ∀ i s, body i s = .completed (f i s)) (n : Nat) (s : σ) :
    forLoopE n body s = .completed (forLoop n f s) := by
  induction n with
  | zero => rfl
  | succ n ih => rw [forLoopE_succ, ih, forLoop_succ]; exact hbody n _

/-- A loop whose body, at the steps `c`, exits at once and otherwise does nothing:
it completes when no step below `n` satisfies `c`. -/
theorem forLoopE_skip {σ : Type} (body : Nat → σ → Outcome σ) (c : Nat → Prop)
    (hskip : ∀ i s, ¬ c i → body i s = .completed s)
    (n : Nat) (s : σ) (hn : ∀ i, i < n → ¬ c i) :
    forLoopE n body s = .completed s := by
  induction n with
  | zero => rfl
  | succ n ih =>
    rw [forLoopE_succ, ih (fun i hi => hn i (Nat.lt_succ_of_lt hi))]
    exact hskip n s (hn n (Nat.lt_succ_self n))

/-- A loop whose body, at the steps `c`, exits at once and otherwise does nothing:
it exits with the state unchanged when a step below `n` satisfies `c`. -/
theorem forLoopE_exit {σ : Type} (body : Nat → σ → Outcome σ) (c : Nat → Prop)
    (hexit : ∀ i s, c i → body i s = .exited s)
    (hskip : ∀ i s, ¬ c i → body i s = .completed s)
    (n : Nat) (s : σ) (hn : ∃ i, i < n ∧ c i) :
    forLoopE n body s = .exited s := by
  induction n with
  | zero => obtain ⟨i, hi, _⟩ := hn; omega
  | succ n ih =>
    rw [forLoopE_succ]
    by_cases hprev : ∃ i, i < n ∧ c i
    · rw [ih hprev]
    · have hnone : ∀ i, i < n → ¬ c i := fun i hi hc => hprev ⟨i, hi, hc⟩
      rw [forLoopE_skip body c hskip n s hnone]
      obtain ⟨i, hi, hc⟩ := hn
      have : i = n := by
        by_contra hne
        exact hnone i (by omega) hc
      subst this
      exact hexit i s hc

/-- A loop in which step `i` modifies the values on the keys `R i`, every key being
modified in at most one step. -/
theorem forLoop_keyed_modify {κ β : Type} (R : Nat → κ → Prop) [∀ i k, Decidable (R i k)]
    (idx : κ → Nat) (hR : ∀ i k, R i k → idx k = i) (val : κ → β → β)
    (body : Nat → (κ → β) → (κ → β))
    (hbody : ∀ i s k, body i s k = if R i k then val k (s k) else s k)
    (n : Nat) (s0 : κ → β) (k : κ) :
    forLoop n body s0 k = if idx k < n ∧ R (idx k) k then val k (s0 k) else s0 k := by
  induction n with
  | zero => simp [forLoop]
  | succ n ih =>
    rw [forLoop_succ, hbody, ih]
    by_cases hn : R n k
    · have := hR n k hn
      subst this
      simp [hn]
    · by_cases hk : R (idx k) k
      · have hne : idx k ≠ n := fun h => hn (h ▸ hk)
        by_cases hlt : idx k < n
        · have : idx k < n + 1 := Nat.lt_succ_of_lt hlt
          simp [hn, hk, hlt, this]
        · have : ¬ idx k < n + 1 := by omega
          simp [hn, hk, hlt, this]
      · simp [hn, hk]

/-! ## `SetSliding_Interfaces`: the search for one vertex -/

theorem storeDonor_eq {α : Type} (vertex : VertexKey → CVertex α) (key : VertexKey)
    (w : Nat × α × α × α) :
    storeDonor vertex key w = Function.update vertex key (recordDonor w (vertex key)) := by
  simp [storeDonor, SetBasisFunction, SetDonorElem, recordDonor, Function.update_idem]

theorem recordDonor_recordDonor {α : Type} (w w' : Nat × α × α × α) (old : CVertex α) :
    recordDonor w' (recordDonor w old) = recordDonor w' old := by
  simp only [recordDonor, CVertex.mk.injEq, true_and]
  funext k
  simp only [Function.update_apply]
  split_ifs <;> rfl

/-- The loop over the first `n` elements of the donor zone in 2-D: the write of the
last element that qualifies is the one that stays. -/
theorem searchElements_2D {α : Type} [LinearOrderedField α] (g : CGeometry α)
    (key : VertexKey) (donorZone : Nat) (Coord_i : Nat → α) (n : Nat)
    (vertex : VertexKey → CVertex α) :
    forLoopE n (fun iElem vertex =>
        searchElement g 2 key donorZone Coord_i iElem vertex) vertex
      = .completed
          (match lastDonorWrite g donorZone Coord_i n with
           | some w => Function.update vertex key (recordDonor w (vertex key))
           | none => vertex) := by
  induction n with
  | zero => rfl
  | succ n ih =>
    rw [forLoopE_succ, ih]
    simp only [searchElement, if_true, lastDonorWrite]
    cases hw : donorWrite g donorZone Coord_i n with
    | none => simp
    | some w =>
      simp only [storeDonor_eq]
      cases hl : lastDonorWrite g donorZone Coord_i n with
      | none => simp
      | some w' => simp [recordDonor_recordDonor, Function.update_idem]

theorem searchVertex_2D {α : Type} [LinearOrderedField α] (g : CGeometry α)
    (z m v : Nat) (vertex : VertexKey → CVertex α) :
    searchVertex g 2 z m v vertex
      = .completed (fun k => if k = (z, MESH_0, m, v) ∧ g.Matching_Zone k ≠ z then
          donorResult g k (vertex k) else vertex k) := by
  unfold searchVertex
  simp only []
  by_cases h : g.Matching_Zone (z, MESH_0, m, v) ≠ z
  · rw [if_pos h, searchElements_2D]
    congr 1
    funext k
    by_cases hk : k = (z, MESH_0, m, v)
    · subst hk
      rw [if_pos ⟨rfl, h⟩]
      unfold donorResult
      cases lastDonorWrite g (g.Matching_Zone (z, MESH_0, m, v))
          (nodeCoord g z (g.vertex_Node (z, MESH_0, m, v)))
          (g.nElem (g.Matching_Zone (z, MESH_0, m, v), MESH_0)) with
      | none => rfl
      | some w => simp
    · rw [if_neg (fun hh => hk hh.1)]
      cases lastDonorWrite g (g.Matching_Zone (z, MESH_0, m, v))
          (nodeCoord g z (g.vertex_Node (z, MESH_0, m, v)))
          (g.nElem (g.Matching_Zone (z, MESH_0, m, v), MESH_0)) with
      | none => rfl
      | some w => simp [Function.update_noteq hk]
  · rw [if_neg h]
    congr 1
    funext k
    by_cases hk : k = (z, MESH_0, m, v)
    · subst hk
      rw [if_neg (fun hh => h hh.2)]
    · rw [if_neg (fun hh => hk hh.1)]

theorem searchMarker_2D {α : Type} [LinearOrderedField α] (g : CGeometry α)
    (cfg : Nat → CConfig α) (z m : Nat) (vertex : VertexKey → CVertex α) :
    searchMarker g cfg 2 z m vertex
      = .completed (fun k =>
          if (cfg z).Marker_All_Boundary m = MarkerBoundary.SEND_RECEIVE
              ∧ (cfg z).Marker_All_SendRecv m < 0
              ∧ k.2.2.2 < g.nVertex (z, MESH_0, m)
              ∧ k = (z, MESH_0, m, k.2.2.2) ∧ g.Matching_Zone k ≠ z then
            donorResult g k (vertex k) else vertex k) := by
  unfold searchMarker
  simp only []
  by_cases hb : (cfg z).Marker_All_Boundary m = MarkerBoundary.SEND_RECEIVE
  · by_cases hs : (cfg z).Marker_All_SendRecv m < 0
    · rw [if_pos hb, if_pos hs,
        forLoopE_completed _ _ (fun i s => searchVertex_2D g z m i s)]
      congr 1
      funext k
      rw [forLoop_keyed_modify
        (fun v (k : VertexKey) => k = (z, MESH_0, m, v) ∧ g.Matching_Zone k ≠ z)
        (fun k => k.2.2.2) (fun i k h => by rw [h.1]) (fun k old => donorResult g k old) _
        (fun i s k => rfl)]
      simp only [hb, hs, true_and]
    · rw [if_pos hb, if_neg hs]
      congr 1
      funext k
      rw [if_neg (fun hh => hs hh.2.1)]
  · rw [if_neg hb]
    congr 1
    funext k
    rw [if_neg (fun hh => hb hh.1)]

/-- In 2-D `SetSliding_Interfaces` completes, and the donor data of a vertex it
searches for are those of the last element of the matching zone that qualifies. -/
theorem SetSliding_Interfaces_2D {α : Type} [LinearOrderedField α] (g : CGeometry α)
    (cfg : Nat → CConfig α) (nZone : Nat) (h2 : g.nDim (ZONE_0, MESH_0) = 2) :
    SetSliding_Interfaces g cfg nZone
      = .completed { g with
          vertex := fun k =>
            if receivesDonor g cfg nZone k then donorResult g k (g.vertex k) else g.vertex k } := by
  unfold SetSliding_Interfaces
  simp only [h2]
  have hzone : ∀ (z : Nat) (s : VertexKey → CVertex α),
      forLoopE (cfg z).nMarker_All (fun iMarker vertex =>
          searchMarker g cfg 2 z iMarker vertex) s
        = .completed (fun k =>
            if k.2.2.1 < (cfg z).nMarker_All
                ∧ ((cfg z).Marker_All_Boundary k.2.2.1 = MarkerBoundary.SEND_RECEIVE
                  ∧ (cfg z).Marker_All_SendRecv k.2.2.1 < 0
                  ∧ k.2.2.2 < g.nVertex (z, MESH_0, k.2.2.1)
                  ∧ k = (z, MESH_0, k.2.2.1, k.2.2.2) ∧ g.Matching_Zone k ≠ z) then
              donorResult g k (s k) else s k) := by
    intro z s
    rw [forLoopE_completed _ _ (fun i s => searchMarker_2D g cfg z i s)]
    congr 1
    funext k
    exact forLoop_keyed_modify
      (fun m (k : VertexKey) =>
        (cfg z).Marker_All_Boundary m = MarkerBoundary.SEND_RECEIVE
          ∧ (cfg z).Marker_All_SendRecv m < 0
          ∧ k.2.2.2 < g.nVertex (z, MESH_0, m)
          ∧ k = (z, MESH_0, m, k.2.2.2) ∧ g.Matching_Zone k ≠ z)
      (fun k => k.2.2.1) (fun i k h => by rw [h.2.2.2.1]) (fun k old => donorResult g k old) _
      (fun i s k => rfl) (cfg z).nMarker_All s k
  rw [forLoopE_completed _ _ (fun i s => hzone i s)]
  simp only [Outcome.map]
  congr 2
  funext k
  rw [forLoop_keyed_modify
    (fun z (k : VertexKey) =>
      k.2.2.1 < (cfg z).nMarker_All
        ∧ ((cfg z).Marker_All_Boundary k.2.2.1 = MarkerBoundary.SEND_RECEIVE
          ∧ (cfg z).Marker_All_SendRecv k.2.2.1 < 0
          ∧ k.2.2.2 < g.nVertex (z, MESH_0, k.2.2.1)
          ∧ k = (z, MESH_0, k.2.2.1, k.2.2.2) ∧ g.Matching_Zone k ≠ z))
    (fun k => k.1) (fun i k h => by rw [h.2.2.2.2.1]) (fun k old => donorResult g k old) _
    (fun i s k => rfl)]
  have hiff : (k.1 < nZone ∧ k.2.2.1 < (cfg k.1).nMarker_All
        ∧ ((cfg k.1).Marker_All_Boundary k.2.2.1 = MarkerBoundary.SEND_RECEIVE
          ∧ (cfg k.1).Marker_All_SendRecv k.2.2.1 < 0
          ∧ k.2.2.2 < g.nVertex (k.1, MESH_0, k.2.2.1)
          ∧ k = (k.1, MESH_0, k.2.2.1, k.2.2.2) ∧ g.Matching_Zone k ≠ k.1))
      ↔ receivesDonor g cfg nZone k := by
    obtain ⟨z, l, m, v⟩ := k
    simp only [receivesDonor, Prod.mk.injEq, true_and]
    tauto
  by_cases hr : receivesDonor g cfg nZone k
  · rw [if_pos hr, if_pos (hiff.mpr hr)]
  · rw [if_neg hr, if_neg (fun h => hr (hiff.mp h))]

/-! ## `SetSliding_Interfaces` outside 2-D -/

theorem searchVertex_not2D {α : Type} [LinearOrderedField α] (g : CGeometry α) (nDim : Nat)
    (hdim : nDim ≠ 2) (z m v : Nat) (s : VertexKey → CVertex α) :
    ((g.Matching_Zone (z, MESH_0, m, v) ≠ z
        ∧ 1 ≤ g.nElem (g.Matching_Zone (z, MESH_0, m, v), MESH_0)) →
      searchVertex g nDim z m v s = .exited s) ∧
    (¬ (g.Matching_Zone (z, MESH_0, m, v) ≠ z
        ∧ 1 ≤ g.nElem (g.Matching_Zone (z, MESH_0, m, v), MESH_0)) →
      searchVertex g nDim z m v s = .completed s) := by
  unfold searchVertex
  simp only []
  have hexit : ∀ (i : Nat) (t : VertexKey → CVertex α), True →
      searchElement g nDim (z, MESH_0, m, v) (g.Matching_Zone (z, MESH_0, m, v))
        (nodeCoord g z (g.vertex_Node (z, MESH_0, m, v))) i t = .exited t := by
    intro i t _
    simp [searchElement, hdim]
  constructor
  · rintro ⟨hz, hn⟩
    rw [if_pos hz]
    exact forLoopE_exit _ (fun _ => True) hexit (fun i t h => absurd trivial h) _ s
      ⟨0, hn, trivial⟩
  · intro h
    by_cases hz : g.Matching_Zone (z, MESH_0, m, v) ≠ z
    · rw [if_pos hz]
      have hn : g.nElem (g.Matching_Zone (z, MESH_0, m, v), MESH_0) = 0 := by
        by_contra hne
        exact h ⟨hz, Nat.one_le_iff_ne_zero.mpr hne⟩
      rw [hn]
      rfl
    · rw [if_neg hz]

theorem searchMarker_not2D {α : Type} [LinearOrderedField α] (g : CGeometry α)
    (cfg : Nat → CConfig α) (nDim : Nat) (hdim : nDim ≠ 2) (z m : Nat)
    (s : VertexKey → CVertex α) :
    (((cfg z).Marker_All_Boundary m = MarkerBoundary.SEND_RECEIVE
        ∧ (cfg z).Marker_All_SendRecv m < 0
        ∧ ∃ v, v < g.nVertex (z, MESH_0, m) ∧ (g.Matching_Zone (z, MESH_0, m, v) ≠ z
          ∧ 1 ≤ g.nElem (g.Matching_Zone (z, MESH_0, m, v), MESH_0))) →
      searchMarker g cfg nDim z m s = .exited s) ∧
    (¬ ((cfg z).Marker_All_Boundary m = MarkerBoundary.SEND_RECEIVE
        ∧ (cfg z).Marker_All_SendRecv m < 0
        ∧ ∃ v, v < g.nVertex (z, MESH_0, m) ∧ (g.Matching_Zone (z, MESH_0, m, v) ≠ z
          ∧ 1 ≤ g.nElem (g.Matching_Zone (z, MESH_0, m, v), MESH_0))) →
      searchMarker g cfg nDim z m s = .completed s) := by
  unfold searchMarker
  simp only []
  constructor
  · rintro ⟨hb, hs, hv⟩
    rw [if_pos hb, if_pos hs]
    exact forLoopE_exit _ _ (fun i t => (searchVertex_not2D g nDim hdim z m i t).1)
      (fun i t => (searchVertex_not2D g nDim hdim z m i t).2) _ s hv
  · intro h
    by_cases hb : (cfg z).Marker_All_Boundary m = MarkerBoundary.SEND_RECEIVE
    · by_cases hs : (cfg z).Marker_All_SendRecv m < 0
      · rw [if_pos hb, if_pos hs]
        exact forLoopE_skip _ _ (fun i t => (searchVertex_not2D g nDim hdim z m i t).2) _ s
          (fun i hi hc => h ⟨hb, hs, i, hi, hc⟩)
      · rw [if_pos hb, if_neg hs]
    · rw [if_neg hb]

/-- Outside 2-D, `SetSliding_Interfaces` exits as soon as it meets a vertex whose
search has an element to look at, and otherwise completes; it writes nothing. -/
theorem SetSliding_Interfaces_not2D {α : Type} [LinearOrderedField α] (g : CGeometry α)
    (cfg : Nat → CConfig α) (nZone : Nat) (hdim : g.nDim (ZONE_0, MESH_0) ≠ 2) :
    ((∃ key, receivesDonor g cfg nZone key ∧ 1 ≤ g.nElem (g.Matching_Zone key, MESH_0)) →
      SetSliding_Interfaces g cfg nZone = .exited g) ∧
    (¬ (∃ key, receivesDonor g cfg nZone key ∧ 1 ≤ g.nElem (g.Matching_Zone key, MESH_0)) →
      SetSliding_Interfaces g cfg nZone = .completed g) := by
  have hzone : ∀ (z : Nat) (s : VertexKey → CVertex α),
      ((∃ m, m < (cfg z).nMarker_All ∧
          ((cfg z).Marker_All_Boundary m = MarkerBoundary.SEND_RECEIVE
          ∧ (cfg z).Marker_All_SendRecv m < 0
          ∧ ∃ v, v < g.nVertex (z, MESH_0, m) ∧ (g.Matching_Zone (z, MESH_0, m, v) ≠ z
            ∧ 1 ≤ g.nElem (g.Matching_Zone (z, MESH_0, m, v), MESH_0)))) →
        forLoopE (cfg z).nMarker_All (fun iMarker vertex =>
          searchMarker g cfg (g.nDim (ZONE_0, MESH_0)) z iMarker vertex) s = .exited s) ∧
      (¬ (∃ m, m < (cfg z).nMarker_All ∧
          ((cfg z).Marker_All_Boundary m = MarkerBoundary.SEND_RECEIVE
          ∧ (cfg z).Marker_All_SendRecv m < 0
          ∧ ∃ v, v < g.nVertex (z, MESH_0, m) ∧ (g.Matching_Zone (z, MESH_0, m, v) ≠ z
            ∧ 1 ≤ g.nElem (g.Matching_Zone (z, MESH_0, m, v), MESH_0)))) →
        forLoopE (cfg z).nMarker_All (fun iMarker vertex =>
          searchMarker g cfg (g.nDim (ZONE_0, MESH_0)) z iMarker vertex) s = .completed s) := by
    intro z s
    constructor
    · intro h
      exact forLoopE_exit _ _ (fun i t => (searchMarker_not2D g cfg _ hdim z i t).1)
        (fun i t => (searchMarker_not2D g cfg _ hdim z i t).2) _ s h
    · intro h
      exact forLoopE_skip _ _ (fun i t => (searchMarker_not2D g cfg _ hdim z i t).2) _ s
        (fun i hi hc => h ⟨i, hi, hc⟩)
  have hiff : (∃ key, receivesDonor g cfg nZone key
        ∧ 1 ≤ g.nElem (g.Matching_Zone key, MESH_0)) ↔
      ∃ z, z < nZone ∧ ∃ m, m < (cfg z).nMarker_All ∧
          ((cfg z).Marker_All_Boundary m = MarkerBoundary.SEND_RECEIVE
          ∧ (cfg z).Marker_All_SendRecv m < 0
          ∧ ∃ v, v < g.nVertex (z, MESH_0, m) ∧ (g.Matching_Zone (z, MESH_0, m, v) ≠ z
            ∧ 1 ≤ g.nElem (g.Matching_Zone (z, MESH_0, m, v), MESH_0))) := by
    constructor
    · rintro ⟨⟨z, l, m, v⟩, ⟨hz, hl, hm, hb, hs, hv, hmz⟩, hn⟩
      simp only at hz hl hm hb hs hv hmz
      subst hl
      exact ⟨z, hz, m, hm, hb, hs, v, hv, hmz, hn⟩
    · rintro ⟨z, hz, m, hm, hb, hs, v, hv, hmz, hn⟩
      exact ⟨(z, MESH_0, m, v), ⟨hz, rfl, hm, hb, hs, hv, hmz⟩, hn⟩
  unfold SetSliding_Interfaces
  simp only []
  constructor
  · intro h
    rw [forLoopE_exit _ _ (fun i t => (hzone i t).1) (fun i t => (hzone i t).2) _ _
      (hiff.mp h)]
    rfl
  · intro h
    rw [forLoopE_skip _ _ (fun i t => (hzone i t).2) _ _
      (fun i hi hc => h (hiff.mpr ⟨i, hi, hc⟩))]
    rfl

/-! ## The basis functions of a triangle -/

theorem eps_eq {α : Type} [LinearOrderedField α] : (eps : α) = 1 / 10000000000 := by
  unfold eps
  norm_num

theorem eps_nonneg {α : Type} [LinearOrderedField α] : (0 : α) ≤ eps := by
  rw [eps_eq]
  positivity

/-- For a counter-clockwise, non-degenerate triangle the three basis functions are
the ratios of signed areas. -/
theorem basisFunctions_ccw {α : Type} [LinearOrderedField α] (X_0 X_1 X_2 P : Nat → α)
    (h : 0 < orient2D X_0 X_1 X_2) :
    basisFunctions X_0 X_1 X_2 P
      = some (orient2D P X_1 X_2 / orient2D X_0 X_1 X_2,
          orient2D X_0 P X_2 / orient2D X_0 X_1 X_2,
          orient2D X_0 X_1 P / orient2D X_0 X_1 X_2) := by
  have hcross : (X_0 0 - X_2 0) * (X_1 1 - X_2 1) - (X_0 1 - X_2 1) * (X_1 0 - X_2 0)
      = orient2D X_0 X_1 X_2 := by
    unfold orient2D; ring
  have hne : orient2D X_0 X_1 X_2 ≠ 0 := h.ne'
  have hA : ¬ (0.5 * |orient2D X_0 X_1 X_2| = 0) := by
    rw [abs_of_pos h]
    norm_num
    exact hne
  unfold basisFunctions
  simp only [hcross]
  rw [if_neg hA, abs_of_pos h]
  have e0 : (0.5 : α) = 1 / 2 := by norm_num
  simp only [e0, Option.some.injEq, Prod.mk.injEq]
  refine ⟨?_, ?_, ?_⟩
  · field_simp
    unfold orient2D
    ring
  · field_simp
    unfold orient2D
    ring
  · field_simp
    unfold orient2D
    ring


/-! ## Claims on `SetSliding_Interfaces` -/

theorem donorWrite_eq_some_iff {α : Type} [LinearOrderedField α] (g : CGeometry α)
    (donorZone : Nat) (Coord_i : Nat → α) (iElem : Nat) (w : Nat × α × α × α) :
    donorWrite g donorZone Coord_i iElem = some w ↔
      (w.1 = iElem ∧ elementBasisFunctions g donorZone Coord_i iElem = some w.2
        ∧ withinTolerance w.2) := by
  unfold donorWrite
  cases hN : elementBasisFunctions g donorZone Coord_i iElem with
  | none => simp
  | some N =>
    obtain ⟨e, N'⟩ := w
    by_cases hin : withinTolerance N
    · simp only [hin, if_true, Option.some.injEq, Prod.mk.injEq]
      constructor
      · rintro ⟨h1, h2⟩
        subst h1 h2
        exact ⟨rfl, rfl, hin⟩
      · rintro ⟨h1, h2, _⟩
        exact ⟨h1.symm, h2⟩
    · simp only [hin, if_false, Option.some.injEq]
      constructor
      · intro h
        exact absurd h (by simp)
      · rintro ⟨_, h2, h3⟩
        subst h2
        exact absurd h3 hin

theorem lastDonorWrite_eq {α : Type} [LinearOrderedField α] (g : CGeometry α)
    (donorZone : Nat) (Coord_i : Nat → α) (e : Nat) (w : Nat × α × α × α)
    (hw : donorWrite g donorZone Coord_i e = some w) (n : Nat) (he : e < n)
    (hlast : ∀ e', e < e' → e' < n → donorWrite g donorZone Coord_i e' = none) :
    lastDonorWrite g donorZone Coord_i n = some w := by
  induction n with
  | zero => omega
  | succ n ih =>
    unfold lastDonorWrite
    by_cases hen : e = n
    · subst hen
      rw [hw]
    · have hlt : e < n := by omega
      rw [hlast n hlt (Nat.lt_succ_self n)]
      exact ih hlt (fun e' h1 h2 => hlast e' h1 (Nat.lt_succ_of_lt h2))

theorem lastDonorWrite_none {α : Type} [LinearOrderedField α] (g : CGeometry α)
    (donorZone : Nat) (Coord_i : Nat → α) (n : Nat)
    (hnone : ∀ e', e' < n → donorWrite g donorZone Coord_i e' = none) :
    lastDonorWrite g donorZone Coord_i n = none := by
  induction n with
  | zero => rfl
  | succ n ih =>
    unfold lastDonorWrite
    rw [hnone n (Nat.lt_succ_self n)]
    exact ih (fun e' h => hnone e' (Nat.lt_succ_of_lt h))

theorem sample_donorWrite_zero :
    donorWrite (sampleGeometry ℚ) 1 (nodeCoord (sampleGeometry ℚ) 0 0) 0
      = some (0, 1 / 2, 0, 1 / 2) := by
  simp [donorWrite, elementBasisFunctions, basisFunctions, nodeCoord, sampleGeometry,
    withinTolerance, eps]
  norm_num

theorem sample_donorWrite_one :
    donorWrite (sampleGeometry ℚ) 1 (nodeCoord (sampleGeometry ℚ) 0 0) 1
      = some (1, 1 / 2, 1 / 2, 0) := by
  simp [donorWrite, elementBasisFunctions, basisFunctions, nodeCoord, sampleGeometry,
    withinTolerance, eps]
  norm_num

/-- C5, as amended: in 2-D, for every receive vertex for which an element of the
donor zone qualifies, the donor recorded by `SetSliding_Interfaces` is the last
qualifying element in element-index order, with that element's three weights. -/
theorem SetSliding_Interfaces_records_last_donor {α : Type} [LinearOrderedField α]
    (g : CGeometry α) (cfg : Nat → CConfig α) (nZone : Nat) (key : VertexKey)
    (h2 : g.nDim (ZONE_0, MESH_0) = 2) (hkey : receivesDonor g cfg nZone key)
    (e : Nat) (N : α × α × α) (he : e < g.nElem (g.Matching_Zone key, MESH_0))
    (hN : elementBasisFunctions g (g.Matching_Zone key)
      (nodeCoord g key.1 (g.vertex_Node key)) e = some N)
    (hin : withinTolerance N)
    (hlast : ∀ e' N', e < e' → e' < g.nElem (g.Matching_Zone key, MESH_0) →
      elementBasisFunctions g (g.Matching_Zone key)
        (nodeCoord g key.1 (g.vertex_Node key)) e' = some N' → ¬ withinTolerance N') :
    ∃ g', SetSliding_Interfaces g cfg nZone = .completed g'
      ∧ (g'.vertex key).Donor_Elem = e
      ∧ (g'.vertex key).Basis_Function 0 = N.1
      ∧ (g'.vertex key).Basis_Function 1 = N.2.1
      ∧ (g'.vertex key).Basis_Function 2 = N.2.2 := by
  refine ⟨_, SetSliding_Interfaces_2D g cfg nZone h2, ?_⟩
  have hw : donorWrite g (g.Matching_Zone key) (nodeCoord g key.1 (g.vertex_Node key)) e
      = some (e, N) :=
    (donorWrite_eq_some_iff g _ _ e (e, N)).mpr ⟨rfl, hN, hin⟩
  have hnone : ∀ e', e < e' → e' < g.nElem (g.Matching_Zone key, MESH_0) →
      donorWrite g (g.Matching_Zone key) (nodeCoord g key.1 (g.vertex_Node key)) e' = none := by
    intro e' h1 h2'
    cases hw' : donorWrite g (g.Matching_Zone key)
        (nodeCoord g key.1 (g.vertex_Node key)) e' with
    | none => rfl
    | some w' =>
      obtain ⟨_, hb, hc⟩ := (donorWrite_eq_some_iff g _ _ e' w').mp hw'
      exact absurd hc (hlast e' w'.2 h1 h2' hb)
  have hl := lastDonorWrite_eq g _ _ e (e, N) hw _ he hnone
  refine ⟨?_, ?_, ?_, ?_⟩ <;>
    simp [if_pos hkey, donorResult, hl, recordDonor, Function.update_apply]

theorem SetSliding_Interfaces_records_last_donor_witness :
    ∃ g', SetSliding_Interfaces (sampleGeometry ℚ) (sampleConfig ℚ) 2 = .completed g'
      ∧ (g'.vertex (0, 0, 0, 0)).Donor_Elem = 1
      ∧ (g'.vertex (0, 0, 0, 0)).Basis_Function 0 = ((1 / 2, 1 / 2, 0) : ℚ × ℚ × ℚ).1
      ∧ (g'.vertex (0, 0, 0, 0)).Basis_Function 1 = ((1 / 2, 1 / 2, 0) : ℚ × ℚ × ℚ).2.1
      ∧ (g'.vertex (0, 0, 0, 0)).Basis_Function 2 = ((1 / 2, 1 / 2, 0) : ℚ × ℚ × ℚ).2.2 :=
  SetSliding_Interfaces_records_last_donor (sampleGeometry ℚ) (sampleConfig ℚ) 2 (0, 0, 0, 0)
    rfl (by decide) 1 (1 / 2, 1 / 2, 0) (by decide)
    (((donorWrite_eq_some_iff _ _ _ _ _).mp sample_donorWrite_one).2.1)
    (((donorWrite_eq_some_iff _ _ _ _ _).mp sample_donorWrite_one).2.2)
    (fun e' N' h1 h2 => by
      have : (sampleGeometry ℚ).nElem ((sampleGeometry ℚ).Matching_Zone (0, 0, 0, 0), MESH_0)
          = 2 := rfl
      omega)

/-- C5, counterexample to the claim as stated: in the sample mesh the receive vertex
lies on the edge shared by the elements 0 and 1 of the donor zone; both qualify,
element 0 is the first, and the donor recorded is element 1 with the weights of
element 1. -/
theorem SetSliding_Interfaces_first_donor_counterexample :
    receivesDonor (sampleGeometry ℚ) (sampleConfig ℚ) 2 (0, 0, 0, 0)
    ∧ donorWrite (sampleGeometry ℚ) 1 (nodeCoord (sampleGeometry ℚ) 0 0) 0
        = some (0, 1 / 2, 0, 1 / 2)
    ∧ donorWrite (sampleGeometry ℚ) 1 (nodeCoord (sampleGeometry ℚ) 0 0) 1
        = some (1, 1 / 2, 1 / 2, 0)
    ∧ ((SetSliding_Interfaces (sampleGeometry ℚ) (sampleConfig ℚ) 2).state.vertex
        (0, 0, 0, 0)).Donor_Elem = 1
    ∧ ((SetSliding_Interfaces (sampleGeometry ℚ) (sampleConfig ℚ) 2).state.vertex
        (0, 0, 0, 0)).Basis_Function 1 = 1 / 2 := by
  have hr : receivesDonor (sampleGeometry ℚ) (sampleConfig ℚ) 2 (0, 0, 0, 0) := by decide
  have hl : lastDonorWrite (sampleGeometry ℚ) 1 (nodeCoord (sampleGeometry ℚ) 0 0) 2
      = some (1, 1 / 2, 1 / 2, 0) := by
    unfold lastDonorWrite
    rw [sample_donorWrite_one]
  have hres : donorResult (sampleGeometry ℚ) (0, 0, 0, 0) ((sampleGeometry ℚ).vertex (0, 0, 0, 0))
      = recordDonor (1, 1 / 2, 1 / 2, 0) ((sampleGeometry ℚ).vertex (0, 0, 0, 0)) := by
    unfold donorResult
    have h1 : (sampleGeometry ℚ).Matching_Zone (0, 0, 0, 0) = 1 := rfl
    have h2 : (sampleGeometry ℚ).vertex_Node (0, 0, 0, 0) = 0 := rfl
    have h3 : (sampleGeometry ℚ).nElem (1, MESH_0) = 2 := rfl
    rw [h1, h2, h3, hl]
  refine ⟨hr, sample_donorWrite_zero, sample_donorWrite_one, ?_, ?_⟩
  · rw [SetSliding_Interfaces_2D _ _ _ rfl]
    simp only [Outcome.state, if_pos hr, hres, recordDonor]
  · rw [SetSliding_Interfaces_2D _ _ _ rfl]
    simp only [Outcome.state, if_pos hr, hres, recordDonor]
    simp [Function.update_apply]

/-- C6: in 2-D, for a receive vertex at `P` and a donor triangle whose vertices
`X_0, X_1, X_2` are non-collinear and in counter-clockwise order, the weights
computed by `SetSliding_Interfaces` are the barycentric coordinates of `P`:
`N_0 + N_1 + N_2 = 1` and `N_0·X_0 + N_1·X_1 + N_2·X_2 = P`. -/
theorem SetSliding_Interfaces_barycentric {α : Type} [LinearOrderedField α]
    (g : CGeometry α) (donorZone iElem : Nat) (Coord_i : Nat → α)
    (hccw : 0 < orient2D
      (nodeCoord g donorZone (g.elem_Node (donorZone, MESH_0, iElem, 0)))
      (nodeCoord g donorZone (g.elem_Node (donorZone, MESH_0, iElem, 1)))
      (nodeCoord g donorZone (g.elem_Node (donorZone, MESH_0, iElem, 2)))) :
    ∃ N : α × α × α, elementBasisFunctions g donorZone Coord_i iElem = some N
      ∧ N.1 + N.2.1 + N.2.2 = 1
      ∧ N.1 * nodeCoord g donorZone (g.elem_Node (donorZone, MESH_0, iElem, 0)) 0
          + N.2.1 * nodeCoord g donorZone (g.elem_Node (donorZone, MESH_0, iElem, 1)) 0
          + N.2.2 * nodeCoord g donorZone (g.elem_Node (donorZone, MESH_0, iElem, 2)) 0
          = Coord_i 0
      ∧ N.1 * nodeCoord g donorZone (g.elem_Node (donorZone, MESH_0, iElem, 0)) 1
          + N.2.1 * nodeCoord g donorZone (g.elem_Node (donorZone, MESH_0, iElem, 1)) 1
          + N.2.2 * nodeCoord g donorZone (g.elem_Node (donorZone, MESH_0, iElem, 2)) 1
          = Coord_i 1 := by
  refine ⟨_, basisFunctions_ccw _ _ _ Coord_i hccw, ?_, ?_, ?_⟩
  · have hne := hccw.ne'
    field_simp
    unfold orient2D
    ring
  · have hne := hccw.ne'
    field_simp
    unfold orient2D
    ring
  · have hne := hccw.ne'
    field_simp
    unfold orient2D
    ring

theorem sample_orient2D_zero :
    0 < orient2D
      (nodeCoord (sampleGeometry ℚ) 1 ((sampleGeometry ℚ).elem_Node (1, MESH_0, 0, 0)))
      (nodeCoord (sampleGeometry ℚ) 1 ((sampleGeometry ℚ).elem_Node (1, MESH_0, 0, 1)))
      (nodeCoord (sampleGeometry ℚ) 1 ((sampleGeometry ℚ).elem_Node (1, MESH_0, 0, 2))) := by
  simp [orient2D, nodeCoord, sampleGeometry]

theorem SetSliding_Interfaces_barycentric_witness :
    ∃ N : ℚ × ℚ × ℚ,
      elementBasisFunctions (sampleGeometry ℚ) 1 (nodeCoord (sampleGeometry ℚ) 0 0) 0 = some N
      ∧ N.1 + N.2.1 + N.2.2 = 1
      ∧ N.1 * nodeCoord (sampleGeometry ℚ) 1 ((sampleGeometry ℚ).elem_Node (1, MESH_0, 0, 0)) 0
          + N.2.1 * nodeCoord (sampleGeometry ℚ) 1 ((sampleGeometry ℚ).elem_Node (1, MESH_0, 0, 1)) 0
          + N.2.2 * nodeCoord (sampleGeometry ℚ) 1 ((sampleGeometry ℚ).elem_Node (1, MESH_0, 0, 2)) 0
          = nodeCoord (sampleGeometry ℚ) 0 0 0
      ∧ N.1 * nodeCoord (sampleGeometry ℚ) 1 ((sampleGeometry ℚ).elem_Node (1, MESH_0, 0, 0)) 1
          + N.2.1 * nodeCoord (sampleGeometry ℚ) 1 ((sampleGeometry ℚ).elem_Node (1, MESH_0, 0, 1)) 1
          + N.2.2 * nodeCoord (sampleGeometry ℚ) 1 ((sampleGeometry ℚ).elem_Node (1, MESH_0, 0, 2)) 1
          = nodeCoord (sampleGeometry ℚ) 0 0 1 :=
  SetSliding_Interfaces_barycentric (sampleGeometry ℚ) 1 0 (nodeCoord (sampleGeometry ℚ) 0 0)
    sample_orient2D_zero

/-- The test of lines 1466-1468 with the value of `eps` written out. -/
theorem withinTolerance_iff {α : Type} [LinearOrderedField α] (N : α × α × α) :
    withinTolerance N ↔
      ((-(1 / 10000000000) ≤ N.1 ∧ N.1 ≤ 1 + 1 / 10000000000)
        ∧ (-(1 / 10000000000) ≤ N.2.1 ∧ N.2.1 ≤ 1 + 1 / 10000000000)
        ∧ (-(1 / 10000000000) ≤ N.2.2 ∧ N.2.2 ≤ 1 + 1 / 10000000000)) := by
  have h1 : (1.0 : α) = 1 := by norm_num
  simp only [withinTolerance, eps_eq, ge_iff_le, h1]

/-- The body of the element loop in 2-D when the three weights pass the test. -/
theorem searchElement_accept {α : Type} [LinearOrderedField α] (g : CGeometry α)
    (key : VertexKey) (donorZone : Nat) (Coord_i : Nat → α) (iElem : Nat)
    (vertex : VertexKey → CVertex α) (N : α × α × α)
    (hN : elementBasisFunctions g donorZone Coord_i iElem = some N)
    (hin : withinTolerance N) :
    searchElement g 2 key donorZone Coord_i iElem vertex
      = .completed (storeDonor vertex key (iElem, N)) := by
  unfold searchElement donorWrite
  rw [if_pos rfl, hN]
  simp only [if_pos hin]

/-- The body of the element loop in 2-D when the weights fail the test. -/
theorem searchElement_reject {α : Type} [LinearOrderedField α] (g : CGeometry α)
    (key : VertexKey) (donorZone : Nat) (Coord_i : Nat → α) (iElem : Nat)
    (vertex : VertexKey → CVertex α)
    (hout : ∀ N, elementBasisFunctions g donorZone Coord_i iElem = some N →
      ¬ withinTolerance N) :
    searchElement g 2 key donorZone Coord_i iElem vertex = .completed vertex := by
  unfold searchElement donorWrite
  rw [if_pos rfl]
  cases hN : elementBasisFunctions g donorZone Coord_i iElem with
  | none => rfl
  | some N => simp only [if_neg (hout N hN)]

/-- The weights the code computes at a point of a counter-clockwise, non-degenerate
donor triangle given by its barycentric coordinates. -/
theorem elementBasisFunctions_ccw {α : Type} [LinearOrderedField α] (g : CGeometry α)
    (donorZone : Nat) (Coord_i : Nat → α) (iElem : Nat) (l0 l1 l2 : α)
    (hsum : l0 + l1 + l2 = 1)
    (hccw : 0 < orient2D
      (nodeCoord g donorZone (g.elem_Node (donorZone, MESH_0, iElem, 0)))
      (nodeCoord g donorZone (g.elem_Node (donorZone, MESH_0, iElem, 1)))
      (nodeCoord g donorZone (g.elem_Node (donorZone, MESH_0, iElem, 2))))
    (hx : Coord_i 0 = l0 * nodeCoord g donorZone (g.elem_Node (donorZone, MESH_0, iElem, 0)) 0
        + l1 * nodeCoord g donorZone (g.elem_Node (donorZone, MESH_0, iElem, 1)) 0
        + l2 * nodeCoord g donorZone (g.elem_Node (donorZone, MESH_0, iElem, 2)) 0)
    (hy : Coord_i 1 = l0 * nodeCoord g donorZone (g.elem_Node (donorZone, MESH_0, iElem, 0)) 1
        + l1 * nodeCoord g donorZone (g.elem_Node (donorZone, MESH_0, iElem, 1)) 1
        + l2 * nodeCoord g donorZone (g.elem_Node (donorZone, MESH_0, iElem, 2)) 1) :
    elementBasisFunctions g donorZone Coord_i iElem = some (l0, l1, l2) := by
  have hne := hccw.ne'
  unfold elementBasisFunctions
  simp only []
  rw [basisFunctions_ccw _ _ _ Coord_i hccw]
  have hl2 : l2 = 1 - l0 - l1 := by linarith
  simp only [Option.some.injEq, Prod.mk.injEq]
  refine ⟨?_, ?_, ?_⟩
  · rw [div_eq_iff hne]
    unfold orient2D at *
    rw [hx, hy, hl2]
    ring
  · rw [div_eq_iff hne]
    unfold orient2D at *
    rw [hx, hy, hl2]
    ring
  · rw [div_eq_iff hne]
    unfold orient2D at *
    rw [hx, hy, hl2]
    ring

/-- C7: in 2-D, for a receive vertex `key` and a donor element `iElem`, and whatever
the donor records are when the element is reached. If the three computed weights
`N_0, N_1, N_2` each lie in `[-eps, 1+eps]`, `eps = 1e-10`, the pass of
`SetSliding_Interfaces` over the element leaves `iElem` in `Donor_Elem` and the three
weights in `Basis_Function` 0, 1, 2 of the record of the vertex, and changes nothing
else. If one of them lies outside the interval, or the weights are not numbers
(triangle of zero area), every record is left as it was. In particular at a point
of a counter-clockwise non-degenerate triangle, its edges and vertices included,
the record receives the element and the barycentric coordinates of the point. -/
theorem SetSliding_Interfaces_donor_test {α : Type} [LinearOrderedField α]
    (g : CGeometry α) (key : VertexKey) (donorZone : Nat) (Coord_i : Nat → α) (iElem : Nat)
    (vertex : VertexKey → CVertex α) :
    (∀ N : α × α × α, elementBasisFunctions g donorZone Coord_i iElem = some N →
      ((-(1 / 10000000000) ≤ N.1 ∧ N.1 ≤ 1 + 1 / 10000000000)
        ∧ (-(1 / 10000000000) ≤ N.2.1 ∧ N.2.1 ≤ 1 + 1 / 10000000000)
        ∧ (-(1 / 10000000000) ≤ N.2.2 ∧ N.2.2 ≤ 1 + 1 / 10000000000)) →
      ∃ vertex', searchElement g 2 key donorZone Coord_i iElem vertex = .completed vertex' ∧
        (vertex' key).Donor_Elem = iElem ∧
        (vertex' key).Basis_Function 0 = N.1 ∧
        (vertex' key).Basis_Function 1 = N.2.1 ∧
        (vertex' key).Basis_Function 2 = N.2.2 ∧
        (∀ k, 3 ≤ k → (vertex' key).Basis_Function k = (vertex key).Basis_Function k) ∧
        (∀ key', key' ≠ key → vertex' key' = vertex key')) ∧
    ((∀ N : α × α × α, elementBasisFunctions g donorZone Coord_i iElem = some N →
        ¬ ((-(1 / 10000000000) ≤ N.1 ∧ N.1 ≤ 1 + 1 / 10000000000)
          ∧ (-(1 / 10000000000) ≤ N.2.1 ∧ N.2.1 ≤ 1 + 1 / 10000000000)
          ∧ (-(1 / 10000000000) ≤ N.2.2 ∧ N.2.2 ≤ 1 + 1 / 10000000000))) →
      searchElement g 2 key donorZone Coord_i iElem vertex = .completed vertex) ∧
    (∀ l0 l1 l2 : α, 0 ≤ l0 → 0 ≤ l1 → 0 ≤ l2 → l0 + l1 + l2 = 1 →
      0 < orient2D
        (nodeCoord g donorZone (g.elem_Node (donorZone, MESH_0, iElem, 0)))
        (nodeCoord g donorZone (g.elem_Node (donorZone, MESH_0, iElem, 1)))
        (nodeCoord g donorZone (g.elem_Node (donorZone, MESH_0, iElem, 2))) →
      Coord_i 0 = l0 * nodeCoord g donorZone (g.elem_Node (donorZone, MESH_0, iElem, 0)) 0
          + l1 * nodeCoord g donorZone (g.elem_Node (donorZone, MESH_0, iElem, 1)) 0
          + l2 * nodeCoord g donorZone (g.elem_Node (donorZone, MESH_0, iElem, 2)) 0 →
      Coord_i 1 = l0 * nodeCoord g donorZone (g.elem_Node (donorZone, MESH_0, iElem, 0)) 1
          + l1 * nodeCoord g donorZone (g.elem_Node (donorZone, MESH_0, iElem, 1)) 1
          + l2 * nodeCoord g donorZone (g.elem_Node (donorZone, MESH_0, iElem, 2)) 1 →
      ∃ vertex', searchElement g 2 key donorZone Coord_i iElem vertex = .completed vertex' ∧
        (vertex' key).Donor_Elem = iElem ∧
        (vertex' key).Basis_Function 0 = l0 ∧
        (vertex' key).Basis_Function 1 = l1 ∧
        (vertex' key).Basis_Function 2 = l2) := by
  have hf : ∀ w : Nat × α × α × α,
      (storeDonor vertex key w key).Donor_Elem = w.1 ∧
      (storeDonor vertex key w key).Basis_Function 0 = w.2.1 ∧
      (storeDonor vertex key w key).Basis_Function 1 = w.2.2.1 ∧
      (storeDonor vertex key w key).Basis_Function 2 = w.2.2.2 ∧
      (∀ k, 3 ≤ k →
        (storeDonor vertex key w key).Basis_Function k = (vertex key).Basis_Function k) ∧
      (∀ key', key' ≠ key → storeDonor vertex key w key' = vertex key') := by
    intro w
    unfold storeDonor SetBasisFunction SetDonorElem
    refine ⟨?_, ?_, ?_, ?_, ?_, ?_⟩
    · simp
    · simp [Function.update_apply]
    · simp [Function.update_apply]
    · simp [Function.update_apply]
    · intro k hk
      have h0 : k ≠ 0 := by omega
      have h1 : k ≠ 1 := by omega
      have h2 : k ≠ 2 := by omega
      simp [Function.update_apply, h0, h1, h2]
    · intro key' hne
      simp [Function.update_apply, hne]
  refine ⟨?_, ?_, ?_⟩
  · intro N hN hin
    exact ⟨_, searchElement_accept g key donorZone Coord_i iElem vertex N hN
      ((withinTolerance_iff N).mpr hin), hf (iElem, N)⟩
  · intro hout
    exact searchElement_reject g key donorZone Coord_i iElem vertex
      (fun N hN hin => hout N hN ((withinTolerance_iff N).mp hin))
  · intro l0 l1 l2 h0 h1 h2 hsum hccw hx hy
    have hN := elementBasisFunctions_ccw g donorZone Coord_i iElem l0 l1 l2 hsum hccw hx hy
    have hin : withinTolerance (l0, l1, l2) := by
      rw [withinTolerance_iff]
      refine ⟨⟨?_, ?_⟩, ⟨?_, ?_⟩, ⟨?_, ?_⟩⟩ <;> norm_num <;> linarith
    have hw := hf (iElem, l0, l1, l2)
    exact ⟨_, searchElement_accept g key donorZone Coord_i iElem vertex _ hN hin,
      hw.1, hw.2.1, hw.2.2.1, hw.2.2.2.1⟩

/-- C8: when the mesh dimension is not 2 and some receive-side vertex whose
matching zone differs from its own has a donor zone with at least one element,
`SetSliding_Interfaces` ends in `exit`, and no donor has been recorded: the state
at the exit is the geometry it was called with. -/
theorem SetSliding_Interfaces_3D_exits {α : Type} [LinearOrderedField α] (g : CGeometry α)
    (cfg : Nat → CConfig α) (nZone : Nat) (hdim : g.nDim (ZONE_0, MESH_0) ≠ 2)
    (hex : ∃ key, receivesDonor g cfg nZone key
      ∧ 1 ≤ g.nElem (g.Matching_Zone key, MESH_0)) :
    SetSliding_Interfaces g cfg nZone = .exited g :=
  (SetSliding_Interfaces_not2D g cfg nZone hdim).1 hex

theorem SetSliding_Interfaces_3D_exits_witness :
    SetSliding_Interfaces (sampleGeometry3D ℚ) (sampleConfig ℚ) 2
      = .exited (sampleGeometry3D ℚ) :=
  SetSliding_Interfaces_3D_exits (sampleGeometry3D ℚ) (sampleConfig ℚ) 2 (by decide)
    ⟨(0, 0, 0, 0), by decide, by decide⟩

/-- C9: `SetSliding_Interfaces` changes the donor record only of vertices on a
`SEND_RECEIVE` marker with negative send/receive code whose matching zone differs
from their own zone; the donor record of every other vertex, every mesh coordinate
and the rest of the mesh data are left as they were, however the run ends. -/
theorem SetSliding_Interfaces_frame {α : Type} [LinearOrderedField α] (g : CGeometry α)
    (cfg : Nat → CConfig α) (nZone : Nat) :
    (∀ key, ¬ receivesDonor g cfg nZone key →
      (SetSliding_Interfaces g cfg nZone).state.vertex key = g.vertex key) ∧
    (SetSliding_Interfaces g cfg nZone).state.Coord = g.Coord ∧
    (SetSliding_Interfaces g cfg nZone).state.GridVel = g.GridVel ∧
    (SetSliding_Interfaces g cfg nZone).state.elem_Node = g.elem_Node ∧
    (SetSliding_Interfaces g cfg nZone).state.vertex_Node = g.vertex_Node ∧
    (SetSliding_Interfaces g cfg nZone).state.Matching_Zone = g.Matching_Zone := by
  by_cases h2 : g.nDim (ZONE_0, MESH_0) = 2
  · rw [SetSliding_Interfaces_2D g cfg nZone h2]
    refine ⟨fun key hkey => ?_, rfl, rfl, rfl, rfl, rfl⟩
    simp only [Outcome.state, if_neg hkey]
  · by_cases hex : ∃ key, receivesDonor g cfg nZone key
        ∧ 1 ≤ g.nElem (g.Matching_Zone key, MESH_0)
    · rw [(SetSliding_Interfaces_not2D g cfg nZone h2).1 hex]
      exact ⟨fun _ _ => rfl, rfl, rfl, rfl, rfl, rfl⟩
    · rw [(SetSliding_Interfaces_not2D g cfg nZone h2).2 hex]
      exact ⟨fun _ _ => rfl, rfl, rfl, rfl, rfl, rfl⟩

/-! ## Instances of the claims on `SetTimeSpectral` at the sample data -/

theorem SetTimeSpectral_operator_row_sum_zero_witness :
    ∑ j in Finset.range 3, timeSpectralOperator (1 : ℝ) 3 0 j = 0 :=
  SetTimeSpectral_operator_row_sum_zero 3 (by decide) 1 one_ne_zero 0 (by decide)

theorem SetTimeSpectral_explicit_source_witness :
    (SetTimeSpectral (sampleGeometry ℝ) (sampleSolution ℝ) (sampleConfig ℝ) 2 1).TimeSpectral_Source
        (1, 0, SolKind.FLOW_SOL, 0, 0)
      = ∑ j in Finset.range 2,
          timeSpectralOperator (oscillationPeriod (sampleConfig ℝ)) 2 1 j
            * (sampleSolution ℝ).Solution (j, 0, SolKind.FLOW_SOL, 0, 0) :=
  (SetTimeSpectral_explicit_source (sampleGeometry ℝ) (sampleSolution ℝ) (sampleConfig ℝ) 2 1
    (by decide) rfl (by decide)).1 0 0 0 (Nat.zero_le _) (by decide) (by decide)

theorem SetTimeSpectral_implicit_source_witness :
    (SetTimeSpectral (sampleGeometry ℝ) (sampleSolution ℝ) (sampleConfigImplicit ℝ) 2 1).TimeSpectral_Source
        (1, 0, SolKind.FLOW_SOL, 0, 0)
      = ∑ j in Finset.range 2,
          timeSpectralOperator (oscillationPeriod (sampleConfigImplicit ℝ)) 2 1 j
            * (sampleSolution ℝ).Solution (j, 0, SolKind.FLOW_SOL, 0, 0)
        + ∑ j in Finset.range 2,
          timeSpectralOperator (oscillationPeriod (sampleConfigImplicit ℝ)) 2 1 j
            * ((sampleSolution ℝ).Solution (j, 0, SolKind.FLOW_SOL, 0, 0)
                - (sampleSolution ℝ).Solution_Old (j, 0, SolKind.FLOW_SOL, 0, 0)) :=
  SetTimeSpectral_implicit_source (sampleGeometry ℝ) (sampleSolution ℝ) (sampleConfigImplicit ℝ)
    2 1 (by decide) rfl rfl 0 0 0 (Nat.zero_le _) (by decide) (by decide)


/-! ## `SetTimeSpectral_Velocities`: the loops -/

/-- A loop that accumulates into entry `j` of two arrays. -/
theorem forLoop_accumulate_pair {α : Type} [AddCommMonoid α] (j : Nat) (f h : Nat → α)
    (n : Nat) (a b : Nat → α) :
    forLoop n (fun i (ab : (Nat → α) × (Nat → α)) =>
        (Function.update ab.1 j (ab.1 j + f i), Function.update ab.2 j (ab.2 j + h i))) (a, b)
      = (Function.update a j (a j + ∑ i in Finset.range n, f i),
         Function.update b j (b j + ∑ i in Finset.range n, h i)) := by
  induction n with
  | zero => simp [forLoop]
  | succ n ih =>
    rw [forLoop_succ, ih]
    simp [Function.update_idem, Finset.sum_range_succ, add_assoc]

/-- A loop that assigns entry `j` of two arrays at step `j`. -/
theorem forLoop_assign_pair {α : Type} (F H : Nat → α) (n : Nat) (a b : Nat → α) :
    forLoop n (fun j (ab : (Nat → α) × (Nat → α)) =>
        (Function.update ab.1 j (F j), Function.update ab.2 j (H j))) (a, b)
      = (fun v => if v < n then F v else a v, fun v => if v < n then H v else b v) := by
  induction n with
  | zero => simp [forLoop]
  | succ n ih =>
    rw [forLoop_succ, ih]
    refine Prod.ext ?_ ?_
    · funext v
      simp only [Function.update_apply]
      by_cases hv : v = n
      · simp [hv]
      · by_cases hlt : v < n
        · simp [hv, hlt, Nat.lt_succ_of_lt hlt]
        · have : ¬ v < n + 1 := by omega
          simp [hv, hlt, this]
    · funext v
      simp only [Function.update_apply]
      by_cases hv : v = n
      · simp [hv]
      · by_cases hlt : v < n
        · simp [hv, hlt, Nat.lt_succ_of_lt hlt]
        · have : ¬ v < n + 1 := by omega
          simp [hv, hlt, this]

theorem fourierCoefficients_eq {α : Type} [Field α] [LibM α] (nZone nDegree : Nat)
    (angular_positions : Nat → α) (coords : Nat → Nat → α) (iDim : Nat) (a b : Nat → α) :
    fourierCoefficients nZone nDegree angular_positions coords iDim (a, b)
      = (fun v => if v < nDegree then
            ∑ z in Finset.range nZone,
              (2.0 / (nZone : α)) * LibM.cos ((v : α) * angular_positions z) * coords z iDim
          else a v,
         fun v => if v < nDegree then
            ∑ z in Finset.range nZone,
              (2.0 / (nZone : α)) * LibM.sin ((v : α) * angular_positions z) * coords z iDim
          else b v) := by
  unfold fourierCoefficients
  rw [← forLoop_assign_pair]
  congr 1
  funext jDegree ab
  simp only []
  rw [forLoop_accumulate_pair]
  simp [Function.update_idem]

theorem fittedVelocities_snd {α : Type} [Field α] [LibM α] (nZone nDegree : Nat)
    (angular_interval deltaT : α) (angular_positions a_coeffs b_coeffs : Nat → α)
    (fc fv : Nat → α) (z : Nat) :
    (fittedVelocities nZone nDegree angular_interval deltaT angular_positions a_coeffs b_coeffs
        (fc, fv)).2 z
      = if z < nZone then
          ∑ i in Finset.range (nDegree - 1),
            (angular_interval / deltaT) * ((1 + i : Nat) : α)
              * (b_coeffs (1 + i) * LibM.cos (((1 + i : Nat) : α) * angular_positions z)
                - a_coeffs (1 + i) * LibM.sin (((1 + i : Nat) : α) * angular_positions z))
        else fv z := by
  unfold fittedVelocities
  have hbody : (fun iZone (fit : (Nat → α) × (Nat → α)) =>
      let fitted_coords := Function.update fit.1 iZone (a_coeffs 0 / 2.0)
      let fitted_velocities := Function.update fit.2 iZone 0.0
      forLoopFrom 1 nDegree (fun jDegree fit =>
        (Function.update fit.1 iZone (fit.1 iZone
            + a_coeffs jDegree * LibM.cos ((jDegree : α) * angular_positions iZone)
            + b_coeffs jDegree * LibM.sin ((jDegree : α) * angular_positions iZone)),
         Function.update fit.2 iZone (fit.2 iZone
            + (angular_interval / deltaT) * (jDegree : α)
              * (b_coeffs jDegree * LibM.cos ((jDegree : α) * angular_positions iZone)
                - a_coeffs jDegree * LibM.sin ((jDegree : α) * angular_positions iZone)))))
        (fitted_coords, fitted_velocities))
      = (fun iZone (fit : (Nat → α) × (Nat → α)) =>
        (Function.update fit.1 iZone (a_coeffs 0 / 2.0 + ∑ i in Finset.range (nDegree - 1),
            (a_coeffs (1 + i) * LibM.cos (((1 + i : Nat) : α) * angular_positions iZone)
              + b_coeffs (1 + i) * LibM.sin (((1 + i : Nat) : α) * angular_positions iZone))),
         Function.update fit.2 iZone (∑ i in Finset.range (nDegree - 1),
            (angular_interval / deltaT) * ((1 + i : Nat) : α)
              * (b_coeffs (1 + i) * LibM.cos (((1 + i : Nat) : α) * angular_positions iZone)
                - a_coeffs (1 + i) * LibM.sin (((1 + i : Nat) : α) * angular_positions iZone))))) := by
    funext iZone fit
    simp only [forLoopFrom, add_assoc]
    rw [forLoop_accumulate_pair]
    have h0 : (0.0 : α) = 0 := by norm_num
    simp [Function.update_idem, h0]
  rw [hbody, forLoop_assign_pair]

theorem pointVelocities_apply {α : Type} [Field α] [LibM α] (g : CGeometry α)
    (nZone nDim nDegree : Nat) (angular_interval deltaT : α) (angular_positions : Nat → α)
    (l p : Nat) (GridVel : Nat × Nat × Nat × Nat → α) (k : Nat × Nat × Nat × Nat) :
    pointVelocities g nZone nDim nDegree angular_interval deltaT angular_positions l p GridVel k
      = if k.2.2.2 < nDim ∧ (k.1 < nZone ∧ k = (k.1, l, p, k.2.2.2)) then
          fittedVelocity g nZone nDim nDegree angular_interval deltaT angular_positions
            l p k.2.2.2 k.1
        else GridVel k := by
  have hstore : ∀ (d : Nat) (s : Nat × Nat × Nat × Nat → α) (k : Nat × Nat × Nat × Nat),
      forLoop nZone (fun iZone GridVel =>
          Function.update GridVel (iZone, l, p, d)
            (fittedVelocity g nZone nDim nDegree angular_interval deltaT angular_positions
              l p d iZone)) s k
        = if k.1 < nZone ∧ k = (k.1, l, p, d) then
            fittedVelocity g nZone nDim nDegree angular_interval deltaT angular_positions
              l p d k.1
          else s k := by
    intro d s k
    exact forLoop_keyed
      (fun z (k : Nat × Nat × Nat × Nat) => k = (z, l, p, d))
      (fun k => k.1) (fun i k h => by rw [h])
      (fun z _ => fittedVelocity g nZone nDim nDegree angular_interval deltaT
        angular_positions l p d z) _
      (fun z s k => by simp only [Function.update_apply]) nZone s k
  unfold pointVelocities
  simp only []
  exact forLoop_keyed
    (fun d (k : Nat × Nat × Nat × Nat) => k.1 < nZone ∧ k = (k.1, l, p, d))
    (fun k => k.2.2.2) (fun i k h => by rw [h.2])
    (fun d k => fittedVelocity g nZone nDim nDegree angular_interval deltaT angular_positions
      l p d k.1) _
    (fun d s k => hstore d s k) nDim GridVel k

theorem velocityLoops_apply {α : Type} [Field α] [LibM α] (g : CGeometry α)
    (nZone nDim nDegree nLevel : Nat) (nPoint : Nat → Nat) (angular_interval deltaT : α)
    (angular_positions : Nat → α) (GridVel : Nat × Nat × Nat × Nat → α)
    (k : Nat × Nat × Nat × Nat) :
    forLoop nLevel (fun iMGlevel GridVel =>
        forLoop (nPoint iMGlevel) (fun iPoint GridVel =>
          pointVelocities g nZone nDim nDegree angular_interval deltaT angular_positions
            iMGlevel iPoint GridVel) GridVel) GridVel k
      = if k.2.1 < nLevel ∧ (k.2.2.1 < nPoint k.2.1 ∧ (k.2.2.2 < nDim ∧ (k.1 < nZone
            ∧ k = (k.1, k.2.1, k.2.2.1, k.2.2.2)))) then
          fittedVelocity g nZone nDim nDegree angular_interval deltaT angular_positions
            k.2.1 k.2.2.1 k.2.2.2 k.1
        else GridVel k := by
  have hinner : ∀ (l : Nat) (s : Nat × Nat × Nat × Nat → α) (k : Nat × Nat × Nat × Nat),
      forLoop (nPoint l) (fun iPoint GridVel =>
          pointVelocities g nZone nDim nDegree angular_interval deltaT angular_positions
            l iPoint GridVel) s k
        = if k.2.2.1 < nPoint l ∧ (k.2.2.2 < nDim ∧ (k.1 < nZone
              ∧ k = (k.1, l, k.2.2.1, k.2.2.2))) then
            fittedVelocity g nZone nDim nDegree angular_interval deltaT angular_positions
              l k.2.2.1 k.2.2.2 k.1
          else s k := by
    intro l s k
    exact forLoop_keyed
      (fun p (k : Nat × Nat × Nat × Nat) =>
        k.2.2.2 < nDim ∧ (k.1 < nZone ∧ k = (k.1, l, p, k.2.2.2)))
      (fun k => k.2.2.1) (fun i k h => by rw [h.2.2])
      (fun p k => fittedVelocity g nZone nDim nDegree angular_interval deltaT
        angular_positions l p k.2.2.2 k.1) _
      (fun p s k => pointVelocities_apply g nZone nDim nDegree angular_interval deltaT
        angular_positions l p s k) (nPoint l) s k
  exact forLoop_keyed
    (fun l (k : Nat × Nat × Nat × Nat) =>
      k.2.2.1 < nPoint l ∧ (k.2.2.2 < nDim ∧ (k.1 < nZone ∧ k = (k.1, l, k.2.2.1, k.2.2.2))))
    (fun k => k.2.1) (fun i k h => by rw [h.2.2.2])
    (fun l k => fittedVelocity g nZone nDim nDegree angular_interval deltaT
      angular_positions l k.2.2.1 k.2.2.2 k.1) _
    (fun l s k => hinner l s k) nLevel GridVel k

theorem highestDegree_eq (n : Nat) (hn : 1 ≤ n) : highestDegree n = (((n - 1) / 2 : Nat) : Int) := by
  unfold highestDegree
  have h : ((n : Int) - 1) = ((n - 1 : Nat) : Int) := by omega
  rw [h, Int.tdiv_eq_ediv (by omega) (by omega)]
  norm_cast

theorem fittedVelocity_eq {α : Type} [Field α] [LibM α] (g : CGeometry α)
    (nZone nDim nDegree : Nat) (angular_interval deltaT : α) (angular_positions : Nat → α)
    (l p d i : Nat) (hi : i < nZone) (hd : d < nDim) :
    fittedVelocity g nZone nDim nDegree angular_interval deltaT angular_positions l p d i
      = ∑ j in Finset.range (nDegree - 1),
          (angular_interval / deltaT) * ((1 + j : Nat) : α)
            * ((∑ z in Finset.range nZone,
                  (2.0 / (nZone : α)) * LibM.sin (((1 + j : Nat) : α) * angular_positions z)
                    * g.Coord (z, l, p, d))
                * LibM.cos (((1 + j : Nat) : α) * angular_positions i)
              - (∑ z in Finset.range nZone,
                  (2.0 / (nZone : α)) * LibM.cos (((1 + j : Nat) : α) * angular_positions z)
                    * g.Coord (z, l, p, d))
                * LibM.sin (((1 + j : Nat) : α) * angular_positions i)) := by
  unfold fittedVelocity
  simp only []
  rw [fourierCoefficients_eq, fittedVelocities_snd, if_pos hi]
  refine Finset.sum_congr rfl (fun j hj => ?_)
  have hj' : 1 + j < nDegree := by
    have := Finset.mem_range.mp hj
    omega
  simp only [if_pos hj']
  have hc : ∀ z ∈ Finset.range nZone,
      forLoop nZone (fun iZone coords =>
        forLoop nDim (fun iDim coords =>
          setEntry coords iZone iDim (g.Coord (iZone, l, p, iDim))) coords) (fun _ _ => 0) z d
        = g.Coord (z, l, p, d) := by
    intro z hz
    rw [fillMatrix_apply (fun z d => g.Coord (z, l, p, d))]
    rw [if_pos ⟨Finset.mem_range.mp hz, hd⟩]
  have e1 : ∀ F : Nat → α, ∑ z in Finset.range nZone,
      F z * forLoop nZone (fun iZone coords =>
        forLoop nDim (fun iDim coords =>
          setEntry coords iZone iDim (g.Coord (iZone, l, p, iDim))) coords) (fun _ _ => 0) z d
      = ∑ z in Finset.range nZone, F z * g.Coord (z, l, p, d) :=
    fun F => Finset.sum_congr rfl (fun z hz => by rw [hc z hz])
  rw [e1, e1]

theorem deleteRows_eq_true_iff (nZone nDim : Nat) :
    deleteRows nZone nDim = true ↔ nDim ≤ nZone := by
  unfold deleteRows
  induction nDim with
  | zero => simp [forLoop]
  | succ k ih =>
    rw [forLoop_succ, Bool.and_eq_true, ih, decide_eq_true_eq]
    omega

/-- With at least as many instances as dimensions `SetTimeSpectral_Velocities` returns
the geometry with the stored velocities. -/
theorem SetTimeSpectral_Velocities_eq_some {α : Type} [Field α] [LibM α] (g : CGeometry α)
    (cfg : Nat → CConfig α) (n : Nat) (h : g.nDim (ZONE_0, MESH_0) ≤ n) :
    SetTimeSpectral_Velocities g cfg n = some (storeGridVelocities g cfg n) := by
  unfold SetTimeSpectral_Velocities
  simp only []
  rw [if_pos ((deleteRows_eq_true_iff _ _).mpr h)]

/-- With fewer instances than dimensions the clean-up loop of
`SetTimeSpectral_Velocities` leaves the array `coords`: no defined result. -/
theorem SetTimeSpectral_Velocities_eq_none {α : Type} [Field α] [LibM α] (g : CGeometry α)
    (cfg : Nat → CConfig α) (n : Nat) (h : n < g.nDim (ZONE_0, MESH_0)) :
    SetTimeSpectral_Velocities g cfg n = none := by
  unfold SetTimeSpectral_Velocities
  simp only []
  rw [if_neg (fun hd => absurd ((deleteRows_eq_true_iff _ _).mp hd) (Nat.not_le_of_lt h))]

/-- The velocities stored by the loops of `SetTimeSpectral_Velocities`: the
derivative of the truncated Fourier fit of the coordinate over the instances. -/
theorem storeGridVelocities_fourier (g : CGeometry ℝ) (cfg : Nat → CConfig ℝ)
    (n : Nat) (hn : 1 ≤ n) :
    ∀ i l p d, i < n → l ≤ (cfg ZONE_0).MGLevels → p < g.nPoint (ZONE_0, l) →
      d < g.nDim (ZONE_0, MESH_0) →
      (storeGridVelocities g cfg n).GridVel (i, l, p, d)
        = ((2 * Real.pi / (n : ℝ))
              / (oscillationPeriod cfg / ((cfg ZONE_0).nTimeInstances : ℝ)))
          * ∑ deg in Finset.Icc 1 ((n - 1) / 2),
              (deg : ℝ)
                * (sinCoefficient n (fun z => g.Coord (z, l, p, d)) deg
                    * Real.cos ((deg : ℝ) * (2 * Real.pi * (i : ℝ) / (n : ℝ)))
                  - cosCoefficient n (fun z => g.Coord (z, l, p, d)) deg
                    * Real.sin ((deg : ℝ) * (2 * Real.pi * (i : ℝ) / (n : ℝ)))) := by
  intro i l p d hi hl hp hd
  have hdeg := highestDegree_eq n hn
  unfold storeGridVelocities
  simp only []
  rw [velocityLoops_apply g n _ _ _ (fun l => g.nPoint (ZONE_0, l))]
  rw [if_pos ⟨Nat.lt_succ_of_le hl, hp, hd, hi, rfl⟩]
  rw [fittedVelocity_eq g n _ _ _ _ _ l p d i hi hd]
  have hnd : (highestDegree n + 1).toNat - 1 = (n - 1) / 2 := by
    rw [hdeg]; omega
  rw [hnd, ← Nat.Ico_succ_right, Finset.sum_Ico_eq_sum_range, Finset.mul_sum]
  simp only [Nat.succ_sub_one, libM_sin_real, libM_cos_real, sinCoefficient, cosCoefficient,
    libM_pi_real]
  have h2 : (2.0 : ℝ) = 2 := by norm_num
  have hap : ∀ z, z < n →
      forLoop n (fun iZone (angular_positions : Nat → ℝ) =>
        Function.update angular_positions iZone
          ((iZone : ℝ) * (2.0 * Real.pi / (n : ℝ)))) (fun _ => 0) z
        = 2 * Real.pi * (z : ℝ) / (n : ℝ) := by
    intro z hz
    rw [forLoop_modify_apply (fun i _ => (i : ℝ) * (2.0 * Real.pi / (n : ℝ))),
      if_pos hz, h2]
    ring
  refine Finset.sum_congr rfl (fun j _ => ?_)
  have hs : ∀ (T : ℝ → ℝ), ∑ z in Finset.range n,
      2.0 / (n : ℝ) * T (((1 + j : Nat) : ℝ) *
        forLoop n (fun iZone (angular_positions : Nat → ℝ) =>
          Function.update angular_positions iZone
            ((iZone : ℝ) * (2.0 * Real.pi / (n : ℝ)))) (fun _ => 0) z)
        * g.Coord (z, l, p, d)
      = 2 / (n : ℝ) * ∑ z in Finset.range n,
          T (((1 + j : Nat) : ℝ) * (2 * Real.pi * (z : ℝ) / (n : ℝ))) * g.Coord (z, l, p, d) := by
    intro T
    rw [Finset.mul_sum]
    refine Finset.sum_congr rfl (fun z hz => ?_)
    rw [hap z (Finset.mem_range.mp hz), h2]
    ring
  rw [hs Real.sin, hs Real.cos, hap i hi, h2]
  ring

/-- C10, the code on every number of instances `n ≥ 1`: `SetTimeSpectral_Velocities`
uses `highest_degree = floor((n-1)/2)`. With fewer instances than dimensions the run
has no defined result: the clean-up loop deletes `nDim` rows of the array `coords`,
which has `n` rows. With `nDim ≤ n` it returns, and the grid velocity stored at
instance `i` for each point and coordinate direction is
`(angular_interval/deltaT)·Σ_{d=1..highest_degree} d·(b_d·cos(d·θ_i) - a_d·sin(d·θ_i))`
with `θ_i = 2πi/n`, `angular_interval = 2π/n`, `deltaT = period/nTimeInstances` and
`a_d`, `b_d` the Fourier coefficients of the coordinate over the instances; no mode
of degree above `floor((n-1)/2)` enters the sum. -/
theorem SetTimeSpectral_Velocities_fourier (g : CGeometry ℝ) (cfg : Nat → CConfig ℝ)
    (n : Nat) (hn : 1 ≤ n) :
    highestDegree n = ⌊((n : ℝ) - 1) / 2⌋ ∧
    highestDegree n = (((n - 1) / 2 : Nat) : Int) ∧
    (n < g.nDim (ZONE_0, MESH_0) → SetTimeSpectral_Velocities g cfg n = none) ∧
    (g.nDim (ZONE_0, MESH_0) ≤ n →
      ∃ g', SetTimeSpectral_Velocities g cfg n = some g' ∧
        ∀ i l p d, i < n → l ≤ (cfg ZONE_0).MGLevels → p < g.nPoint (ZONE_0, l) →
          d < g.nDim (ZONE_0, MESH_0) →
          g'.GridVel (i, l, p, d)
            = ((2 * Real.pi / (n : ℝ))
                  / (oscillationPeriod cfg / ((cfg ZONE_0).nTimeInstances : ℝ)))
              * ∑ deg in Finset.Icc 1 ((n - 1) / 2),
                  (deg : ℝ)
                    * (sinCoefficient n (fun z => g.Coord (z, l, p, d)) deg
                        * Real.cos ((deg : ℝ) * (2 * Real.pi * (i : ℝ) / (n : ℝ)))
                      - cosCoefficient n (fun z => g.Coord (z, l, p, d)) deg
                        * Real.sin ((deg : ℝ) * (2 * Real.pi * (i : ℝ) / (n : ℝ))))) := by
  have hdeg := highestDegree_eq n hn
  refine ⟨?_, hdeg, fun hlt => SetTimeSpectral_Velocities_eq_none g cfg n hlt,
    fun hdim => ⟨_, SetTimeSpectral_Velocities_eq_some g cfg n hdim,
      storeGridVelocities_fourier g cfg n hn⟩⟩
  · rw [hdeg, eq_comm, Int.floor_eq_iff]
    have h1 : (n - 1) / 2 * 2 ≤ n - 1 := Nat.div_mul_le_self _ _
    have h2 : n - 1 < ((n - 1) / 2 + 1) * 2 := by omega
    have h1' : (((n - 1) / 2 : Nat) : ℝ) * 2 ≤ ((n - 1 : Nat) : ℝ) := by exact_mod_cast h1
    have h2' : ((n - 1 : Nat) : ℝ) < ((((n - 1) / 2 : Nat) : ℝ) + 1) * 2 := by exact_mod_cast h2
    have h3 : ((n - 1 : Nat) : ℝ) = (n : ℝ) - 1 := by
      rw [Nat.cast_sub hn]; simp
    rw [h3] at h1' h2'
    simp only [Int.cast_natCast]
    constructor
    · linarith
    · linarith

theorem SetTimeSpectral_Velocities_fourier_witness :
    SetTimeSpectral_Velocities (sampleGeometry ℝ) (sampleConfigThree ℝ) 1 = none ∧
    ∃ g', SetTimeSpectral_Velocities (sampleGeometry ℝ) (sampleConfigThree ℝ) 3 = some g' ∧
      g'.GridVel (1, 0, 0, 0)
        = ((2 * Real.pi / ((3 : Nat) : ℝ))
              / (oscillationPeriod (sampleConfigThree ℝ)
                  / (((sampleConfigThree ℝ) ZONE_0).nTimeInstances : ℝ)))
          * ∑ deg in Finset.Icc (1 : Nat) ((3 - 1) / 2),
              (deg : ℝ)
                * (sinCoefficient 3 (fun z => (sampleGeometry ℝ).Coord (z, 0, 0, 0)) deg
                    * Real.cos ((deg : ℝ) * (2 * Real.pi * ((1 : Nat) : ℝ) / ((3 : Nat) : ℝ)))
                  - cosCoefficient 3 (fun z => (sampleGeometry ℝ).Coord (z, 0, 0, 0)) deg
                    * Real.sin ((deg : ℝ) * (2 * Real.pi * ((1 : Nat) : ℝ) / ((3 : Nat) : ℝ)))) :=
  ⟨(SetTimeSpectral_Velocities_fourier (sampleGeometry ℝ) (sampleConfigThree ℝ) 1
      (by decide)).2.2.1 (by decide),
    Exists.imp (fun _ h => ⟨h.1, h.2 1 0 0 0 (by decide) (Nat.zero_le _) (by decide)
        (by decide)⟩)
      ((SetTimeSpectral_Velocities_fourier (sampleGeometry ℝ) (sampleConfigThree ℝ) 3
        (by decide)).2.2.2 (by decide))⟩


/-! ## Further instances at the sample data -/

theorem SetSliding_Interfaces_donor_test_witness :
    (∃ vertex', searchElement (sampleGeometry ℚ) 2 (0, 0, 0, 0) 1
          (nodeCoord (sampleGeometry ℚ) 0 0) 1 (sampleGeometry ℚ).vertex = .completed vertex' ∧
        (vertex' (0, 0, 0, 0)).Donor_Elem = 1 ∧
        (vertex' (0, 0, 0, 0)).Basis_Function 0 = 1 / 2 ∧
        (vertex' (0, 0, 0, 0)).Basis_Function 1 = 1 / 2 ∧
        (vertex' (0, 0, 0, 0)).Basis_Function 2 = 0) ∧
    searchElement (sampleGeometry ℚ) 2 (0, 0, 0, 0) 1 (fun _ => 2) 1 (sampleGeometry ℚ).vertex
      = .completed (sampleGeometry ℚ).vertex :=
  ⟨(SetSliding_Interfaces_donor_test (sampleGeometry ℚ) (0, 0, 0, 0) 1
      (nodeCoord (sampleGeometry ℚ) 0 0) 1 (sampleGeometry ℚ).vertex).2.2
      (1 / 2) (1 / 2) 0 (by norm_num) (by norm_num) (by norm_num) (by norm_num)
      (by simp [orient2D, nodeCoord, sampleGeometry])
      (by simp [nodeCoord, sampleGeometry])
      (by simp [nodeCoord, sampleGeometry]),
    (SetSliding_Interfaces_donor_test (sampleGeometry ℚ) (0, 0, 0, 0) 1
      (fun _ => 2) 1 (sampleGeometry ℚ).vertex).2.1
      (by
        intro N hN
        have h : N = (-1, 2, 0) := by
          have h2 : elementBasisFunctions (sampleGeometry ℚ) 1 (fun _ => 2) 1
              = some (-1, 2, 0) := by
            simp [elementBasisFunctions, basisFunctions, nodeCoord, sampleGeometry]
            norm_num
          rw [h2] at hN
          exact (Option.some.inj hN).symm
        subst h
        norm_num)⟩

theorem SetSliding_Interfaces_frame_witness :
    (SetSliding_Interfaces (sampleGeometry ℚ) (sampleConfig ℚ) 2).state.vertex (1, 0, 0, 0)
      = (sampleGeometry ℚ).vertex (1, 0, 0, 0) :=
  (SetSliding_Interfaces_frame (sampleGeometry ℚ) (sampleConfig ℚ) 2).1 (1, 0, 0, 0)
    (by decide)


/-! ## `SetGrid_Movement`: the sequence of operations -/

/-- A loop that appends the operations of each step. -/
theorem forLoop_append {β : Type} (f : Nat → List β) (n : Nat) (t : List β) :
    forLoop n (fun i calls => calls ++ f i) t = t ++ (List.range n).flatMap f := by
  induction n with
  | zero => simp [forLoop]
  | succ n ih =>
    rw [forLoop_succ, ih, List.range_succ, List.flatMap_append]
    simp

theorem forLoopFrom_one_append {β : Type} (f : Nat → List β) (n : Nat) (t : List β) :
    forLoopFrom 1 (n + 1) (fun i calls => calls ++ f i) t
      = t ++ (List.range n).flatMap (fun i => f (i + 1)) := by
  unfold forLoopFrom
  rw [Nat.add_sub_cancel, forLoop_append (fun i => f (1 + i))]
  simp only [Nat.add_comm 1]

theorem flatMap_singleton_eq_map {β γ : Type} (g : β → γ) (l : List β) :
    l.flatMap (fun i => [g i]) = l.map g := by
  induction l with
  | nil => rfl
  | cons a l ih => simp [List.flatMap_cons, ih]

/-- The operations of `SetGrid_Movement`: those of the branch of the motion kind,
then the restriction to the coarse levels, then, unless the run is time-spectral,
the grid-velocity update. -/
theorem SetGrid_Movement_eq {α : Type} (nDim : Nat) (Cl Cm : α) (cfg : CConfigMotion α)
    (iZone ExtIter : Nat) :
    SetGrid_Movement nDim Cl Cm cfg iZone ExtIter
      = motionCalls nDim Cl Cm (motionKind cfg iZone) iZone (motionIter cfg iZone ExtIter)
        ++ restrictionCalls α cfg.MGLevels
        ++ (if cfg.Unsteady_Simulation = UnsteadyKind.TIME_SPECTRAL then []
            else velocityCalls α cfg.Adjoint cfg.MGLevels (motionIter cfg iZone ExtIter)) := by
  have hr : ∀ t : List (MeshCall α),
      forLoopFrom 1 (cfg.MGLevels + 1) (fun iMGlevel calls =>
        calls ++ [MeshCall.SetControlVolume iMGlevel (iMGlevel - 1),
          MeshCall.SetBoundControlVolume iMGlevel (iMGlevel - 1),
          MeshCall.SetCoord iMGlevel (iMGlevel - 1)]) t
        = t ++ restrictionCalls α cfg.MGLevels := by
    intro t
    rw [forLoopFrom_one_append (fun i => [MeshCall.SetControlVolume i (i - 1),
      MeshCall.SetBoundControlVolume i (i - 1), MeshCall.SetCoord i (i - 1)])]
    simp [restrictionCalls]
  have hv : ∀ (E : Nat) (t : List (MeshCall α)),
      forLoopFrom 1 (cfg.MGLevels + 1) (fun iMGlevel calls =>
        calls ++ [MeshCall.SetGridVelocity iMGlevel E]) (t ++ [MeshCall.SetGridVelocity MESH_0 E])
        = t ++ velocityCalls α false cfg.MGLevels E := by
    intro E t
    rw [forLoopFrom_one_append (fun i => [MeshCall.SetGridVelocity i E])]
    rw [flatMap_singleton_eq_map (fun i => MeshCall.SetGridVelocity (i + 1) E)]
    simp [velocityCalls, List.range_succ_eq_map, List.map_map, Function.comp_def]
  have ha : ∀ (E : Nat) (t : List (MeshCall α)),
      forLoopFrom 1 (cfg.MGLevels + 1) (fun iMGlevel calls =>
        calls ++ [MeshCall.SetRestricted_GridVelocity iMGlevel (iMGlevel - 1) E]) t
        = t ++ velocityCalls α true cfg.MGLevels E := by
    intro E t
    rw [forLoopFrom_one_append
      (fun i => [MeshCall.SetRestricted_GridVelocity i (i - 1) E])]
    simp only [Nat.add_sub_cancel]
    rw [flatMap_singleton_eq_map (fun i => MeshCall.SetRestricted_GridVelocity (i + 1) i E)]
    simp [velocityCalls]
  unfold SetGrid_Movement motionKind motionIter
  simp only []
  by_cases hts : cfg.Unsteady_Simulation = UnsteadyKind.TIME_SPECTRAL
  · simp only [hts, decide_True, if_true, Bool.not_true, Bool.false_eq_true, if_false, hr]
    cases hk : cfg.Kind_GridMovement ZONE_0 <;> by_cases h2 : nDim = 2 <;> simp [motionCalls, h2]
  · simp only [hts, decide_False, if_false, Bool.not_false, if_true, hr, Bool.false_eq_true]
    cases hadj : cfg.Adjoint
    · simp only [Bool.not_false, if_true, hv]
      cases hk : cfg.Kind_GridMovement iZone <;> by_cases h2 : nDim = 2 <;> simp [motionCalls, h2]
    · simp only [Bool.not_true, Bool.false_eq_true, if_false, ha]
      cases hk : cfg.Kind_GridMovement iZone <;> by_cases h2 : nDim = 2 <;> simp [motionCalls, h2]

theorem filter_isMotion_motionCalls {α : Type} (nDim : Nat) (Cl Cm : α)
    (kind : GridMovementKind) (iZone iter : Nat) :
    (motionCalls nDim Cl Cm kind iZone iter).filter MeshCall.isMotion
      = motionCalls nDim Cl Cm kind iZone iter := by
  cases kind <;> by_cases h2 : nDim = 2 <;> simp [motionCalls, MeshCall.isMotion, h2]

theorem filter_isMotion_restrictionCalls (α : Type) (n : Nat) :
    (restrictionCalls α n).filter MeshCall.isMotion = [] := by
  simp [restrictionCalls, List.filter_flatMap, MeshCall.isMotion]

theorem filter_isMotion_velocityCalls (α : Type) (adjoint : Bool) (n iter : Nat) :
    (velocityCalls α adjoint n iter).filter MeshCall.isMotion = [] := by
  cases adjoint <;>
    simp [velocityCalls, List.filter_eq_nil_iff, MeshCall.isMotion]

theorem filter_isVelocityUpdate_motionCalls {α : Type} (nDim : Nat) (Cl Cm : α)
    (kind : GridMovementKind) (iZone iter : Nat) :
    (motionCalls nDim Cl Cm kind iZone iter).filter MeshCall.isVelocityUpdate = [] := by
  cases kind <;> by_cases h2 : nDim = 2 <;> simp [motionCalls, MeshCall.isVelocityUpdate, h2]

theorem filter_isVelocityUpdate_restrictionCalls (α : Type) (n : Nat) :
    (restrictionCalls α n).filter MeshCall.isVelocityUpdate = [] := by
  simp [restrictionCalls, List.filter_flatMap, MeshCall.isVelocityUpdate]

theorem filter_isVelocityUpdate_velocityCalls (α : Type) (adjoint : Bool) (n iter : Nat) :
    (velocityCalls α adjoint n iter).filter MeshCall.isVelocityUpdate
      = velocityCalls α adjoint n iter := by
  cases adjoint <;>
    simp [velocityCalls, List.filter_eq_self, MeshCall.isVelocityUpdate]

theorem filter_not_isVelocityUpdate_motionCalls {α : Type} (nDim : Nat) (Cl Cm : α)
    (kind : GridMovementKind) (iZone iter : Nat) :
    (motionCalls nDim Cl Cm kind iZone iter).filter (fun c => !c.isVelocityUpdate)
      = motionCalls nDim Cl Cm kind iZone iter := by
  cases kind <;> by_cases h2 : nDim = 2 <;> simp [motionCalls, MeshCall.isVelocityUpdate, h2]

theorem filter_not_isVelocityUpdate_restrictionCalls (α : Type) (n : Nat) :
    (restrictionCalls α n).filter (fun c => !c.isVelocityUpdate) = restrictionCalls α n := by
  simp [restrictionCalls, List.filter_flatMap, MeshCall.isVelocityUpdate]

theorem filter_not_isVelocityUpdate_velocityCalls (α : Type) (adjoint : Bool) (n iter : Nat) :
    (velocityCalls α adjoint n iter).filter (fun c => !c.isVelocityUpdate) = [] := by
  cases adjoint <;>
    simp [velocityCalls, List.filter_eq_nil_iff, MeshCall.isVelocityUpdate]

theorem motionKind_of_not_time_spectral {α : Type} (cfg : CConfigMotion α) (iZone : Nat)
    (hts : cfg.Unsteady_Simulation ≠ UnsteadyKind.TIME_SPECTRAL) :
    motionKind cfg iZone = cfg.Kind_GridMovement iZone := by
  simp [motionKind, hts]

theorem motionIter_of_not_time_spectral {α : Type} (cfg : CConfigMotion α) (iZone ExtIter : Nat)
    (hts : cfg.Unsteady_Simulation ≠ UnsteadyKind.TIME_SPECTRAL) :
    motionIter cfg iZone ExtIter = ExtIter := by
  simp [motionIter, hts]

/-! ## Claims on `SetGrid_Movement` -/

/-- C11: in a run that is not time-spectral, for the motion kinds `EXTERNAL`,
`EXTERNAL_ROTATION` and `FLUTTER`, `SetGrid_Movement` invokes, in this order and
nothing else: the surface update on the finest mesh (`SetExternal_Deformation`, or
`SetBoundary_Flutter2D` when `nDim = 2` and `SetBoundary_Flutter3D` otherwise),
`SpringMethod` on the finest mesh with `UpdateGeo = true`, the restriction of every
coarse level, and the grid-velocity update; for `EXTERNAL_ROTATION`, and only for
it, `SetRigidRotation` comes before the surface update. -/
theorem SetGrid_Movement_deforming_kinds {α : Type} (nDim : Nat) (Cl Cm : α)
    (cfg : CConfigMotion α) (iZone ExtIter : Nat)
    (hts : cfg.Unsteady_Simulation ≠ UnsteadyKind.TIME_SPECTRAL) :
    (cfg.Kind_GridMovement iZone = GridMovementKind.EXTERNAL →
      SetGrid_Movement nDim Cl Cm cfg iZone ExtIter
        = [MeshCall.SetExternal_Deformation MESH_0 iZone ExtIter,
            MeshCall.SpringMethod MESH_0 true]
          ++ restrictionCalls α cfg.MGLevels
          ++ velocityCalls α cfg.Adjoint cfg.MGLevels ExtIter) ∧
    (cfg.Kind_GridMovement iZone = GridMovementKind.EXTERNAL_ROTATION →
      SetGrid_Movement nDim Cl Cm cfg iZone ExtIter
        = [MeshCall.SetRigidRotation MESH_0 iZone ExtIter,
            MeshCall.SetExternal_Deformation MESH_0 iZone ExtIter,
            MeshCall.SpringMethod MESH_0 true]
          ++ restrictionCalls α cfg.MGLevels
          ++ velocityCalls α cfg.Adjoint cfg.MGLevels ExtIter) ∧
    (cfg.Kind_GridMovement iZone = GridMovementKind.FLUTTER →
      SetGrid_Movement nDim Cl Cm cfg iZone ExtIter
        = [if nDim = 2 then MeshCall.SetBoundary_Flutter2D MESH_0 ExtIter
            else MeshCall.SetBoundary_Flutter3D MESH_0 ExtIter,
            MeshCall.SpringMethod MESH_0 true]
          ++ restrictionCalls α cfg.MGLevels
          ++ velocityCalls α cfg.Adjoint cfg.MGLevels ExtIter) := by
  have h := SetGrid_Movement_eq nDim Cl Cm cfg iZone ExtIter
  rw [motionKind_of_not_time_spectral cfg iZone hts,
    motionIter_of_not_time_spectral cfg iZone ExtIter hts, if_neg hts] at h
  refine ⟨fun hk => ?_, fun hk => ?_, fun hk => ?_⟩ <;>
    · rw [h, hk]
      rfl

theorem SetGrid_Movement_deforming_kinds_witness :
    SetGrid_Movement 2 (0 : ℚ) 0 (sampleConfigMotion ℚ GridMovementKind.EXTERNAL_ROTATION) 0 5
      = [MeshCall.SetRigidRotation MESH_0 0 5,
          MeshCall.SetExternal_Deformation MESH_0 0 5,
          MeshCall.SpringMethod MESH_0 true]
        ++ restrictionCalls ℚ (sampleConfigMotion ℚ GridMovementKind.EXTERNAL_ROTATION).MGLevels
        ++ velocityCalls ℚ (sampleConfigMotion ℚ GridMovementKind.EXTERNAL_ROTATION).Adjoint
            (sampleConfigMotion ℚ GridMovementKind.EXTERNAL_ROTATION).MGLevels 5 :=
  (SetGrid_Movement_deforming_kinds 2 (0 : ℚ) 0
    (sampleConfigMotion ℚ GridMovementKind.EXTERNAL_ROTATION) 0 5 (by decide)).2.1 rfl

/-- C12: in a run that is not time-spectral the grid-velocity operations of
`SetGrid_Movement` are its last operations and are: for the direct problem
`SetGridVelocity` on every level `0..MGLevels`, finest first; for the adjoint
problem `SetRestricted_GridVelocity` on each coarse level `i` in `1..MGLevels` with
level `i-1` as source, and no velocity operation on the finest level. -/
theorem SetGrid_Movement_velocity_update {α : Type} (nDim : Nat) (Cl Cm : α)
    (cfg : CConfigMotion α) (iZone ExtIter : Nat)
    (hts : cfg.Unsteady_Simulation ≠ UnsteadyKind.TIME_SPECTRAL) :
    (SetGrid_Movement nDim Cl Cm cfg iZone ExtIter
      = (SetGrid_Movement nDim Cl Cm cfg iZone ExtIter).filter (fun c => !c.isVelocityUpdate)
        ++ (SetGrid_Movement nDim Cl Cm cfg iZone ExtIter).filter MeshCall.isVelocityUpdate) ∧
    (cfg.Adjoint = false →
      (SetGrid_Movement nDim Cl Cm cfg iZone ExtIter).filter MeshCall.isVelocityUpdate
        = (List.range (cfg.MGLevels + 1)).map (fun l => MeshCall.SetGridVelocity l ExtIter)) ∧
    (cfg.Adjoint = true →
      (SetGrid_Movement nDim Cl Cm cfg iZone ExtIter).filter MeshCall.isVelocityUpdate
        = (List.range cfg.MGLevels).map
            (fun i => MeshCall.SetRestricted_GridVelocity (i + 1) i ExtIter)) ∧
    (cfg.Adjoint = true →
      ∀ c ∈ SetGrid_Movement nDim Cl Cm cfg iZone ExtIter,
        (∀ l E, c ≠ MeshCall.SetGridVelocity l E)
        ∧ (∀ f E, c ≠ MeshCall.SetRestricted_GridVelocity MESH_0 f E)) := by
  have h := SetGrid_Movement_eq nDim Cl Cm cfg iZone ExtIter
  rw [motionKind_of_not_time_spectral cfg iZone hts,
    motionIter_of_not_time_spectral cfg iZone ExtIter hts, if_neg hts] at h
  have hvel : (SetGrid_Movement nDim Cl Cm cfg iZone ExtIter).filter MeshCall.isVelocityUpdate
      = velocityCalls α cfg.Adjoint cfg.MGLevels ExtIter := by
    rw [h, List.filter_append, List.filter_append, filter_isVelocityUpdate_motionCalls,
      filter_isVelocityUpdate_restrictionCalls, filter_isVelocityUpdate_velocityCalls]
    simp
  have hrest : (SetGrid_Movement nDim Cl Cm cfg iZone ExtIter).filter
        (fun c => !c.isVelocityUpdate)
      = motionCalls nDim Cl Cm (cfg.Kind_GridMovement iZone) iZone ExtIter
        ++ restrictionCalls α cfg.MGLevels := by
    rw [h, List.filter_append, List.filter_append, filter_not_isVelocityUpdate_motionCalls,
      filter_not_isVelocityUpdate_restrictionCalls, filter_not_isVelocityUpdate_velocityCalls]
    simp
  refine ⟨?_, fun hadj => ?_, fun hadj => ?_, fun hadj c hc => ?_⟩
  · rw [hvel, hrest]
    exact h
  · rw [hvel, hadj]
    rfl
  · rw [hvel, hadj]
    rfl
  · have hc' : c ∈ motionCalls nDim Cl Cm (cfg.Kind_GridMovement iZone) iZone ExtIter
        ++ restrictionCalls α cfg.MGLevels
        ∨ c ∈ velocityCalls α true cfg.MGLevels ExtIter := by
      rw [h, hadj] at hc
      exact List.mem_append.mp hc
    rcases hc' with hc' | hc'
    · have hnv : c.isVelocityUpdate = false := by
        have : c ∈ (SetGrid_Movement nDim Cl Cm cfg iZone ExtIter).filter
            (fun c => !c.isVelocityUpdate) := by rw [hrest]; exact hc'
        simpa using (List.mem_filter.mp this).2
      constructor
      · intro l E he
        rw [he] at hnv
        simp [MeshCall.isVelocityUpdate] at hnv
      · intro f E he
        rw [he] at hnv
        simp [MeshCall.isVelocityUpdate] at hnv
    · simp only [velocityCalls, if_true, List.mem_map, List.mem_range] at hc'
      obtain ⟨i, _, rfl⟩ := hc'
      constructor
      · intro l E he
        cases he
      · intro f E he
        injection he with h1 _ _
        exact Nat.succ_ne_zero _ h1

theorem SetGrid_Movement_velocity_update_witness :
    (SetGrid_Movement 2 (0 : ℚ) 0 (sampleConfigMotion ℚ GridMovementKind.FLUTTER) 0 5).filter
        MeshCall.isVelocityUpdate
      = (List.range ((sampleConfigMotion ℚ GridMovementKind.FLUTTER).MGLevels + 1)).map
          (fun l => MeshCall.SetGridVelocity l 5) :=
  (SetGrid_Movement_velocity_update 2 (0 : ℚ) 0 (sampleConfigMotion ℚ GridMovementKind.FLUTTER)
    0 5 (by decide)).2.1 rfl

/-- C13: for the motion kind `NONE` and for every kind value that is none of
`RIGID_MOTION`, `EXTERNAL`, `EXTERNAL_ROTATION`, `FLUTTER`, `AEROELASTIC`,
`SetGrid_Movement` invokes no operation of rigid kinematics, surface movement or
volumetric deformation; for each of the five recognised kinds it invokes the
operations of the branch of that kind and no others. The kind is the one the
function switches on and `iter` the iteration number it hands over. -/
theorem SetGrid_Movement_dispatch {α : Type} (nDim : Nat) (Cl Cm : α)
    (cfg : CConfigMotion α) (iZone ExtIter : Nat) :
    (motionKind cfg iZone = GridMovementKind.NONE →
      (SetGrid_Movement nDim Cl Cm cfg iZone ExtIter).filter MeshCall.isMotion = []) ∧
    (∀ code, motionKind cfg iZone = GridMovementKind.other code →
      (SetGrid_Movement nDim Cl Cm cfg iZone ExtIter).filter MeshCall.isMotion = []) ∧
    (motionKind cfg iZone = GridMovementKind.RIGID_MOTION →
      (SetGrid_Movement nDim Cl Cm cfg iZone ExtIter).filter MeshCall.isMotion
        = [MeshCall.SetRigidPlunging MESH_0 iZone (motionIter cfg iZone ExtIter),
            MeshCall.SetRigidPitching MESH_0 iZone (motionIter cfg iZone ExtIter),
            MeshCall.SetRigidRotation MESH_0 iZone (motionIter cfg iZone ExtIter)]) ∧
    (motionKind cfg iZone = GridMovementKind.EXTERNAL →
      (SetGrid_Movement nDim Cl Cm cfg iZone ExtIter).filter MeshCall.isMotion
        = [MeshCall.SetExternal_Deformation MESH_0 iZone (motionIter cfg iZone ExtIter),
            MeshCall.SpringMethod MESH_0 true]) ∧
    (motionKind cfg iZone = GridMovementKind.EXTERNAL_ROTATION →
      (SetGrid_Movement nDim Cl Cm cfg iZone ExtIter).filter MeshCall.isMotion
        = [MeshCall.SetRigidRotation MESH_0 iZone (motionIter cfg iZone ExtIter),
            MeshCall.SetExternal_Deformation MESH_0 iZone (motionIter cfg iZone ExtIter),
            MeshCall.SpringMethod MESH_0 true]) ∧
    (motionKind cfg iZone = GridMovementKind.FLUTTER →
      (SetGrid_Movement nDim Cl Cm cfg iZone ExtIter).filter MeshCall.isMotion
        = [if nDim = 2 then MeshCall.SetBoundary_Flutter2D MESH_0 (motionIter cfg iZone ExtIter)
            else MeshCall.SetBoundary_Flutter3D MESH_0 (motionIter cfg iZone ExtIter),
            MeshCall.SpringMethod MESH_0 true]) ∧
    (motionKind cfg iZone = GridMovementKind.AEROELASTIC →
      (SetGrid_Movement nDim Cl Cm cfg iZone ExtIter).filter MeshCall.isMotion
        = [MeshCall.SetAeroElasticMotion MESH_0 Cl Cm iZone (motionIter cfg iZone ExtIter)]) := by
  have hm : (SetGrid_Movement nDim Cl Cm cfg iZone ExtIter).filter MeshCall.isMotion
      = motionCalls nDim Cl Cm (motionKind cfg iZone) iZone (motionIter cfg iZone ExtIter) := by
    rw [SetGrid_Movement_eq, List.filter_append, List.filter_append,
      filter_isMotion_motionCalls, filter_isMotion_restrictionCalls]
    by_cases hts : cfg.Unsteady_Simulation = UnsteadyKind.TIME_SPECTRAL
    · rw [if_pos hts]
      simp
    · rw [if_neg hts, filter_isMotion_velocityCalls]
      simp
  refine ⟨fun hk => ?_, fun code hk => ?_, fun hk => ?_, fun hk => ?_, fun hk => ?_,
    fun hk => ?_, fun hk => ?_⟩ <;>
    · rw [hm, hk]
      rfl

theorem SetGrid_Movement_dispatch_witness :
    (SetGrid_Movement 2 (0 : ℚ) 0 (sampleConfigMotion ℚ (GridMovementKind.other 7)) 0 5).filter
        MeshCall.isMotion = [] :=
  (SetGrid_Movement_dispatch 2 (0 : ℚ) 0 (sampleConfigMotion ℚ (GridMovementKind.other 7))
    0 5).2.1 7 rfl

/-- C19: for the motion kind `RIGID_MOTION`, `SetGrid_Movement` applies to the finest
mesh `SetRigidPlunging`, then `SetRigidPitching`, then `SetRigidRotation`, each with
the same zone index and iteration number; these are its only operations of rigid
kinematics, surface movement or volumetric deformation (no `SpringMethod`, no
surface operation); the restriction to the coarse levels and the velocity update
(empty in a time-spectral run) follow them. -/
theorem SetGrid_Movement_rigid_motion {α : Type} (nDim : Nat) (Cl Cm : α)
    (cfg : CConfigMotion α) (iZone ExtIter : Nat)
    (hk : motionKind cfg iZone = GridMovementKind.RIGID_MOTION) :
    SetGrid_Movement nDim Cl Cm cfg iZone ExtIter
      = [MeshCall.SetRigidPlunging MESH_0 iZone (motionIter cfg iZone ExtIter),
          MeshCall.SetRigidPitching MESH_0 iZone (motionIter cfg iZone ExtIter),
          MeshCall.SetRigidRotation MESH_0 iZone (motionIter cfg iZone ExtIter)]
        ++ restrictionCalls α cfg.MGLevels
        ++ (if cfg.Unsteady_Simulation = UnsteadyKind.TIME_SPECTRAL then []
            else velocityCalls α cfg.Adjoint cfg.MGLevels (motionIter cfg iZone ExtIter)) ∧
    (SetGrid_Movement nDim Cl Cm cfg iZone ExtIter).filter MeshCall.isMotion
      = [MeshCall.SetRigidPlunging MESH_0 iZone (motionIter cfg iZone ExtIter),
          MeshCall.SetRigidPitching MESH_0 iZone (motionIter cfg iZone ExtIter),
          MeshCall.SetRigidRotation MESH_0 iZone (motionIter cfg iZone ExtIter)] := by
  have h := SetGrid_Movement_eq nDim Cl Cm cfg iZone ExtIter
  rw [hk] at h
  refine ⟨h, ?_⟩
  rw [h, List.filter_append, List.filter_append, filter_isMotion_motionCalls,
    filter_isMotion_restrictionCalls]
  by_cases hts : cfg.Unsteady_Simulation = UnsteadyKind.TIME_SPECTRAL
  · rw [if_pos hts]
    rfl
  · rw [if_neg hts, filter_isMotion_velocityCalls]
    rfl

theorem SetGrid_Movement_rigid_motion_witness :
    SetGrid_Movement 2 (0 : ℚ) 0 (sampleConfigMotion ℚ GridMovementKind.RIGID_MOTION) 1 5
      = [MeshCall.SetRigidPlunging 0 1 5, MeshCall.SetRigidPitching 0 1 5,
          MeshCall.SetRigidRotation 0 1 5,
          MeshCall.SetControlVolume 1 0, MeshCall.SetBoundControlVolume 1 0,
          MeshCall.SetCoord 1 0,
          MeshCall.SetControlVolume 2 1, MeshCall.SetBoundControlVolume 2 1,
          MeshCall.SetCoord 2 1,
          MeshCall.SetGridVelocity 0 5, MeshCall.SetGridVelocity 1 5,
          MeshCall.SetGridVelocity 2 5] :=
  (SetGrid_Movement_rigid_motion 2 (0 : ℚ) 0
    (sampleConfigMotion ℚ GridMovementKind.RIGID_MOTION) 1 5 rfl).1

/-- C20: in a time-spectral run `SetGrid_Movement`, called for the zone (time
instance) `iZone` with any iteration number, does what it does for the iteration
number `iZone`: its operations are those of the motion kind configured for zone 0
with `iZone` as iteration number, then the restriction to the coarse levels; they
are the operations of a run that is not time-spectral, has that kind for the zone
and is at iteration `iZone`, without the grid-velocity operations; neither
`SetGridVelocity` nor `SetRestricted_GridVelocity` is invoked. -/
theorem SetGrid_Movement_time_spectral {α : Type} (nDim : Nat) (Cl Cm : α)
    (cfg : CConfigMotion α) (iZone ExtIter : Nat)
    (hts : cfg.Unsteady_Simulation = UnsteadyKind.TIME_SPECTRAL) :
    SetGrid_Movement nDim Cl Cm cfg iZone ExtIter
      = SetGrid_Movement nDim Cl Cm cfg iZone iZone ∧
    SetGrid_Movement nDim Cl Cm cfg iZone ExtIter
      = motionCalls nDim Cl Cm (cfg.Kind_GridMovement ZONE_0) iZone iZone
        ++ restrictionCalls α cfg.MGLevels ∧
    (SetGrid_Movement nDim Cl Cm cfg iZone ExtIter).filter MeshCall.isVelocityUpdate = [] ∧
    (∀ cfg' : CConfigMotion α,
      cfg'.Unsteady_Simulation ≠ UnsteadyKind.TIME_SPECTRAL →
      cfg'.Kind_GridMovement iZone = cfg.Kind_GridMovement ZONE_0 →
      cfg'.MGLevels = cfg.MGLevels →
      SetGrid_Movement nDim Cl Cm cfg iZone ExtIter
        = (SetGrid_Movement nDim Cl Cm cfg' iZone iZone).filter
            (fun c => !c.isVelocityUpdate)) := by
  have h : ∀ E, SetGrid_Movement nDim Cl Cm cfg iZone E
      = motionCalls nDim Cl Cm (cfg.Kind_GridMovement ZONE_0) iZone iZone
        ++ restrictionCalls α cfg.MGLevels := by
    intro E
    rw [SetGrid_Movement_eq, if_pos hts]
    simp [motionKind, motionIter, hts]
  refine ⟨by rw [h ExtIter, h iZone], h ExtIter, ?_, ?_⟩
  · rw [h ExtIter, List.filter_append, filter_isVelocityUpdate_motionCalls,
      filter_isVelocityUpdate_restrictionCalls]
    rfl
  · intro cfg' hts' hk' hmg
    rw [h ExtIter, SetGrid_Movement_eq, motionKind_of_not_time_spectral cfg' iZone hts',
      motionIter_of_not_time_spectral cfg' iZone iZone hts', if_neg hts', List.filter_append,
      List.filter_append, filter_not_isVelocityUpdate_motionCalls,
      filter_not_isVelocityUpdate_restrictionCalls, filter_not_isVelocityUpdate_velocityCalls,
      hk', hmg]
    simp

theorem SetGrid_Movement_time_spectral_witness :
    SetGrid_Movement 2 (0 : ℚ) 0 (sampleConfigTimeSpectral ℚ GridMovementKind.RIGID_MOTION) 1 5
      = [MeshCall.SetRigidPlunging 0 1 1, MeshCall.SetRigidPitching 0 1 1,
          MeshCall.SetRigidRotation 0 1 1,
          MeshCall.SetControlVolume 1 0, MeshCall.SetBoundControlVolume 1 0,
          MeshCall.SetCoord 1 0,
          MeshCall.SetControlVolume 2 1, MeshCall.SetBoundControlVolume 2 1,
          MeshCall.SetCoord 2 1] :=
  (SetGrid_Movement_time_spectral 2 (0 : ℚ) 0
    (sampleConfigTimeSpectral ℚ GridMovementKind.RIGID_MOTION) 1 5 rfl).2.1


/-! ## `Solver_Definition`: scheme selections without a case -/

/-- With a convective scheme that has no `case`, the convective switch assigns
nothing and the function goes on to the viscous switch. -/
theorem flowConvective_other {α : Type} (config : CConfigSolver α) (code : Nat)
    (h : config.Kind_ConvNumScheme_Flow = ConvNumScheme.other code) (s : FlowSlots) :
    flowConvective config s = s := by
  unfold flowConvective
  rw [h]

/-- With a source term integration that has no `case`, the source switch assigns
nothing and the function returns. -/
theorem flowSource_other {α : Type} (config : CConfigSolver α) (code : Nat)
    (h : config.Kind_SourNumScheme_Flow = SourNumScheme.other code) (s : FlowSlots) :
    flowSource config s = s := by
  unfold flowSource
  rw [h]

/-- C14, the code on a scheme selection without a `case`. For an Euler problem whose convective scheme
has no `case` (no viscous scheme, no source term), the flow part of
`Solver_Definition` runs to its end and leaves every slot unassigned, the
convective one included. With an implemented upwind scheme and a source term
integration that has no `case`, it runs to its end with the source slot unassigned.
Only a viscous scheme without a `case` ends the run in `exit`. -/
theorem Solver_Definition_Flow_unimplemented_scheme_continues :
    Solver_Definition_Flow (sampleConfigSolver ℚ) true false (fun _ => none)
      = .completed (fun _ => none) ∧
    (∃ s, Solver_Definition_Flow
        { sampleConfigSolver ℚ with
          Kind_ConvNumScheme_Flow := ConvNumScheme.SPACE_UPWIND
          Kind_Upwind_Flow := UpwindScheme.ROE_1ST
          Kind_SourNumScheme_Flow := SourNumScheme.other 9 } true false (fun _ => none)
        = .completed s
      ∧ s (MESH_0, NumericsTerm.CONV_TERM) = some CNumerics.CUpwRoe_Flow
      ∧ s (MESH_0, NumericsTerm.SOURCE_FIRST_TERM) = none) ∧
    Solver_Definition_Flow
        { sampleConfigSolver ℚ with Kind_ViscNumScheme_Flow := ViscNumScheme.other 9 }
        true false (fun _ => none)
      = .exited (fun _ => none) := by
  refine ⟨rfl, ⟨_, rfl, ?_, ?_⟩, rfl⟩
  · decide
  · decide


/-! ## The Bezier box: binomial coefficients and Bernstein polynomials -/

theorem Factorial_eq (n : Nat) : Factorial n = n.factorial := by
  induction n with
  | zero => rfl
  | succ n ih => rw [Factorial, ih, Nat.factorial_succ]

theorem Factorial_pos (n : Nat) : 0 < Factorial n := by
  rw [Factorial_eq]
  exact Nat.factorial_pos n

theorem Binomial_eq_choose (n m : Nat) (h : m ≤ n) : Binomial n m = n.choose m := by
  unfold Binomial
  have hd : Factorial m * Factorial (n - m) ≠ 0 :=
    Nat.mul_ne_zero (Factorial_pos m).ne' (Factorial_pos (n - m)).ne'
  rw [if_neg hd, Factorial_eq, Factorial_eq, Factorial_eq,
    Nat.choose_eq_factorial_div_factorial h]

theorem GetBernstein_eq {α : Type} [Field α] (n i : Nat) (h : i ≤ n) (t : α) :
    GetBernstein (n : Int) (i : Int) t
      = (n.choose i : α) * t ^ i * (1 - t) ^ (n - i) := by
  unfold GetBernstein
  have hc : ¬ ((i : Int) < 0 ∨ (n : Int) < (i : Int)) := by omega
  have hs : ((n : Int) - (i : Int)).toNat = n - i := by omega
  rw [if_neg hc, Int.toNat_ofNat, Int.toNat_ofNat, hs, Binomial_eq_choose n i h]

/-- With factorials held in `unsigned short`, `9!` is reduced modulo `2^16` and the
quotient for `Binomial(9,1)` is 0, not 9: the documented quotient gives binomial
coefficients in that type only up to `n = 8`. -/
theorem Binomial_ushort_nine_one : Binomial_ushort 9 1 = 0 ∧ Binomial 9 1 = 9 := by
  decide

/-- C15: for every `n` that the unsigned 16-bit argument type can hold,
`Binomial(n,0) = Binomial(n,n) = 1`, and for every `m ≤ n`,
`Binomial(n,m) = Binomial(n,n-m)`, for the coefficient documented as
`n!/(m!(n-m)!)` with value 1 when the denominator is 0; the same holds when the
factorials and the result are values of type `unsigned short`. -/
theorem Binomial_boundary_and_symmetry (n : Nat) (_hn : n < 65536) :
    (Binomial n 0 = 1 ∧ Binomial n n = 1 ∧ ∀ m, m ≤ n → Binomial n m = Binomial n (n - m)) ∧
    (Binomial_ushort n 0 = 1 ∧ Binomial_ushort n n = 1
      ∧ ∀ m, m ≤ n → Binomial_ushort n m = Binomial_ushort n (n - m)) := by
  refine ⟨⟨?_, ?_, fun m hm => ?_⟩, ⟨?_, ?_, fun m hm => ?_⟩⟩
  · rw [Binomial_eq_choose n 0 (Nat.zero_le n), Nat.choose_zero_right]
  · rw [Binomial_eq_choose n n (Nat.le_refl n), Nat.choose_self]
  · unfold Binomial
    rw [Nat.sub_sub_self hm, Nat.mul_comm (Factorial (n - m)) (Factorial m)]
  · unfold Binomial_ushort
    have h0 : Factorial_ushort 0 = 1 := by decide
    rw [Nat.sub_zero, h0, Nat.one_mul]
    by_cases hz : Factorial_ushort n = 0
    · rw [if_pos hz]
    · rw [if_neg hz, Nat.div_self (Nat.pos_of_ne_zero hz)]
  · unfold Binomial_ushort
    have h0 : Factorial_ushort 0 = 1 := by decide
    rw [Nat.sub_self, h0, Nat.mul_one]
    by_cases hz : Factorial_ushort n = 0
    · rw [if_pos hz]
    · rw [if_neg hz, Nat.div_self (Nat.pos_of_ne_zero hz)]
  · unfold Binomial_ushort
    rw [Nat.sub_sub_self hm, Nat.mul_comm (Factorial_ushort (n - m)) (Factorial_ushort m)]

theorem Binomial_boundary_and_symmetry_witness :
    (Binomial 10 0 = 1 ∧ Binomial 10 10 = 1
      ∧ ∀ m, m ≤ 10 → Binomial 10 m = Binomial 10 (10 - m)) ∧
    (Binomial_ushort 10 0 = 1 ∧ Binomial_ushort 10 10 = 1
      ∧ ∀ m, m ≤ 10 → Binomial_ushort 10 m = Binomial_ushort 10 (10 - m)) :=
  Binomial_boundary_and_symmetry 10 (by decide)

/-- C16: for every degree `n` in `1..10` and every `t` in `[0,1]`, the sum over
`i = 0..n` of `GetBernstein(n,i,t)` is 1, where
`GetBernstein(n,i,t) = Binomial(n,i)*t^i*(1-t)^(n-i)`. -/
theorem GetBernstein_partition_of_unity (n : Nat) (_h1 : 1 ≤ n) (_h10 : n ≤ 10) (t : ℝ)
    (_ht0 : 0 ≤ t) (_ht1 : t ≤ 1) :
    ∑ i in Finset.range (n + 1), GetBernstein (n : Int) (i : Int) t = 1 := by
  have h : ∑ i in Finset.range (n + 1), GetBernstein (n : Int) (i : Int) t
      = ∑ i in Finset.range (n + 1), t ^ i * (1 - t) ^ (n - i) * (n.choose i : ℝ) := by
    refine Finset.sum_congr rfl (fun i hi => ?_)
    rw [GetBernstein_eq n i (Nat.lt_succ_iff.mp (Finset.mem_range.mp hi))]
    ring
  rw [h, ← add_pow]
  simp

theorem GetBernstein_partition_of_unity_witness :
    ∑ i in Finset.range (3 + 1), GetBernstein ((3 : Nat) : Int) (i : Int) (1 / 4 : ℝ) = 1 :=
  GetBernstein_partition_of_unity 3 (by decide) (by decide) (1 / 4) (by norm_num) (by norm_num)

theorem GetBernstein_neg {α : Type} [Field α] (n i : Int) (h : i < 0) (t : α) :
    GetBernstein n i t = 0 := by
  unfold GetBernstein
  rw [if_pos (Or.inl h)]

theorem GetBernstein_eq_eval (n i : Nat) (t : ℝ) :
    GetBernstein (n : Int) (i : Int) t = (bernsteinPolynomial ℝ n i).eval t := by
  by_cases h : i ≤ n
  · rw [GetBernstein_eq n i h]
    simp [bernsteinPolynomial]
  · have hlt : n < i := Nat.lt_of_not_le h
    rw [bernsteinPolynomial.eq_zero_of_lt ℝ hlt]
    unfold GetBernstein
    rw [if_pos (Or.inr (by exact_mod_cast hlt))]
    simp

/-- C17: for every degree `n ≥ 1`, every order `0 ≤ i ≤ n` and every real `t`, the
first derivative returned by `GetBernsteinDerivative`,
`n*(GetBernstein(n-1,i-1,t) - GetBernstein(n-1,i,t))` with the term of order `-1`
equal to 0, is the derivative with respect to `t` of
`GetBernstein(n,i,t) = Binomial(n,i)*t^i*(1-t)^(n-i)`. -/
theorem GetBernsteinDerivative_is_derivative (n i : Nat) (hn : 1 ≤ n) (hi : i ≤ n) (t : ℝ) :
    HasDerivAt (fun x : ℝ => GetBernstein (n : Int) (i : Int) x)
      (GetBernsteinDerivative (n : Int) (i : Int) t) t := by
  have hfun : (fun x : ℝ => GetBernstein (n : Int) (i : Int) x)
      = fun x => (bernsteinPolynomial ℝ n i).eval x :=
    funext (fun x => GetBernstein_eq_eval n i x)
  have hn1 : ((n : Int) - 1) = ((n - 1 : Nat) : Int) := by omega
  have hval : GetBernsteinDerivative (n : Int) (i : Int) t
      = (Polynomial.derivative (bernsteinPolynomial ℝ n i)).eval t := by
    unfold GetBernsteinDerivative
    rw [hn1]
    cases i with
    | zero =>
      rw [bernsteinPolynomial.derivative_zero,
        GetBernstein_neg _ _ (by norm_num), GetBernstein_eq_eval (n - 1) 0 t]
      simp
    | succ ν =>
      have hν : (((ν + 1 : Nat) : Int) - 1) = ((ν : Nat) : Int) := by omega
      rw [bernsteinPolynomial.derivative_succ, hν, GetBernstein_eq_eval (n - 1) ν t,
        GetBernstein_eq_eval (n - 1) (ν + 1) t]
      simp
  rw [hfun, hval]
  exact Polynomial.hasDerivAt (bernsteinPolynomial ℝ n i) t

theorem GetBernsteinDerivative_is_derivative_witness :
    HasDerivAt (fun x : ℝ => GetBernstein ((2 : Nat) : Int) ((2 : Nat) : Int) x)
      (GetBernsteinDerivative ((2 : Nat) : Int) ((2 : Nat) : Int) (1 / 2 : ℝ)) (1 / 2) :=
  GetBernsteinDerivative_is_derivative 2 2 (by decide) (by decide) (1 / 2)

/-- C18: for a box of degree `(1,1,1)` with arbitrary control points `P_ijk` and every
`(u,v,w)`, `EvalCartesianCoord(u,v,w)` is the trilinear blend
`Σ_ijk P_ijk · u^i(1-u)^(1-i) · v^j(1-v)^(1-j) · w^k(1-w)^(1-k)`; in particular,
after control point `(1,1,1)` has been moved by a `movement` (such as
`(0,0,0.5)`), `EvalCartesianCoord(1,1,1)` gives the new coordinates of that control
point. -/
theorem EvalCartesianCoord_trilinear {α : Type} [Field α] (chunk : CFreeFormChunk α)
    (hl : chunk.lDegree = 1) (hm : chunk.mDegree = 1) (hn : chunk.nDegree = 1) :
    (∀ (param_coord : Nat → α) (iDim : Nat),
      EvalCartesianCoord chunk param_coord iDim
        = ∑ i in Finset.range 2, ∑ j in Finset.range 2, ∑ k in Finset.range 2,
            chunk.Coord_Control_Points i j k iDim
              * (param_coord 0 ^ i * (1 - param_coord 0) ^ (1 - i))
              * (param_coord 1 ^ j * (1 - param_coord 1) ^ (1 - j))
              * (param_coord 2 ^ k * (1 - param_coord 2) ^ (1 - k))) ∧
    (∀ (movement : Nat → α) (iDim : Nat),
      EvalCartesianCoord (SetControlPoints chunk (fun _ => 1) movement) (fun _ => 1) iDim
        = chunk.Coord_Control_Points 1 1 1 iDim + movement iDim) ∧
    (∀ iDim : Nat,
      EvalCartesianCoord
          (SetControlPoints chunk (fun _ => 1) (fun d => if d = 2 then 0.5 else 0))
          (fun _ => 1) iDim
        = chunk.Coord_Control_Points 1 1 1 iDim + (if iDim = 2 then 0.5 else 0)) := by
  have hB : ∀ (i : Nat), i < 2 → ∀ t : α,
      GetBernstein ((1 : Nat) : Int) (i : Int) t = t ^ i * (1 - t) ^ (1 - i) := by
    intro i hi t
    rw [GetBernstein_eq 1 i (by omega)]
    interval_cases i <;> simp
  have hE : ∀ (c : CFreeFormChunk α), c.lDegree = 1 → c.mDegree = 1 → c.nDegree = 1 →
      ∀ (param_coord : Nat → α) (iDim : Nat),
      EvalCartesianCoord c param_coord iDim
        = ∑ i in Finset.range 2, ∑ j in Finset.range 2, ∑ k in Finset.range 2,
            c.Coord_Control_Points i j k iDim
              * (param_coord 0 ^ i * (1 - param_coord 0) ^ (1 - i))
              * (param_coord 1 ^ j * (1 - param_coord 1) ^ (1 - j))
              * (param_coord 2 ^ k * (1 - param_coord 2) ^ (1 - k)) := by
    intro c h1 h2 h3 param_coord iDim
    unfold EvalCartesianCoord
    rw [h1, h2, h3]
    refine Finset.sum_congr rfl (fun i hi => ?_)
    refine Finset.sum_congr rfl (fun j hj => ?_)
    refine Finset.sum_congr rfl (fun k hk => ?_)
    rw [hB i (Finset.mem_range.mp hi), hB j (Finset.mem_range.mp hj),
      hB k (Finset.mem_range.mp hk)]
  have hmove : ∀ (movement : Nat → α) (iDim : Nat),
      EvalCartesianCoord (SetControlPoints chunk (fun _ => 1) movement) (fun _ => 1) iDim
        = chunk.Coord_Control_Points 1 1 1 iDim + movement iDim := by
    intro movement iDim
    rw [hE (SetControlPoints chunk (fun _ => 1) movement) hl hm hn]
    simp [Finset.sum_range_succ, SetControlPoints]
  exact ⟨hE chunk hl hm hn, hmove, fun iDim => hmove _ iDim⟩

theorem EvalCartesianCoord_trilinear_witness :
    EvalCartesianCoord
        (SetControlPoints (sampleChunk ℚ) (fun _ => 1) (fun d => if d = 2 then 0.5 else 0))
        (fun _ => 1) 2
      = (sampleChunk ℚ).Coord_Control_Points 1 1 1 2 + (if (2 : Nat) = 2 then 0.5 else 0) :=
  (EvalCartesianCoord_trilinear (sampleChunk ℚ) rfl rfl rfl).2.2 2

/-! ## `SetGrid_Movement`: the restriction to the coarse levels -/

theorem filter_isRestriction_motionCalls {α : Type} (nDim : Nat) (Cl Cm : α)
    (kind : GridMovementKind) (iZone iter : Nat) :
    (motionCalls nDim Cl Cm kind iZone iter).filter MeshCall.isRestriction = [] := by
  cases kind <;> by_cases h2 : nDim = 2 <;> simp [motionCalls, MeshCall.isRestriction, h2]

theorem filter_isRestriction_restrictionCalls (α : Type) (n : Nat) :
    (restrictionCalls α n).filter MeshCall.isRestriction = restrictionCalls α n := by
  simp [restrictionCalls, List.filter_flatMap, MeshCall.isRestriction]

theorem filter_isRestriction_velocityCalls (α : Type) (adjoint : Bool) (n iter : Nat) :
    (velocityCalls α adjoint n iter).filter MeshCall.isRestriction = [] := by
  cases adjoint <;>
    simp [velocityCalls, List.filter_eq_nil_iff, MeshCall.isRestriction]

/-- C21: the operations of `SetGrid_Movement` are those of the motion step, then the
restriction of the geometry to the coarse levels, then the velocity update. The
restriction runs over the levels `1..MGLevels` in increasing order, level `i` being
updated from level `i-1` by `SetControlVolume`, `SetBoundControlVolume` and
`SetCoord` in this order, so each coarse level has its three operations exactly once
and after those of the finer level; with `MGLevels = 0` nothing is restricted. -/
theorem SetGrid_Movement_restriction {α : Type} (nDim : Nat) (Cl Cm : α)
    (cfg : CConfigMotion α) (iZone ExtIter : Nat) :
    SetGrid_Movement nDim Cl Cm cfg iZone ExtIter
      = motionCalls nDim Cl Cm (motionKind cfg iZone) iZone (motionIter cfg iZone ExtIter)
        ++ (List.range cfg.MGLevels).flatMap (fun i =>
            [MeshCall.SetControlVolume (i + 1) i, MeshCall.SetBoundControlVolume (i + 1) i,
              MeshCall.SetCoord (i + 1) i])
        ++ (if cfg.Unsteady_Simulation = UnsteadyKind.TIME_SPECTRAL then []
            else velocityCalls α cfg.Adjoint cfg.MGLevels (motionIter cfg iZone ExtIter)) ∧
    (SetGrid_Movement nDim Cl Cm cfg iZone ExtIter).filter MeshCall.isRestriction
      = (List.range cfg.MGLevels).flatMap (fun i =>
          [MeshCall.SetControlVolume (i + 1) i, MeshCall.SetBoundControlVolume (i + 1) i,
            MeshCall.SetCoord (i + 1) i]) ∧
    (cfg.MGLevels = 0 →
      (SetGrid_Movement nDim Cl Cm cfg iZone ExtIter).filter MeshCall.isRestriction = []) := by
  have h := SetGrid_Movement_eq nDim Cl Cm cfg iZone ExtIter
  have hf : (SetGrid_Movement nDim Cl Cm cfg iZone ExtIter).filter MeshCall.isRestriction
      = restrictionCalls α cfg.MGLevels := by
    rw [h, List.filter_append, List.filter_append, filter_isRestriction_motionCalls,
      filter_isRestriction_restrictionCalls]
    by_cases hts : cfg.Unsteady_Simulation = UnsteadyKind.TIME_SPECTRAL
    · rw [if_pos hts]
      simp
    · rw [if_neg hts, filter_isRestriction_velocityCalls]
      simp
  refine ⟨h, hf, fun h0 => ?_⟩
  rw [hf, h0]
  rfl

/-! ## `SetTimeSpectral`: antisymmetry of the operator and the adjoint source -/

theorem timeSpectralOperator_antisymm (period : ℝ) (n k j : Nat) (hk : k < n) (hj : j < n) :
    timeSpectralOperator period n k j = - timeSpectralOperator period n j k := by
  rw [timeSpectralOperator_apply period n k j hk hj, timeSpectralOperator_apply period n j k hj hk,
    timeSpectralEntry_eq_kernel, timeSpectralEntry_eq_kernel]
  have e : ((k : ℤ) - (j : ℤ)) = -((j : ℤ) - (k : ℤ)) := by ring
  rw [e, timeSpectralKernel_neg]
  ring

/-- C23: the operator `D` built by `SetTimeSpectral` is antisymmetric,
`D[k][j] = -D[j][k]` for all `k, j < n`; in an adjoint run the source stored for the
instance `iZone` is `Σ_j D[j][iZone]·Psi_j`, plus `Σ_j D[j][iZone]·(Psi_j - Psi_old_j)`
when the adjoint time integration is implicit, and this is the negative of the
formula of the direct problem, `Σ_j D[iZone][j]·Psi_j` (plus the same with
`Psi_j - Psi_old_j`), applied to the adjoint variables. -/
theorem SetTimeSpectral_adjoint_source (g : CGeometry ℝ) (sol : CSolution ℝ)
    (cfg : Nat → CConfig ℝ) (nZone iZone : Nat) (hi : iZone < nZone)
    (hadj : (cfg ZONE_0).Adjoint = true) :
    (∀ k j, k < nZone → j < nZone →
      timeSpectralOperator (oscillationPeriod cfg) nZone k j
        = - timeSpectralOperator (oscillationPeriod cfg) nZone j k) ∧
    ∀ l p v, l ≤ (cfg ZONE_0).MGLevels → p < g.nPoint (ZONE_0, l) →
      v < sol.nVar (ZONE_0, MESH_0, SolKind.FLOW_SOL) →
      (SetTimeSpectral g sol cfg nZone iZone).TimeSpectral_Source
          (iZone, l, SolKind.ADJFLOW_SOL, p, v)
        = ∑ j in Finset.range nZone,
            timeSpectralOperator (oscillationPeriod cfg) nZone j iZone
              * sol.Solution (j, l, SolKind.ADJFLOW_SOL, p, v)
          + (if (cfg ZONE_0).Kind_TimeIntScheme_AdjFlow = TimeIntScheme.EULER_IMPLICIT then
              ∑ j in Finset.range nZone,
                timeSpectralOperator (oscillationPeriod cfg) nZone j iZone
                  * (sol.Solution (j, l, SolKind.ADJFLOW_SOL, p, v)
                      - sol.Solution_Old (j, l, SolKind.ADJFLOW_SOL, p, v))
             else 0) ∧
      (SetTimeSpectral g sol cfg nZone iZone).TimeSpectral_Source
          (iZone, l, SolKind.ADJFLOW_SOL, p, v)
        = - (∑ j in Finset.range nZone,
              timeSpectralOperator (oscillationPeriod cfg) nZone iZone j
                * sol.Solution (j, l, SolKind.ADJFLOW_SOL, p, v)
            + (if (cfg ZONE_0).Kind_TimeIntScheme_AdjFlow = TimeIntScheme.EULER_IMPLICIT then
                ∑ j in Finset.range nZone,
                  timeSpectralOperator (oscillationPeriod cfg) nZone iZone j
                    * (sol.Solution (j, l, SolKind.ADJFLOW_SOL, p, v)
                        - sol.Solution_Old (j, l, SolKind.ADJFLOW_SOL, p, v))
               else 0)) := by
  refine ⟨fun k j hk hj => timeSpectralOperator_antisymm _ nZone k j hk hj, ?_⟩
  intro l p v hl hp hv
  have hcond : l < (cfg ZONE_0).MGLevels + 1 ∧ p < g.nPoint (ZONE_0, l) ∧ 1 ≤ nZone
      ∧ v < sol.nVar (ZONE_0, MESH_0, SolKind.FLOW_SOL)
      ∧ ((iZone, l, SolKind.ADJFLOW_SOL, p, v) : SolKey)
          = (iZone, l, solverOf (cfg ZONE_0).Adjoint, p, v) :=
    ⟨Nat.lt_succ_of_le hl, hp, by omega, hv, by simp [solverOf, hadj]⟩
  have hstored : (SetTimeSpectral g sol cfg nZone iZone).TimeSpectral_Source
        (iZone, l, SolKind.ADJFLOW_SOL, p, v)
      = ∑ j in Finset.range nZone,
          timeSpectralOperator (oscillationPeriod cfg) nZone j iZone
            * sol.Solution (j, l, SolKind.ADJFLOW_SOL, p, v)
        + (if (cfg ZONE_0).Kind_TimeIntScheme_AdjFlow = TimeIntScheme.EULER_IMPLICIT then
            ∑ j in Finset.range nZone,
              timeSpectralOperator (oscillationPeriod cfg) nZone j iZone
                * (sol.Solution (j, l, SolKind.ADJFLOW_SOL, p, v)
                    - sol.Solution_Old (j, l, SolKind.ADJFLOW_SOL, p, v))
           else 0) := by
    rw [SetTimeSpectral_Source_apply g sol cfg nZone iZone _ (by simp), if_pos hcond]
    by_cases himp : (cfg ZONE_0).Kind_TimeIntScheme_AdjFlow = TimeIntScheme.EULER_IMPLICIT
    · have hflag : implicitFlag (cfg ZONE_0) = true := by simp [implicitFlag, hadj, himp]
      rw [if_pos himp, ← Finset.sum_add_distrib]
      refine Finset.sum_congr rfl (fun j _ => ?_)
      simp [sourceContribution, hadj, hflag, mul_comm]
    · have hflag : implicitFlag (cfg ZONE_0) = false := by simp [implicitFlag, hadj, himp]
      rw [if_neg himp, add_zero]
      refine Finset.sum_congr rfl (fun j _ => ?_)
      simp [sourceContribution, hadj, hflag, mul_comm]
  refine ⟨hstored, ?_⟩
  rw [hstored]
  have e1 : ∀ F : Nat → ℝ, ∑ j in Finset.range nZone,
      timeSpectralOperator (oscillationPeriod cfg) nZone j iZone * F j
      = - ∑ j in Finset.range nZone,
          timeSpectralOperator (oscillationPeriod cfg) nZone iZone j * F j := by
    intro F
    rw [← Finset.sum_neg_distrib]
    refine Finset.sum_congr rfl (fun j hj => ?_)
    rw [timeSpectralOperator_antisymm _ nZone j iZone (Finset.mem_range.mp hj) hi]
    ring
  rw [e1, e1]
  split_ifs <;> ring

theorem SetTimeSpectral_adjoint_source_witness :
    timeSpectralOperator (oscillationPeriod (sampleConfigAdjoint ℝ))
        3 0 1
      = - timeSpectralOperator
          (oscillationPeriod (sampleConfigAdjoint ℝ)) 3 1 0 :=
  (SetTimeSpectral_adjoint_source (sampleGeometry ℝ) (sampleSolution ℝ)
    (sampleConfigAdjoint ℝ) 3 0 (by decide) rfl).1 0 1
    (by decide) (by decide)

/-! ## `SetTimeSpectral_Velocities`: the fitted derivative as a kernel sum -/

/-- Closed form of `Σ_{d=1..K} d·sin(d·θ)`, cleared of its denominator. -/
theorem sum_succ_mul_sin (K : Nat) (θ : ℝ) :
    (2 - 2 * Real.cos θ)
        * ∑ d in Finset.range K, ((1 + d : Nat) : ℝ) * Real.sin (((1 + d : Nat) : ℝ) * θ)
      = ((K : ℝ) + 1) * Real.sin ((K : ℝ) * θ) - (K : ℝ) * Real.sin (((K : ℝ) + 1) * θ) := by
  induction K with
  | zero => simp
  | succ K ih =>
    rw [Finset.sum_range_succ, mul_add, ih]
    push_cast
    have h1 : Real.sin ((K : ℝ) * θ)
        = Real.sin (((K : ℝ) + 1) * θ) * Real.cos θ
          - Real.cos (((K : ℝ) + 1) * θ) * Real.sin θ := by
      rw [← Real.sin_sub]
      congr 1
      ring
    have h2 : Real.sin (((K : ℝ) + 1 + 1) * θ)
        = Real.sin (((K : ℝ) + 1) * θ) * Real.cos θ
          + Real.cos (((K : ℝ) + 1) * θ) * Real.sin θ := by
      rw [← Real.sin_add]
      congr 1
      ring
    have h3 : (1 + (K : ℝ)) = (K : ℝ) + 1 := by ring
    rw [h1, h2, h3]
    ring

theorem sin_mul_two_mul_eq_zero (φ : ℝ) (hs : Real.sin φ = 0) (d : Nat) :
    Real.sin ((d : ℝ) * (2 * φ)) = 0 := by
  obtain ⟨k, hk⟩ := Real.sin_eq_zero_iff.mp hs
  have e : (d : ℝ) * (2 * φ) = (((d : ℤ) * 2 * k : ℤ) : ℝ) * Real.pi := by
    rw [← hk]
    push_cast
    ring
  rw [e, Real.sin_int_mul_pi]

/-- The kernel of the time-spectral operator as the derivative of the truncated
Fourier interpolant: `(4/n)·Σ_{d=1..⌊(n-1)/2⌋} d·sin(-d·2πm/n)` is
`(-1)^m·cot(πm/n)` for even `n` and `(-1)^m·csc(πm/n)` for odd `n`. -/
theorem timeSpectralKernel_eq_sum (n : Nat) (hn : 1 ≤ n) (m : ℤ) :
    (4 / (n : ℝ)) * ∑ d in Finset.range ((n - 1) / 2),
        ((1 + d : Nat) : ℝ)
          * Real.sin (((1 + d : Nat) : ℝ) * (-(2 * (Real.pi * (m : ℝ) / (n : ℝ)))))
      = timeSpectralKernel n m := by
  have hn0 : (n : ℝ) ≠ 0 := by
    have : 0 < n := hn
    exact_mod_cast this.ne'
  set φ : ℝ := Real.pi * (m : ℝ) / (n : ℝ) with hφ
  have hnφ : (n : ℝ) * φ = (m : ℝ) * Real.pi := by
    rw [hφ]
    field_simp
    ring
  have hneg : ∑ d in Finset.range ((n - 1) / 2),
        ((1 + d : Nat) : ℝ) * Real.sin (((1 + d : Nat) : ℝ) * (-(2 * φ)))
      = - ∑ d in Finset.range ((n - 1) / 2),
        ((1 + d : Nat) : ℝ) * Real.sin (((1 + d : Nat) : ℝ) * (2 * φ)) := by
    rw [← Finset.sum_neg_distrib]
    refine Finset.sum_congr rfl (fun d _ => ?_)
    rw [mul_neg, Real.sin_neg]
    ring
  rw [hneg]
  have hmain := sum_succ_mul_sin ((n - 1) / 2) (2 * φ)
  have hcos : 2 - 2 * Real.cos (2 * φ) = 4 * Real.sin φ ^ 2 := by
    rw [Real.cos_two_mul, Real.cos_sq']
    ring
  rw [hcos] at hmain
  unfold timeSpectralKernel
  simp only [libM_tan_real, libM_sin_real, libM_pi_real]
  rw [← hφ]
  generalize hSdef : ∑ d in Finset.range ((n - 1) / 2),
    ((1 + d : Nat) : ℝ) * Real.sin (((1 + d : Nat) : ℝ) * (2 * φ)) = S at hmain ⊢
  by_cases hs : Real.sin φ = 0
  · have hS : S = 0 := by
      rw [← hSdef]
      refine Finset.sum_eq_zero (fun d _ => ?_)
      rw [sin_mul_two_mul_eq_zero φ hs, mul_zero]
    rw [hS, Real.tan_eq_sin_div_cos, hs]
    simp
  · by_cases hpar : n % 2 = 0
    · simp only [hpar, if_true]
      have hK : (((n - 1) / 2 : Nat) : ℝ) + 1 = (n : ℝ) / 2 := by
        have h : (n - 1) / 2 * 2 + 2 = n := by omega
        have h' : ((((n - 1) / 2 : Nat) : ℝ)) * 2 + 2 = (n : ℝ) := by exact_mod_cast h
        linarith
      have e1 : (((n - 1) / 2 : Nat) : ℝ) * (2 * φ) = (m : ℝ) * Real.pi - 2 * φ := by
        have : (((n - 1) / 2 : Nat) : ℝ) = (n : ℝ) / 2 - 1 := by linarith
        rw [this, ← hnφ]
        ring
      have e2 : ((((n - 1) / 2 : Nat) : ℝ) + 1) * (2 * φ) = (m : ℝ) * Real.pi := by
        rw [hK, ← hnφ]
        ring
      rw [e1, e2, Real.sin_int_mul_pi_sub, Real.sin_int_mul_pi, Real.sin_two_mul, hK] at hmain
      have h4 : Real.sin φ * (4 * Real.sin φ * S
          + (n : ℝ) * (-1 : ℝ) ^ m * Real.cos φ) = 0 := by
        linear_combination hmain
      have h5 := (mul_eq_zero.mp h4).resolve_left hs
      rw [Real.tan_eq_sin_div_cos, one_div_div]
      field_simp
      linear_combination (-1 : ℝ) * h5
    · simp only [hpar, if_false]
      have hK : (((n - 1) / 2 : Nat) : ℝ) * 2 + 1 = (n : ℝ) := by
        have h : (n - 1) / 2 * 2 + 1 = n := by omega
        exact_mod_cast h
      have e1 : (((n - 1) / 2 : Nat) : ℝ) * (2 * φ) = (m : ℝ) * Real.pi - φ := by
        rw [← hnφ, ← hK]
        ring
      have e2 : ((((n - 1) / 2 : Nat) : ℝ) + 1) * (2 * φ) = φ + (m : ℝ) * Real.pi := by
        rw [← hnφ, ← hK]
        ring
      rw [e1, e2, Real.sin_int_mul_pi_sub, Real.sin_add_int_mul_pi] at hmain
      have h4 : Real.sin φ * (4 * Real.sin φ * S + (n : ℝ) * (-1 : ℝ) ^ m) = 0 := by
        rw [← hK]
        linear_combination hmain
      have h5 := (mul_eq_zero.mp h4).resolve_left hs
      field_simp
      linear_combination (-1 : ℝ) * h5
/-- The grid velocity `SetTimeSpectral_Velocities` stores, as a sum over the
instances: `(angular_interval/deltaT)/2` times the kernel of the time-spectral
operator applied to the coordinates. -/
theorem storeGridVelocities_kernel (g : CGeometry ℝ) (cfg : Nat → CConfig ℝ)
    (n : Nat) (hn : 1 ≤ n) (i l p d : Nat) (hi : i < n) (hl : l ≤ (cfg ZONE_0).MGLevels)
    (hp : p < g.nPoint (ZONE_0, l)) (hd : d < g.nDim (ZONE_0, MESH_0)) :
    (storeGridVelocities g cfg n).GridVel (i, l, p, d)
      = ∑ z in Finset.range n,
          (((2 * Real.pi / (n : ℝ))
              / (oscillationPeriod cfg / ((cfg ZONE_0).nTimeInstances : ℝ))) / 2)
            * timeSpectralKernel n ((i : ℤ) - (z : ℤ)) * g.Coord (z, l, p, d) := by
  have hdeg := highestDegree_eq n hn
  unfold storeGridVelocities
  simp only []
  rw [velocityLoops_apply g n _ _ _ (fun l => g.nPoint (ZONE_0, l))]
  rw [if_pos ⟨Nat.lt_succ_of_le hl, hp, hd, hi, rfl⟩]
  rw [fittedVelocity_eq g n _ _ _ _ _ l p d i hi hd]
  have hnd : (highestDegree n + 1).toNat - 1 = (n - 1) / 2 := by
    rw [hdeg]; omega
  rw [hnd]
  simp only [libM_sin_real, libM_cos_real, libM_pi_real]
  have h2 : (2.0 : ℝ) = 2 := by norm_num
  have hap : ∀ z, z < n →
      forLoop n (fun iZone (angular_positions : Nat → ℝ) =>
        Function.update angular_positions iZone
          ((iZone : ℝ) * (2.0 * Real.pi / (n : ℝ)))) (fun _ => 0) z
        = 2 * Real.pi * (z : ℝ) / (n : ℝ) := by
    intro z hz
    rw [forLoop_modify_apply (fun i _ => (i : ℝ) * (2.0 * Real.pi / (n : ℝ))),
      if_pos hz, h2]
    ring
  refine Eq.trans (Finset.sum_congr rfl (g := fun j => ∑ z in Finset.range n,
      (((2 * Real.pi / (n : ℝ))
          / (oscillationPeriod cfg / ((cfg ZONE_0).nTimeInstances : ℝ))) / 2)
        * ((4 / (n : ℝ)) * (((1 + j : Nat) : ℝ)
            * Real.sin (((1 + j : Nat) : ℝ)
                * (-(2 * (Real.pi * (((i : ℤ) - (z : ℤ) : ℤ) : ℝ) / (n : ℝ)))))))
        * g.Coord (z, l, p, d)) (fun j _ => ?_)) ?_
  · rw [hap i hi, Finset.sum_mul, Finset.sum_mul, ← Finset.sum_sub_distrib, Finset.mul_sum]
    refine Finset.sum_congr rfl (fun z hz => ?_)
    rw [hap z (Finset.mem_range.mp hz), h2]
    have e : Real.sin (((1 + j : Nat) : ℝ)
          * (-(2 * (Real.pi * (((i : ℤ) - (z : ℤ) : ℤ) : ℝ) / (n : ℝ)))))
        = Real.sin (((1 + j : Nat) : ℝ) * (2 * Real.pi * (z : ℝ) / (n : ℝ)))
            * Real.cos (((1 + j : Nat) : ℝ) * (2 * Real.pi * (i : ℝ) / (n : ℝ)))
          - Real.cos (((1 + j : Nat) : ℝ) * (2 * Real.pi * (z : ℝ) / (n : ℝ)))
            * Real.sin (((1 + j : Nat) : ℝ) * (2 * Real.pi * (i : ℝ) / (n : ℝ))) := by
      rw [← Real.sin_sub]
      congr 1
      push_cast
      ring
    rw [e]
    ring
  · rw [Finset.sum_comm]
    refine Finset.sum_congr rfl (fun z _ => ?_)
    rw [← timeSpectralKernel_eq_sum n hn, ← Finset.sum_mul, ← Finset.mul_sum, ← Finset.mul_sum]

theorem oscillationPeriod_eq {α : Type} [Field α] [LibM α] (cfg : Nat → CConfig α) :
    oscillationPeriod cfg = 2 * LibM.PI_NUMBER / Omega_mag cfg := rfl

/-- The velocities stored by the loops of `SetTimeSpectral_Velocities` when `nZone`
is the configured number of time instances: the time-spectral operator applied to
the coordinate over the instances. -/
theorem storeGridVelocities_operator (g : CGeometry ℝ) (cfg : Nat → CConfig ℝ) (n : Nat)
    (hn : 1 ≤ n) (hT : (cfg ZONE_0).nTimeInstances = n) :
    ∀ i l p d, i < n → l ≤ (cfg ZONE_0).MGLevels → p < g.nPoint (ZONE_0, l) →
      d < g.nDim (ZONE_0, MESH_0) →
      (storeGridVelocities g cfg n).GridVel (i, l, p, d)
        = ∑ j in Finset.range n,
            timeSpectralOperator (oscillationPeriod cfg) n i j * g.Coord (j, l, p, d) := by
  intro i l p d hi hl hp hd
  have hn0 : (n : ℝ) ≠ 0 := by
    have : 0 < n := hn
    exact_mod_cast this.ne'
  rw [storeGridVelocities_kernel g cfg n hn i l p d hi hl hp hd]
  refine Finset.sum_congr rfl (fun j hj => ?_)
  rw [timeSpectralOperator_apply _ n i j hi (Finset.mem_range.mp hj),
    timeSpectralEntry_eq_kernel, hT]
  have e : 2 * Real.pi / (n : ℝ) / (oscillationPeriod cfg / (n : ℝ))
      = 2 * Real.pi / oscillationPeriod cfg := by
    by_cases hT0 : oscillationPeriod cfg = 0
    · simp [hT0]
    · field_simp
  rw [e]
  ring

/-- C22, the code on every number `n ≥ 1` of time instances, with `nZone` the
configured number of time instances and a non-zero pitching frequency. With fewer
instances than dimensions the run has no defined result (the clean-up loop deletes
`nDim` rows of the `n`-row array `coords`). With `nDim ≤ n` the function returns, and
the grid velocity it has stored at the instance `i` for a coordinate of a point is the
spectral derivative `Σ_j D[i][j]·x_j` of that coordinate over the instances, `D` being
the operator matrix `SetTimeSpectral` builds for the same period (over the reals, for
even and for odd `n`). -/
theorem SetTimeSpectral_Velocities_spectral_derivative (g : CGeometry ℝ)
    (cfg : Nat → CConfig ℝ) (n : Nat) (hn : 1 ≤ n)
    (hT : (cfg ZONE_0).nTimeInstances = n) (_hfreq : Omega_mag cfg ≠ 0) :
    (n < g.nDim (ZONE_0, MESH_0) → SetTimeSpectral_Velocities g cfg n = none) ∧
    (g.nDim (ZONE_0, MESH_0) ≤ n →
      ∃ g', SetTimeSpectral_Velocities g cfg n = some g' ∧
        ∀ i l p d, i < n → l ≤ (cfg ZONE_0).MGLevels → p < g.nPoint (ZONE_0, l) →
          d < g.nDim (ZONE_0, MESH_0) →
          g'.GridVel (i, l, p, d)
            = ∑ j in Finset.range n,
                timeSpectralOperator (oscillationPeriod cfg) n i j * g.Coord (j, l, p, d)) :=
  ⟨fun hlt => SetTimeSpectral_Velocities_eq_none g cfg n hlt,
    fun hdim => ⟨_, SetTimeSpectral_Velocities_eq_some g cfg n hdim,
      storeGridVelocities_operator g cfg n hn hT⟩⟩

theorem SetTimeSpectral_Velocities_spectral_derivative_witness :
    SetTimeSpectral_Velocities (sampleGeometry ℝ) (sampleConfigOne ℝ) 1 = none ∧
    ∃ g', SetTimeSpectral_Velocities (sampleGeometry ℝ) (sampleConfigThree ℝ) 3 = some g' ∧
      g'.GridVel (1, 0, 0, 0)
        = ∑ j in Finset.range 3,
            timeSpectralOperator (oscillationPeriod (sampleConfigThree ℝ)) 3 1 j
              * (sampleGeometry ℝ).Coord (j, 0, 0, 0) :=
  ⟨(SetTimeSpectral_Velocities_spectral_derivative (sampleGeometry ℝ) (sampleConfigOne ℝ) 1
      (by decide) rfl (by simp [Omega_mag, sampleConfigOne, sampleConfig, LibM.sqrt])).1
      (by decide),
    Exists.imp (fun _ h => ⟨h.1, h.2 1 0 0 0 (by decide) (Nat.zero_le _) (by decide)
        (by decide)⟩)
      ((SetTimeSpectral_Velocities_spectral_derivative (sampleGeometry ℝ)
        (sampleConfigThree ℝ) 3 (by decide) rfl
        (by simp [Omega_mag, sampleConfigThree, sampleConfig, LibM.sqrt])).2 (by decide))⟩

/-- The loops of `SetTimeSpectral_Velocities` store zero velocity for a point that
has the same coordinates at every instance. -/
theorem storeGridVelocities_fixed_point (g : CGeometry ℝ) (cfg : Nat → CConfig ℝ)
    (n : Nat) (hn : 1 ≤ n) (l p : Nat) (hl : l ≤ (cfg ZONE_0).MGLevels)
    (hp : p < g.nPoint (ZONE_0, l))
    (hfixed : ∀ z d, z < n → d < g.nDim (ZONE_0, MESH_0) →
      g.Coord (z, l, p, d) = g.Coord (0, l, p, d)) :
    ∀ i d, i < n → d < g.nDim (ZONE_0, MESH_0) →
      (storeGridVelocities g cfg n).GridVel (i, l, p, d) = 0 := by
  intro i d hi hd
  rw [storeGridVelocities_kernel g cfg n hn i l p d hi hl hp hd]
  have h1 : ∀ z ∈ Finset.range n,
      (((2 * Real.pi / (n : ℝ))
          / (oscillationPeriod cfg / ((cfg ZONE_0).nTimeInstances : ℝ))) / 2)
        * timeSpectralKernel n ((i : ℤ) - (z : ℤ)) * g.Coord (z, l, p, d)
      = ((((2 * Real.pi / (n : ℝ))
          / (oscillationPeriod cfg / ((cfg ZONE_0).nTimeInstances : ℝ))) / 2)
        * g.Coord (0, l, p, d)) * timeSpectralKernel n ((i : ℤ) - (z : ℤ)) := by
    intro z hz
    rw [hfixed z d (Finset.mem_range.mp hz) hd]
    ring
  rw [Finset.sum_congr rfl h1, ← Finset.mul_sum,
    sum_range_odd_periodic (fun m => timeSpectralKernel n m) n
      (fun m => timeSpectralKernel_add_period n hn m)
      (fun m => timeSpectralKernel_neg n m) i hi.le, mul_zero]

/-- C28, the code on a mesh point that has the same coordinates at every time
instance, for every `n ≥ 1`. With fewer instances than dimensions the run has no
defined result (the clean-up loop deletes `nDim` rows of the `n`-row array `coords`).
With `nDim ≤ n` the function returns and has stored zero grid velocity for that
point at every instance and in every coordinate direction (over the reals). -/
theorem SetTimeSpectral_Velocities_fixed_point (g : CGeometry ℝ) (cfg : Nat → CConfig ℝ)
    (n : Nat) (hn : 1 ≤ n) (l p : Nat) (hl : l ≤ (cfg ZONE_0).MGLevels)
    (hp : p < g.nPoint (ZONE_0, l))
    (hfixed : ∀ z d, z < n → d < g.nDim (ZONE_0, MESH_0) →
      g.Coord (z, l, p, d) = g.Coord (0, l, p, d)) :
    (n < g.nDim (ZONE_0, MESH_0) → SetTimeSpectral_Velocities g cfg n = none) ∧
    (g.nDim (ZONE_0, MESH_0) ≤ n →
      ∃ g', SetTimeSpectral_Velocities g cfg n = some g' ∧
        ∀ i d, i < n → d < g.nDim (ZONE_0, MESH_0) → g'.GridVel (i, l, p, d) = 0) :=
  ⟨fun hlt => SetTimeSpectral_Velocities_eq_none g cfg n hlt,
    fun hdim => ⟨_, SetTimeSpectral_Velocities_eq_some g cfg n hdim,
      storeGridVelocities_fixed_point g cfg n hn l p hl hp hfixed⟩⟩

theorem SetTimeSpectral_Velocities_fixed_point_witness :
    SetTimeSpectral_Velocities (sampleGeometryFixed ℝ) (sampleConfig ℝ) 1 = none ∧
    ∃ g', SetTimeSpectral_Velocities (sampleGeometryFixed ℝ) (sampleConfig ℝ) 3 = some g' ∧
      ∀ i d, i < 3 → d < (sampleGeometryFixed ℝ).nDim (ZONE_0, MESH_0) →
        g'.GridVel (i, 0, 0, d) = 0 :=
  ⟨(SetTimeSpectral_Velocities_fixed_point (sampleGeometryFixed ℝ) (sampleConfig ℝ) 1
      (by decide) 0 0 (Nat.zero_le _) (by decide) (fun _ _ _ _ => rfl)).1 (by decide),
    (SetTimeSpectral_Velocities_fixed_point (sampleGeometryFixed ℝ) (sampleConfig ℝ) 3
      (by decide) 0 0 (Nat.zero_le _) (by decide) (fun _ _ _ _ => rfl)).2 (by decide)⟩

/-! ## `SetSliding_Interfaces`: the order of the vertices of a donor triangle -/

/-- Exchanging two vertices of the triangle changes the sign of the three basis
functions: `Area` is an absolute value, the numerators are signed. -/
theorem basisFunctions_swap {α : Type} [LinearOrderedField α] (X_0 X_1 X_2 P : Nat → α) :
    basisFunctions X_1 X_0 X_2 P
      = (basisFunctions X_0 X_1 X_2 P).map (fun N => (-N.2.1, -N.1, -N.2.2)) := by
  have hcross : (X_1 0 - X_2 0) * (X_0 1 - X_2 1) - (X_1 1 - X_2 1) * (X_0 0 - X_2 0)
      = -((X_0 0 - X_2 0) * (X_1 1 - X_2 1) - (X_0 1 - X_2 1) * (X_1 0 - X_2 0)) := by
    ring
  unfold basisFunctions
  simp only [hcross, abs_neg]
  split_ifs with hA
  · rfl
  · simp only [Option.map_some', Option.some.injEq, Prod.mk.injEq]
    refine ⟨?_, ?_, ?_⟩ <;> ring

/-- A cyclic rotation of the vertices of the triangle rotates the three basis
functions with them. -/
theorem basisFunctions_rotate {α : Type} [LinearOrderedField α] (X_0 X_1 X_2 P : Nat → α) :
    basisFunctions X_1 X_2 X_0 P
      = (basisFunctions X_0 X_1 X_2 P).map (fun N => (N.2.1, N.2.2, N.1)) := by
  have hcross : (X_1 0 - X_0 0) * (X_2 1 - X_0 1) - (X_1 1 - X_0 1) * (X_2 0 - X_0 0)
      = (X_0 0 - X_2 0) * (X_1 1 - X_2 1) - (X_0 1 - X_2 1) * (X_1 0 - X_2 0) := by
    ring
  unfold basisFunctions
  simp only [hcross]
  split_ifs with hA
  · rfl
  · simp only [Option.map_some', Option.some.injEq, Prod.mk.injEq]

theorem sampleTriangle_donorWrite_ccw :
    donorWrite (sampleGeometryTriangle ℚ 0 1 2) 1
        (nodeCoord (sampleGeometryTriangle ℚ 0 1 2) 0 0) 0
      = some (0, 1 / 4, 1 / 2, 1 / 4) := by
  simp [donorWrite, elementBasisFunctions, basisFunctions, nodeCoord, sampleGeometryTriangle,
    sampleGeometry, withinTolerance, eps]
  norm_num

theorem sampleTriangle_basisFunctions_cw :
    elementBasisFunctions (sampleGeometryTriangle ℚ 0 2 1) 1
        (nodeCoord (sampleGeometryTriangle ℚ 0 2 1) 0 0) 0
      = some (-(1 / 4), -(1 / 4), -(1 / 2)) := by
  simp [elementBasisFunctions, basisFunctions, nodeCoord, sampleGeometryTriangle,
    sampleGeometry]
  norm_num

theorem sampleTriangle_donorWrite_cw :
    donorWrite (sampleGeometryTriangle ℚ 0 2 1) 1
        (nodeCoord (sampleGeometryTriangle ℚ 0 2 1) 0 0) 0 = none := by
  unfold donorWrite
  rw [sampleTriangle_basisFunctions_cw]
  simp [withinTolerance, eps]
  norm_num
theorem withinTolerance_rotate {α : Type} [LinearOrderedField α] (N : α × α × α) :
    withinTolerance (N.2.1, N.2.2, N.1) ↔ withinTolerance N := by
  unfold withinTolerance
  constructor
  · rintro ⟨h1, h2, h3⟩
    exact ⟨h3, h1, h2⟩
  · rintro ⟨h1, h2, h3⟩
    exact ⟨h2, h3, h1⟩

/-- C25, as amended: for a fixed query point, whether `SetSliding_Interfaces` accepts
a donor triangle, and the weight of each of its vertices, do not depend on which
vertex of the triangle is stored first: if the element of `g'` has the vertices of
the element of `g` in cyclically rotated order, the element is written for `g'`
exactly when it is written for `g`, with the weights rotated like the vertices.
Exchanging two vertices (the other orientation) changes the sign of the three
weights. -/
theorem SetSliding_Interfaces_vertex_rotation {α : Type} [LinearOrderedField α]
    (g g' : CGeometry α) (donorZone iElem : Nat) (Coord_i : Nat → α)
    (hCoord : g'.Coord = g.Coord)
    (h0 : g'.elem_Node (donorZone, MESH_0, iElem, 0) = g.elem_Node (donorZone, MESH_0, iElem, 1))
    (h1 : g'.elem_Node (donorZone, MESH_0, iElem, 1) = g.elem_Node (donorZone, MESH_0, iElem, 2))
    (h2 : g'.elem_Node (donorZone, MESH_0, iElem, 2) = g.elem_Node (donorZone, MESH_0, iElem, 0)) :
    donorWrite g' donorZone Coord_i iElem
      = (donorWrite g donorZone Coord_i iElem).map (fun w => (w.1, w.2.2.1, w.2.2.2, w.2.1)) ∧
    (donorWrite g' donorZone Coord_i iElem).isSome
      = (donorWrite g donorZone Coord_i iElem).isSome ∧
    (∀ X_0 X_1 X_2 P : Nat → α,
      basisFunctions X_1 X_0 X_2 P
        = (basisFunctions X_0 X_1 X_2 P).map (fun N => (-N.2.1, -N.1, -N.2.2))) := by
  have hnode : ∀ iPoint, nodeCoord g' donorZone iPoint = nodeCoord g donorZone iPoint := by
    intro iPoint
    unfold nodeCoord
    rw [hCoord]
  have hN : elementBasisFunctions g' donorZone Coord_i iElem
      = (elementBasisFunctions g donorZone Coord_i iElem).map (fun N => (N.2.1, N.2.2, N.1)) := by
    unfold elementBasisFunctions
    simp only [h0, h1, h2, hnode]
    exact basisFunctions_rotate _ _ _ _
  have hw : donorWrite g' donorZone Coord_i iElem
      = (donorWrite g donorZone Coord_i iElem).map
          (fun w => (w.1, w.2.2.1, w.2.2.2, w.2.1)) := by
    unfold donorWrite
    rw [hN]
    cases hb : elementBasisFunctions g donorZone Coord_i iElem with
    | none => rfl
    | some N =>
      simp only [Option.map_some']
      by_cases hin : withinTolerance N
      · rw [if_pos hin, if_pos ((withinTolerance_rotate N).mpr hin)]
        rfl
      · rw [if_neg hin, if_neg (fun h => hin ((withinTolerance_rotate N).mp h))]
        rfl
  refine ⟨hw, ?_, fun X_0 X_1 X_2 P => basisFunctions_swap X_0 X_1 X_2 P⟩
  rw [hw]
  cases donorWrite g donorZone Coord_i iElem <;> rfl

theorem SetSliding_Interfaces_vertex_rotation_witness :
    donorWrite (sampleGeometryTriangle ℚ 1 2 0) 1
        (nodeCoord (sampleGeometryTriangle ℚ 0 1 2) 0 0) 0
      = (donorWrite (sampleGeometryTriangle ℚ 0 1 2) 1
          (nodeCoord (sampleGeometryTriangle ℚ 0 1 2) 0 0) 0).map
          (fun w => (w.1, w.2.2.1, w.2.2.2, w.2.1)) :=
  (SetSliding_Interfaces_vertex_rotation (sampleGeometryTriangle ℚ 0 1 2)
    (sampleGeometryTriangle ℚ 1 2 0) 1 0 (nodeCoord (sampleGeometryTriangle ℚ 0 1 2) 0 0)
    rfl rfl rfl rfl).1

/-- C25, counterexample to the claim as stated: in the sample mesh the receive vertex
`(3/4, 1/4)` lies inside the triangle `(0,0), (1,0), (1,1)`. Stored in this order
(counter-clockwise) the triangle is recorded as donor with the weights
`(1/4, 1/2, 1/4)`; stored as `(0,0), (1,1), (1,0)` (clockwise) it gets the weights
`(-1/4, -1/4, -1/2)`, is not accepted, and the donor record keeps its old content. -/
theorem SetSliding_Interfaces_vertex_order_counterexample :
    (sampleGeometryTriangle ℚ 0 2 1).Coord = (sampleGeometryTriangle ℚ 0 1 2).Coord ∧
    donorWrite (sampleGeometryTriangle ℚ 0 1 2) 1
        (nodeCoord (sampleGeometryTriangle ℚ 0 1 2) 0 0) 0
      = some (0, 1 / 4, 1 / 2, 1 / 4) ∧
    elementBasisFunctions (sampleGeometryTriangle ℚ 0 2 1) 1
        (nodeCoord (sampleGeometryTriangle ℚ 0 2 1) 0 0) 0
      = some (-(1 / 4), -(1 / 4), -(1 / 2)) ∧
    donorWrite (sampleGeometryTriangle ℚ 0 2 1) 1
        (nodeCoord (sampleGeometryTriangle ℚ 0 2 1) 0 0) 0 = none ∧
    (SetSliding_Interfaces (sampleGeometryTriangle ℚ 0 1 2) (sampleConfig ℚ) 2).state.vertex
        (0, 0, 0, 0)
      = recordDonor (0, 1 / 4, 1 / 2, 1 / 4)
          ((sampleGeometryTriangle ℚ 0 1 2).vertex (0, 0, 0, 0)) ∧
    (SetSliding_Interfaces (sampleGeometryTriangle ℚ 0 2 1) (sampleConfig ℚ) 2).state.vertex
        (0, 0, 0, 0)
      = (sampleGeometryTriangle ℚ 0 2 1).vertex (0, 0, 0, 0) := by
  refine ⟨rfl, sampleTriangle_donorWrite_ccw, sampleTriangle_basisFunctions_cw,
    sampleTriangle_donorWrite_cw, ?_, ?_⟩
  · have hr : receivesDonor (sampleGeometryTriangle ℚ 0 1 2) (sampleConfig ℚ) 2 (0, 0, 0, 0) := by
      decide
    have hl : lastDonorWrite (sampleGeometryTriangle ℚ 0 1 2) 1
        (nodeCoord (sampleGeometryTriangle ℚ 0 1 2) 0 0) 1 = some (0, 1 / 4, 1 / 2, 1 / 4) := by
      unfold lastDonorWrite
      rw [sampleTriangle_donorWrite_ccw]
    have h1 : (sampleGeometryTriangle ℚ 0 1 2).Matching_Zone (0, 0, 0, 0) = 1 := rfl
    have h2 : (sampleGeometryTriangle ℚ 0 1 2).vertex_Node (0, 0, 0, 0) = 0 := rfl
    have h3 : (sampleGeometryTriangle ℚ 0 1 2).nElem (1, MESH_0) = 1 := rfl
    rw [SetSliding_Interfaces_2D _ _ _ rfl]
    simp only [Outcome.state, if_pos hr]
    unfold donorResult
    rw [h1, h2, h3, hl]
  · have hr : receivesDonor (sampleGeometryTriangle ℚ 0 2 1) (sampleConfig ℚ) 2 (0, 0, 0, 0) := by
      decide
    have hl : lastDonorWrite (sampleGeometryTriangle ℚ 0 2 1) 1
        (nodeCoord (sampleGeometryTriangle ℚ 0 2 1) 0 0) 1 = none := by
      unfold lastDonorWrite
      rw [sampleTriangle_donorWrite_cw]
      rfl
    have h1 : (sampleGeometryTriangle ℚ 0 2 1).Matching_Zone (0, 0, 0, 0) = 1 := rfl
    have h2 : (sampleGeometryTriangle ℚ 0 2 1).vertex_Node (0, 0, 0, 0) = 0 := rfl
    have h3 : (sampleGeometryTriangle ℚ 0 2 1).nElem (1, MESH_0) = 1 := rfl
    rw [SetSliding_Interfaces_2D _ _ _ rfl]
    simp only [Outcome.state, if_pos hr]
    unfold donorResult
    rw [h1, h2, h3, hl]

/-! ## `SetSliding_Interfaces`: a receive vertex without donor -/

theorem sampleTriangle_donorWrite_outside :
    donorWrite (sampleGeometryTriangle ℚ 0 2 3) 1
        (nodeCoord (sampleGeometryTriangle ℚ 0 2 3) 0 0) 0 = none := by
  simp [donorWrite, elementBasisFunctions, basisFunctions, nodeCoord, sampleGeometryTriangle,
    sampleGeometry, withinTolerance, eps]
  norm_num

theorem sampleTriangle3D_donorWrite_outside :
    donorWrite (sampleGeometryTriangle3D ℚ 0 2 3) 1
        (nodeCoord (sampleGeometryTriangle3D ℚ 0 2 3) 0 0) 0 = none := by
  simp [donorWrite, elementBasisFunctions, basisFunctions, nodeCoord, sampleGeometryTriangle3D,
    sampleGeometryTriangle, sampleGeometry, withinTolerance, eps]
  norm_num

/-- C26, as amended: if no element of the donor zone qualifies for a receive vertex
(also when the donor zone has no element), `SetSliding_Interfaces` leaves the donor
element index and the three weights stored for that vertex unchanged, and in 2-D it
completes without signalling an error. -/
theorem SetSliding_Interfaces_no_donor {α : Type} [LinearOrderedField α] (g : CGeometry α)
    (cfg : Nat → CConfig α) (nZone : Nat) (key : VertexKey)
    (hkey : receivesDonor g cfg nZone key)
    (hnone : ∀ e N, e < g.nElem (g.Matching_Zone key, MESH_0) →
      elementBasisFunctions g (g.Matching_Zone key)
        (nodeCoord g key.1 (g.vertex_Node key)) e = some N → ¬ withinTolerance N) :
    (SetSliding_Interfaces g cfg nZone).state.vertex key = g.vertex key ∧
    (g.nDim (ZONE_0, MESH_0) = 2 →
      ∃ g', SetSliding_Interfaces g cfg nZone = .completed g'
        ∧ g'.vertex key = g.vertex key) := by
  have h2D : g.nDim (ZONE_0, MESH_0) = 2 →
      ∃ g', SetSliding_Interfaces g cfg nZone = .completed g'
        ∧ g'.vertex key = g.vertex key := by
    intro h2
    refine ⟨_, SetSliding_Interfaces_2D g cfg nZone h2, ?_⟩
    have hw : ∀ e', e' < g.nElem (g.Matching_Zone key, MESH_0) →
        donorWrite g (g.Matching_Zone key) (nodeCoord g key.1 (g.vertex_Node key)) e' = none := by
      intro e' he'
      cases hw' : donorWrite g (g.Matching_Zone key)
          (nodeCoord g key.1 (g.vertex_Node key)) e' with
      | none => rfl
      | some w' =>
        obtain ⟨_, hb, hc⟩ := (donorWrite_eq_some_iff g _ _ e' w').mp hw'
        exact absurd hc (hnone e' w'.2 he' hb)
    simp only [if_pos hkey, donorResult, lastDonorWrite_none g _ _ _ hw]
  refine ⟨?_, h2D⟩
  by_cases h2 : g.nDim (ZONE_0, MESH_0) = 2
  · obtain ⟨g', hg', hv⟩ := h2D h2
    rw [hg']
    exact hv
  · by_cases hex : ∃ key, receivesDonor g cfg nZone key
        ∧ 1 ≤ g.nElem (g.Matching_Zone key, MESH_0)
    · rw [(SetSliding_Interfaces_not2D g cfg nZone h2).1 hex]
      rfl
    · rw [(SetSliding_Interfaces_not2D g cfg nZone h2).2 hex]
      rfl

theorem SetSliding_Interfaces_no_donor_witness :
    (SetSliding_Interfaces (sampleGeometryTriangle ℚ 0 2 3) (sampleConfig ℚ) 2).state.vertex
        (0, 0, 0, 0)
      = (sampleGeometryTriangle ℚ 0 2 3).vertex (0, 0, 0, 0) ∧
    ((sampleGeometryTriangle ℚ 0 2 3).nDim (ZONE_0, MESH_0) = 2 →
      ∃ g', SetSliding_Interfaces (sampleGeometryTriangle ℚ 0 2 3) (sampleConfig ℚ) 2
          = .completed g'
        ∧ g'.vertex (0, 0, 0, 0) = (sampleGeometryTriangle ℚ 0 2 3).vertex (0, 0, 0, 0)) :=
  SetSliding_Interfaces_no_donor (sampleGeometryTriangle ℚ 0 2 3) (sampleConfig ℚ) 2
    (0, 0, 0, 0) (by decide)
    (fun e N he hN hin => by
      have he0 : e = 0 := by
        have : (sampleGeometryTriangle ℚ 0 2 3).nElem
            ((sampleGeometryTriangle ℚ 0 2 3).Matching_Zone (0, 0, 0, 0), MESH_0) = 1 := rfl
        omega
      subst he0
      have hw := (donorWrite_eq_some_iff (sampleGeometryTriangle ℚ 0 2 3) 1
        (nodeCoord (sampleGeometryTriangle ℚ 0 2 3) 0 0) 0 (0, N)).mpr ⟨rfl, hN, hin⟩
      rw [sampleTriangle_donorWrite_outside] at hw
      exact Option.noConfusion hw)

/-- C26, counterexample to the claim as stated: in the three-dimensional sample mesh
the receive vertex has a donor zone of one element, which does not qualify; the run
ends in the exit for sliding interfaces in 3-D and does not complete. -/
theorem SetSliding_Interfaces_no_donor_counterexample :
    receivesDonor (sampleGeometryTriangle3D ℚ 0 2 3) (sampleConfig ℚ) 2 (0, 0, 0, 0)
    ∧ (∀ e, e < (sampleGeometryTriangle3D ℚ 0 2 3).nElem (1, MESH_0) →
        donorWrite (sampleGeometryTriangle3D ℚ 0 2 3) 1
          (nodeCoord (sampleGeometryTriangle3D ℚ 0 2 3) 0 0) e = none)
    ∧ SetSliding_Interfaces (sampleGeometryTriangle3D ℚ 0 2 3) (sampleConfig ℚ) 2
        = .exited (sampleGeometryTriangle3D ℚ 0 2 3)
    ∧ ∀ g', SetSliding_Interfaces (sampleGeometryTriangle3D ℚ 0 2 3) (sampleConfig ℚ) 2
        ≠ .completed g' := by
  have hr : receivesDonor (sampleGeometryTriangle3D ℚ 0 2 3) (sampleConfig ℚ) 2 (0, 0, 0, 0) := by
    decide
  have hex : SetSliding_Interfaces (sampleGeometryTriangle3D ℚ 0 2 3) (sampleConfig ℚ) 2
      = .exited (sampleGeometryTriangle3D ℚ 0 2 3) :=
    (SetSliding_Interfaces_not2D _ _ 2 (by decide)).1 ⟨(0, 0, 0, 0), hr, by decide⟩
  refine ⟨hr, fun e he => ?_, hex, fun g' h => ?_⟩
  · have he0 : e = 0 := by
      have : (sampleGeometryTriangle3D ℚ 0 2 3).nElem (1, MESH_0) = 1 := rfl
      omega
    subst he0
    exact sampleTriangle3D_donorWrite_outside
  · rw [hex] at h
    cases h

/-! ## `MeanFlowIteration` -/

/-- A sweep in which no index asks to leave the loop runs out: the loop variable
ends at `i + k`. -/
theorem forLoopBreakFrom_fst_of_no_break {σ : Type} (body : Nat → σ → σ × Bool)
    (c : Nat → Bool) (hc : ∀ i s, (body i s).2 = c i) (k i : Nat) (s : σ)
    (h : ∀ j, j < k → c (i + j) = false) :
    (forLoopBreakFrom body k i s).1 = i + k := by
  induction k generalizing i s with
  | zero => rfl
  | succ k ih =>
    have h0 : (body i s).2 = false := by
      rw [hc]
      exact h 0 (Nat.succ_pos k)
    unfold forLoopBreakFrom
    rw [if_neg (by rw [h0]; exact Bool.false_ne_true)]
    rw [ih (i + 1) _ (fun j hj => by
      have := h (j + 1) (Nat.succ_lt_succ hj)
      rwa [Nat.add_comm j 1, ← Nat.add_assoc] at this)]
    omega

/-- A sweep in which an index asks to leave the loop ends at such an index, not
after the first of them. -/
theorem forLoopBreakFrom_fst_of_break {σ : Type} (body : Nat → σ → σ × Bool)
    (c : Nat → Bool) (hc : ∀ i s, (body i s).2 = c i) (k i : Nat) (s : σ)
    (j : Nat) (hj : j < k) (hcj : c (i + j) = true) :
    (forLoopBreakFrom body k i s).1 ≤ i + j ∧ c (forLoopBreakFrom body k i s).1 = true := by
  induction k generalizing i s j with
  | zero => omega
  | succ k ih =>
    unfold forLoopBreakFrom
    by_cases hb : (body i s).2 = true
    · rw [if_pos hb]
      refine ⟨Nat.le_add_right i j, ?_⟩
      rw [← hc i s]
      exact hb
    · rw [if_neg hb]
      have hj0 : j ≠ 0 := by
        intro h0
        subst h0
        rw [hc] at hb
        exact hb hcj
      obtain ⟨j', rfl⟩ := Nat.exists_eq_succ_of_ne_zero hj0
      have hcj' : c (i + 1 + j') = true := by
        rw [Nat.add_assoc, Nat.add_comm 1 j']
        exact hcj
      have := ih (i + 1) (body i s).1 j' (Nat.lt_of_succ_lt_succ hj) hcj'
      refine ⟨?_, this.2⟩
      have h1 := this.1
      omega

theorem forLoop_extends {β : Type} (body : Nat → List β → List β)
    (h : ∀ i s, s <+: body i s) (n : Nat) (s : List β) : s <+: forLoop n body s := by
  induction n with
  | zero => exact List.prefix_refl s
  | succ n ih => exact List.IsPrefix.trans ih (h n _)

theorem forLoopBreakFrom_extends {β : Type} (body : Nat → List β → List β × Bool)
    (h : ∀ i s, s <+: (body i s).1) (k i : Nat) (s : List β) :
    s <+: (forLoopBreakFrom body k i s).2 := by
  induction k generalizing i s with
  | zero => exact List.prefix_refl s
  | succ k ih =>
    unfold forLoopBreakFrom
    split_ifs
    · exact h i s
    · exact List.IsPrefix.trans (h i s) (ih (i + 1) _)

theorem forLoop_succ_first {σ : Type} (n : Nat) (body : Nat → σ → σ) (s : σ) :
    forLoop (n + 1) body s = forLoop n (fun i t => body (i + 1) t) (body 0 s) := by
  induction n with
  | zero => rfl
  | succ n ih => rw [forLoop_succ, ih, forLoop_succ]

/-- With dual time stepping and aeroelastic grid movement, if no zone reports
convergence in the sweep of the first pseudo-iteration, `MeanFlowIteration` calls
`SetGrid_Movement` with the containers at index `nZone`. -/
theorem MeanFlowIteration_aeroelastic_call {α : Type} [LinearOrderedField α]
    (nZone : Nat) (cfg : Nat → CConfigIteration α) (Convergence : Nat → Nat → Bool)
    (ExtIter : Nat) (hdt : dualTime (cfg ZONE_0) = true)
    (hkind : (cfg ZONE_0).Kind_GridMovement ZONE_0 = GridMovementKind.AEROELASTIC)
    (hint : 2 ≤ (cfg ZONE_0).Unst_nIntIter)
    (hconv : ∀ iZone, iZone < nZone → Convergence 1 iZone = false) :
    IterCall.SetGrid_Movement nZone nZone 1
      ∈ MeanFlowIteration nZone cfg Convergence ExtIter := by
  have hts : (cfg ZONE_0).Unsteady_Simulation ≠ UnsteadySimulation.TIME_SPECTRAL := by
    intro h
    simp [dualTime, h] at hdt
  obtain ⟨m, hm⟩ : ∃ m, (cfg ZONE_0).Unst_nIntIter = m + 2 := ⟨_, (Nat.sub_add_cancel hint).symm⟩
  unfold MeanFlowIteration
  simp only [hts, decide_False, Bool.false_eq_true, if_false, hdt, if_true, hkind, hm,
    forLoopFrom, Nat.add_sub_cancel]
  rw [show m + 2 - 1 = m + 1 from rfl, forLoop_succ_first]
  have key : ∀ (body : Nat → List IterCall → List IterCall × Bool) (S : List IterCall),
      (∀ i s, (body i s).2 = Convergence 1 i) →
      IterCall.SetGrid_Movement nZone nZone 1
        ∈ (forLoopBreak nZone body S).2
          ++ [IterCall.SetGrid_Movement (forLoopBreak nZone body S).1
                (forLoopBreak nZone body S).1 1] := by
    intro body S hbody
    have hidx : (forLoopBreak nZone body S).1 = nZone := by
      have := forLoopBreakFrom_fst_of_no_break body (fun i => Convergence 1 i) hbody nZone 0 S
        (fun j hj => by rw [Nat.zero_add]; exact hconv j hj)
      rw [Nat.zero_add] at this
      exact this
    rw [hidx]
    exact List.mem_append_right _ (List.mem_singleton.mpr rfl)
  refine (forLoop_extends _ (fun i s => ?_) _ _).subset ?_
  · have hfl : ∀ s : List IterCall, s <+: forLoop ((cfg i).MGLevels + 1)
        (fun iMesh calls => calls ++ [IterCall.SetDualTime_Solver i SolIndex.FLOW_SOL iMesh,
          IterCall.SetConvergence i SolIndex.FLOW_SOL false]) s :=
      fun s => forLoop_extends _ (fun _ _ => List.prefix_append _ _) _ _
    split_ifs
    · exact ((hfl s).trans (List.prefix_append _ _)).trans (List.prefix_append _ _)
    · exact (hfl s).trans (List.prefix_append _ _)
    · exact (hfl s).trans (List.prefix_append _ _)
    · exact hfl s
  · refine (forLoop_extends _ (fun i t => ?_) _ _).subset ?_
    · refine List.IsPrefix.trans ?_ (List.prefix_append _ _)
      exact forLoopBreakFrom_extends _ (fun iZone s => by
        dsimp only
        split_ifs
        · exact (List.prefix_append _ _).trans (List.prefix_append _ _)
        · exact List.prefix_append _ _) _ _ _
    · exact key _ _ (fun _ _ => rfl)

/-- C24, the code when no zone reports convergence. After a sweep over the zones in
which no zone reports convergence the loop variable is `nZone`, not a zone index;
it is the index of a zone exactly when some zone reported convergence. In the
one-zone sample run with dual time stepping and aeroelastic grid movement, the call
of `SetGrid_Movement` after the sweep takes the containers at index 1 = `nZone` when
zone 0 has not converged, and at index 0 when it has. For every number of zones, a
run with dual time stepping, aeroelastic grid movement and at least one
pseudo-iteration calls `SetGrid_Movement` with the containers at index `nZone` when
no zone reports convergence in the first sweep. -/
theorem MeanFlowIteration_aeroelastic_zone_index :
    (∀ (nZone : Nat) (cfg : Nat → CConfigIteration ℚ) (Convergence : Nat → Nat → Bool)
        (ExtIter : Nat),
      dualTime (cfg ZONE_0) = true →
      (cfg ZONE_0).Kind_GridMovement ZONE_0 = GridMovementKind.AEROELASTIC →
      2 ≤ (cfg ZONE_0).Unst_nIntIter →
      (∀ iZone, iZone < nZone → Convergence 1 iZone = false) →
      IterCall.SetGrid_Movement nZone nZone 1
        ∈ MeanFlowIteration nZone cfg Convergence ExtIter) ∧
    (∀ (nZone : Nat) (f : Nat → List IterCall → List IterCall) (c : Nat → Bool)
        (calls : List IterCall),
      (∀ i, i < nZone → c i = false) →
      (forLoopBreak nZone (fun iZone calls => (f iZone calls, c iZone)) calls).1 = nZone) ∧
    (∀ (nZone : Nat) (f : Nat → List IterCall → List IterCall) (c : Nat → Bool)
        (calls : List IterCall),
      (∃ i, i < nZone ∧ c i = true) →
      (forLoopBreak nZone (fun iZone calls => (f iZone calls, c iZone)) calls).1 < nZone) ∧
    MeanFlowIteration 1 (sampleConfigAeroelastic ℚ) (fun _ _ => false) 0
      = [IterCall.SetGrid_Movement 0 0 0, IterCall.SetInitialCondition 0 0,
          IterCall.SetGlobalParam 0 FlowSolverKind.EULER RuntimeSystem.RUNTIME_FLOW_SYS 0,
          IterCall.SetMultiGrid_Solver SolIndex.FLOW_SOL RuntimeSystem.RUNTIME_FLOW_SYS 0 0,
          IterCall.SetGlobalParam 0 FlowSolverKind.EULER RuntimeSystem.RUNTIME_FLOW_SYS 0,
          IterCall.SetMultiGrid_Solver SolIndex.FLOW_SOL RuntimeSystem.RUNTIME_FLOW_SYS 1 0,
          IterCall.SetHistory_DualTime 1 0,
          IterCall.SetGrid_Movement 1 1 1,
          IterCall.SetDualTime_Solver 0 SolIndex.FLOW_SOL 0,
          IterCall.SetConvergence 0 SolIndex.FLOW_SOL false] ∧
    MeanFlowIteration 1 (sampleConfigAeroelastic ℚ) (fun _ _ => true) 0
      = [IterCall.SetGrid_Movement 0 0 0, IterCall.SetInitialCondition 0 0,
          IterCall.SetGlobalParam 0 FlowSolverKind.EULER RuntimeSystem.RUNTIME_FLOW_SYS 0,
          IterCall.SetMultiGrid_Solver SolIndex.FLOW_SOL RuntimeSystem.RUNTIME_FLOW_SYS 0 0,
          IterCall.SetGlobalParam 0 FlowSolverKind.EULER RuntimeSystem.RUNTIME_FLOW_SYS 0,
          IterCall.SetMultiGrid_Solver SolIndex.FLOW_SOL RuntimeSystem.RUNTIME_FLOW_SYS 1 0,
          IterCall.SetHistory_DualTime 1 0,
          IterCall.SetGrid_Movement 0 0 1,
          IterCall.SetDualTime_Solver 0 SolIndex.FLOW_SOL 0,
          IterCall.SetConvergence 0 SolIndex.FLOW_SOL false] := by
  refine ⟨fun nZone cfg Convergence ExtIter h1 h2 h3 h4 =>
      MeanFlowIteration_aeroelastic_call nZone cfg Convergence ExtIter h1 h2 h3 h4,
    fun nZone f c calls h => ?_, fun nZone f c calls h => ?_, ?_, ?_⟩
  · have := forLoopBreakFrom_fst_of_no_break
      (fun iZone calls => (f iZone calls, c iZone)) c (fun _ _ => rfl) nZone 0 calls
      (fun j hj => by rw [Nat.zero_add]; exact h j hj)
    rw [Nat.zero_add] at this
    exact this
  · obtain ⟨i, hi, hci⟩ := h
    have := (forLoopBreakFrom_fst_of_break
      (fun iZone calls => (f iZone calls, c iZone)) c (fun _ _ => rfl) nZone 0 calls i hi
      (by rw [Nat.zero_add]; exact hci)).1
    rw [Nat.zero_add] at this
    exact Nat.lt_of_le_of_lt this hi
  · simp [MeanFlowIteration, sampleConfigAeroelastic, forLoop, forLoopFrom, forLoopBreak,
      forLoopBreakFrom, advanceZone, dualTime]
  · simp [MeanFlowIteration, sampleConfigAeroelastic, forLoop, forLoopFrom, forLoopBreak,
      forLoopBreakFrom, advanceZone, dualTime]
theorem forLoop_id {σ : Type} (n : Nat) (s : σ) : forLoop n (fun _ t => t) s = s := by
  induction n with
  | zero => rfl
  | succ n ih => rw [forLoop_succ, ih]

theorem advanceZone_filter_isSetTimeSpectral {α : Type} (cfg : Nat → CConfigIteration α)
    (ExtIter IntIter iZone : Nat) :
    (advanceZone cfg ExtIter IntIter iZone).filter IterCall.isSetTimeSpectral = [] := by
  unfold advanceZone
  simp only []
  split_ifs <;> simp [IterCall.isSetTimeSpectral]

theorem succ_mod_injOn (n i j : Nat) (hi : i < n) (hj : j < n)
    (h : (i + 1) % n = (j + 1) % n) : i = j := by
  by_cases h1 : i + 1 < n
  · by_cases h2 : j + 1 < n
    · rw [Nat.mod_eq_of_lt h1, Nat.mod_eq_of_lt h2] at h
      omega
    · have e : j + 1 = n := by omega
      rw [Nat.mod_eq_of_lt h1, e, Nat.mod_self] at h
      omega
  · have e : i + 1 = n := by omega
    by_cases h2 : j + 1 < n
    · rw [e, Nat.mod_self, Nat.mod_eq_of_lt h2] at h
      omega
    · omega

theorem succ_mod_surjOn (n t : Nat) (ht : t < n) : ∃ i, i < n ∧ (i + 1) % n = t := by
  by_cases h0 : t = 0
  · refine ⟨n - 1, by omega, ?_⟩
    have e : n - 1 + 1 = n := by omega
    rw [e, Nat.mod_self, h0]
  · refine ⟨t - 1, by omega, ?_⟩
    have e : t - 1 + 1 = t := by omega
    rw [e, Nat.mod_eq_of_lt ht]

/-- The operations of `MeanFlowIteration` in a time-spectral run: the search of the
sliding interfaces if zones move relative to each other, then for each instance its
initial condition, its advance, and the call of `SetTimeSpectral` for the next
instance. -/
theorem MeanFlowIteration_time_spectral_eq {α : Type} [LinearOrderedField α]
    (nZone_geometry : Nat) (cfg : Nat → CConfigIteration α) (Convergence : Nat → Nat → Bool)
    (ExtIter : Nat)
    (hts : (cfg ZONE_0).Unsteady_Simulation = UnsteadySimulation.TIME_SPECTRAL) :
    MeanFlowIteration nZone_geometry cfg Convergence ExtIter
      = (if (cfg ZONE_0).Relative_Motion then
            [IterCall.SetSliding_Interfaces (cfg ZONE_0).nTimeInstances] else [])
        ++ (List.range (cfg ZONE_0).nTimeInstances).flatMap (fun iZone =>
            [IterCall.SetInitialCondition iZone ExtIter]
              ++ advanceZone cfg ExtIter (if dualTime (cfg iZone) then 0 else ExtIter) iZone
              ++ [IterCall.SetTimeSpectral (cfg ZONE_0).nTimeInstances
                    ((iZone + 1) % (cfg ZONE_0).nTimeInstances)]) := by
  have hdt : dualTime (cfg ZONE_0) = false := by
    simp [dualTime, hts]
  have hbody : (fun (iZone : Nat) (calls : List IterCall) =>
        calls ++ [IterCall.SetInitialCondition iZone ExtIter]
          ++ advanceZone cfg ExtIter (if dualTime (cfg iZone) then 0 else ExtIter) iZone
          ++ [IterCall.SetTimeSpectral (cfg ZONE_0).nTimeInstances
                ((iZone + 1) % (cfg ZONE_0).nTimeInstances)])
      = (fun (iZone : Nat) (calls : List IterCall) =>
        calls ++ ([IterCall.SetInitialCondition iZone ExtIter]
          ++ advanceZone cfg ExtIter (if dualTime (cfg iZone) then 0 else ExtIter) iZone
          ++ [IterCall.SetTimeSpectral (cfg ZONE_0).nTimeInstances
                ((iZone + 1) % (cfg ZONE_0).nTimeInstances)])) := by
    funext iZone calls
    simp only [List.append_assoc]
  unfold MeanFlowIteration
  simp only [hts, hdt, decide_True, if_true, Bool.not_true, Bool.and_false, Bool.false_eq_true,
    if_false, forLoop_id, hbody, forLoop_append]
  cases (cfg ZONE_0).Relative_Motion <;> simp

/-- C27: in a time-spectral `MeanFlowIteration` over `nZone ≥ 1` instances,
`SetTimeSpectral` is invoked once for each instance `iZone`, with the target
`(iZone+1) mod nZone`, right after the advance of the instance `iZone`; the map
`iZone ↦ (iZone+1) mod nZone` is a bijection of the instance indices, so each target
in `0..nZone-1` is served exactly once per outer iteration. -/
theorem MeanFlowIteration_time_spectral_calls {α : Type} [LinearOrderedField α]
    (nZone_geometry : Nat) (cfg : Nat → CConfigIteration α) (Convergence : Nat → Nat → Bool)
    (ExtIter : Nat)
    (hts : (cfg ZONE_0).Unsteady_Simulation = UnsteadySimulation.TIME_SPECTRAL)
    (_hn : 1 ≤ (cfg ZONE_0).nTimeInstances) :
    MeanFlowIteration nZone_geometry cfg Convergence ExtIter
      = (if (cfg ZONE_0).Relative_Motion then
            [IterCall.SetSliding_Interfaces (cfg ZONE_0).nTimeInstances] else [])
        ++ (List.range (cfg ZONE_0).nTimeInstances).flatMap (fun iZone =>
            [IterCall.SetInitialCondition iZone ExtIter]
              ++ advanceZone cfg ExtIter (if dualTime (cfg iZone) then 0 else ExtIter) iZone
              ++ [IterCall.SetTimeSpectral (cfg ZONE_0).nTimeInstances
                    ((iZone + 1) % (cfg ZONE_0).nTimeInstances)]) ∧
    (MeanFlowIteration nZone_geometry cfg Convergence ExtIter).filter IterCall.isSetTimeSpectral
      = (List.range (cfg ZONE_0).nTimeInstances).map (fun iZone =>
          IterCall.SetTimeSpectral (cfg ZONE_0).nTimeInstances
            ((iZone + 1) % (cfg ZONE_0).nTimeInstances)) ∧
    (∀ t, t < (cfg ZONE_0).nTimeInstances →
      ∃ iZone, (iZone < (cfg ZONE_0).nTimeInstances
          ∧ (iZone + 1) % (cfg ZONE_0).nTimeInstances = t)
        ∧ ∀ jZone, jZone < (cfg ZONE_0).nTimeInstances
          ∧ (jZone + 1) % (cfg ZONE_0).nTimeInstances = t → jZone = iZone) ∧
    (∀ t, t < (cfg ZONE_0).nTimeInstances →
      (MeanFlowIteration nZone_geometry cfg Convergence ExtIter).count
        (IterCall.SetTimeSpectral (cfg ZONE_0).nTimeInstances t) = 1) := by
  have heq := MeanFlowIteration_time_spectral_eq nZone_geometry cfg Convergence ExtIter hts
  have hfilter : (MeanFlowIteration nZone_geometry cfg Convergence ExtIter).filter
        IterCall.isSetTimeSpectral
      = (List.range (cfg ZONE_0).nTimeInstances).map (fun iZone =>
          IterCall.SetTimeSpectral (cfg ZONE_0).nTimeInstances
            ((iZone + 1) % (cfg ZONE_0).nTimeInstances)) := by
    rw [heq, List.filter_append, List.filter_flatMap]
    have h1 : (if (cfg ZONE_0).Relative_Motion then
          [IterCall.SetSliding_Interfaces (cfg ZONE_0).nTimeInstances] else []).filter
        IterCall.isSetTimeSpectral = [] := by
      cases (cfg ZONE_0).Relative_Motion <;> simp [IterCall.isSetTimeSpectral]
    rw [h1, List.nil_append, ← flatMap_singleton_eq_map]
    congr 1
    funext iZone
    rw [List.filter_append, List.filter_append, advanceZone_filter_isSetTimeSpectral]
    simp [IterCall.isSetTimeSpectral]
  refine ⟨heq, hfilter, fun t ht => ?_, fun t ht => ?_⟩
  · obtain ⟨i, hi, hit⟩ := succ_mod_surjOn _ t ht
    exact ⟨i, ⟨hi, hit⟩, fun j hj => succ_mod_injOn _ j i hj.1 hi (by rw [hj.2, hit])⟩
  · have hc : (MeanFlowIteration nZone_geometry cfg Convergence ExtIter).count
          (IterCall.SetTimeSpectral (cfg ZONE_0).nTimeInstances t)
        = ((MeanFlowIteration nZone_geometry cfg Convergence ExtIter).filter
            IterCall.isSetTimeSpectral).count
          (IterCall.SetTimeSpectral (cfg ZONE_0).nTimeInstances t) :=
      (List.count_filter rfl).symm
    rw [hc, hfilter]
    apply List.count_eq_one_of_mem
    · refine List.Nodup.map_on (fun i hi j hj h => ?_) (List.nodup_range _)
      injection h with _ h2
      exact succ_mod_injOn _ i j (List.mem_range.mp hi) (List.mem_range.mp hj) h2
    · obtain ⟨i, hi, hit⟩ := succ_mod_surjOn _ t ht
      exact List.mem_map.mpr ⟨i, List.mem_range.mpr hi, by rw [hit]⟩

theorem MeanFlowIteration_time_spectral_calls_witness :
    (MeanFlowIteration 7 (sampleConfigSpectralIteration ℚ) (fun _ _ => true) 5).filter
        IterCall.isSetTimeSpectral
      = (List.range ((sampleConfigSpectralIteration ℚ) ZONE_0).nTimeInstances).map
          (fun iZone => IterCall.SetTimeSpectral
            ((sampleConfigSpectralIteration ℚ) ZONE_0).nTimeInstances
            ((iZone + 1) % ((sampleConfigSpectralIteration ℚ) ZONE_0).nTimeInstances)) :=
  (MeanFlowIteration_time_spectral_calls 7 (sampleConfigSpectralIteration ℚ) (fun _ _ => true) 5
    rfl (by decide)).2.1

/-! ## `Solution_Definition` and `Integration_Definition`: the active equations -/

/-- Apart from the kinds `FREE_SURFACE_RANS` and `ADJ_FREE_SURFACE_RANS`, the two
switches on the kind of solver set the same booleans. -/
theorem Integration_Definition_switch_eq (config : CConfigDefinition) (iZone : Nat)
    (h1 : config.Kind_Solver ≠ SolverKind.FREE_SURFACE_RANS)
    (h2 : config.Kind_Solver ≠ SolverKind.ADJ_FREE_SURFACE_RANS) :
    Integration_Definition_switch config iZone = Solution_Definition_switch config iZone := by
  unfold Integration_Definition_switch Solution_Definition_switch
  cases hk : config.Kind_Solver <;> first
    | exact absurd hk h1
    | exact absurd hk h2
    | rfl

/-- C29, the code on the kinds of solver that only `Solution_Definition` has a case
for. For every other kind the two switches set the same booleans. For
`FREE_SURFACE_RANS` (with the Spalart-Allmaras model) `Solution_Definition` allocates
the flow, turbulence and level-set solutions, and for `ADJ_FREE_SURFACE_RANS` their
adjoint counterparts as well, while `Integration_Definition` allocates no integration
object at all. For `RANS` without a turbulence model `Integration_Definition`
allocates the integration of the turbulence model and `Solution_Definition` no
turbulence solution. -/
theorem Integration_Definition_missing_cases :
    (∀ (config : CConfigDefinition) (iZone : Nat),
      config.Kind_Solver ≠ SolverKind.FREE_SURFACE_RANS →
      config.Kind_Solver ≠ SolverKind.ADJ_FREE_SURFACE_RANS →
      Integration_Definition_switch config iZone = Solution_Definition_switch config iZone) ∧
    (Solution_Definition (fun _ => none)
        (sampleConfigDefinition SolverKind.FREE_SURFACE_RANS TurbModel.SA) ZONE_0
        (MESH_0, SolIndex.FLOW_SOL) = some CSolutionClass.CNSSolution
      ∧ Solution_Definition (fun _ => none)
        (sampleConfigDefinition SolverKind.FREE_SURFACE_RANS TurbModel.SA) ZONE_0
        (MESH_0, SolIndex.TURB_SOL) = some CSolutionClass.CTurbSASolution
      ∧ Solution_Definition (fun _ => none)
        (sampleConfigDefinition SolverKind.FREE_SURFACE_RANS TurbModel.SA) ZONE_0
        (MESH_0, SolIndex.LEVELSET_SOL) = some CSolutionClass.CLevelSetSolution
      ∧ ∀ sol, Integration_Definition (fun _ => none)
        (sampleConfigDefinition SolverKind.FREE_SURFACE_RANS TurbModel.SA) ZONE_0 sol = none) ∧
    (Solution_Definition (fun _ => none)
        (sampleConfigDefinition SolverKind.ADJ_FREE_SURFACE_RANS TurbModel.SA) ZONE_0
        (MESH_0, SolIndex.FLOW_SOL) = some CSolutionClass.CNSSolution
      ∧ Solution_Definition (fun _ => none)
        (sampleConfigDefinition SolverKind.ADJ_FREE_SURFACE_RANS TurbModel.SA) ZONE_0
        (MESH_0, SolIndex.ADJFLOW_SOL) = some CSolutionClass.CAdjNSSolution
      ∧ Solution_Definition (fun _ => none)
        (sampleConfigDefinition SolverKind.ADJ_FREE_SURFACE_RANS TurbModel.SA) ZONE_0
        (MESH_0, SolIndex.ADJTURB_SOL) = some CSolutionClass.CAdjTurbSolution
      ∧ Solution_Definition (fun _ => none)
        (sampleConfigDefinition SolverKind.ADJ_FREE_SURFACE_RANS TurbModel.SA) ZONE_0
        (MESH_0, SolIndex.ADJLEVELSET_SOL) = some CSolutionClass.CAdjLevelSetSolution
      ∧ ∀ sol, Integration_Definition (fun _ => none)
        (sampleConfigDefinition SolverKind.ADJ_FREE_SURFACE_RANS TurbModel.SA) ZONE_0 sol
          = none) ∧
    (Solution_Definition (fun _ => none)
        (sampleConfigDefinition SolverKind.RANS TurbModel.NONE) ZONE_0
        (MESH_0, SolIndex.TURB_SOL) = none
      ∧ Integration_Definition (fun _ => none)
        (sampleConfigDefinition SolverKind.RANS TurbModel.NONE) ZONE_0 SolIndex.TURB_SOL
          = some CIntegrationClass.CSingleGridIntegration) := by
  refine ⟨Integration_Definition_switch_eq, ⟨by decide, by decide, by decide, ?_⟩,
    ⟨by decide, by decide, by decide, by decide, ?_⟩, ⟨by decide, by decide⟩⟩
  · intro sol
    cases sol <;> rfl
  · intro sol
    cases sol <;> rfl

/-! ## `SetDeltaPressure` -/

theorem forLoop_sum_pair {α : Type} [AddCommMonoid α] (f h : Nat → α) (n : Nat) (a b : α) :
    forLoop n (fun i (acc : α × α) => (acc.1 + f i, acc.2 + h i)) (a, b)
      = (a + ∑ i in Finset.range n, f i, b + ∑ i in Finset.range n, h i) := by
  induction n with
  | zero => simp [forLoop]
  | succ n ih =>
    rw [forLoop_succ, ih, Finset.sum_range_succ, Finset.sum_range_succ]
    simp [add_assoc]

/-- The value `SetDeltaPressure` assigns, and that it assigns nothing else. -/
theorem SetDeltaPressure_eq {α : Type} [LinearOrderedField α] (var : CLinEulerVariable α)
    (val_velocity : Nat → α) (Gamma : α) :
    SetDeltaPressure var val_velocity Gamma
      = { var with
          DeltaPressure :=
            (Gamma - 1) * (var.Solution (var.nVar - 1)
                - ∑ k in Finset.range var.nDim, val_velocity k * var.Solution (k + 1))
              + 1 / 2 * (∑ k in Finset.range var.nDim, val_velocity k ^ 2) * var.Solution 0 } := by
  unfold SetDeltaPressure
  simp only []
  rw [forLoop_sum_pair (fun i => val_velocity i * val_velocity i)
    (fun i => val_velocity i * var.Solution (i + 1))]
  have h0 : (0.0 : α) = 0 := by norm_num
  have h1 : (1.0 : α) = 1 := by norm_num
  have h5 : (0.5 : α) = 1 / 2 := by norm_num
  have hsq : ∑ k in Finset.range var.nDim, val_velocity k * val_velocity k
      = ∑ k in Finset.range var.nDim, val_velocity k ^ 2 :=
    Finset.sum_congr rfl (fun k _ => (sq (val_velocity k)).symm)
  congr 1
  rw [h0, h1, h5, hsq, zero_add, zero_add]
  ring

/-- The formula of the claim is the derivative of the ideal-gas pressure along the
perturbation, at a base state with density `rho ≠ 0` and momentum `rho·v`. -/
theorem linearisedPressure_hasDerivAt (nDim : Nat) (Gamma rho : ℝ) (hrho : rho ≠ 0)
    (v : Nat → ℝ) (E delta_rho : ℝ) (delta_m : Nat → ℝ) (delta_E : ℝ) :
    HasDerivAt (fun ε : ℝ => idealGasPressure nDim Gamma (rho + ε * delta_rho)
        (fun k => rho * v k + ε * delta_m k) (E + ε * delta_E))
      (linearisedPressure nDim Gamma v delta_rho delta_m delta_E) 0 := by
  have hN : HasDerivAt (fun ε : ℝ => ∑ k in Finset.range nDim, (rho * v k + ε * delta_m k) ^ 2)
      (∑ k in Finset.range nDim, 2 * (rho * v k) * delta_m k) 0 := by
    have h : ∀ k ∈ Finset.range nDim,
        HasDerivAt (fun ε : ℝ => (rho * v k + ε * delta_m k) ^ 2)
          (2 * (rho * v k) * delta_m k) 0 := by
      intro k _
      have h1 : HasDerivAt (fun ε : ℝ => rho * v k + ε * delta_m k) (delta_m k) 0 := by
        have := ((hasDerivAt_id (0 : ℝ)).mul_const (delta_m k)).const_add (rho * v k)
        simpa using this
      have h2 := h1.pow 2
      simpa using h2
    exact HasDerivAt.sum h
  have hD : HasDerivAt (fun ε : ℝ => 2 * (rho + ε * delta_rho)) (2 * delta_rho) 0 := by
    have := (((hasDerivAt_id (0 : ℝ)).mul_const delta_rho).const_add rho).const_mul 2
    simpa using this
  have hE : HasDerivAt (fun ε : ℝ => E + ε * delta_E) delta_E 0 := by
    have := ((hasDerivAt_id (0 : ℝ)).mul_const delta_E).const_add E
    simpa using this
  have hD0 : (fun ε : ℝ => 2 * (rho + ε * delta_rho)) 0 ≠ 0 := by
    simp [hrho]
  have hall := ((hE.sub (hN.div hD hD0)).const_mul (Gamma - 1))
  unfold idealGasPressure linearisedPressure
  convert hall using 1
  simp only [zero_mul, add_zero]
  have h5 : (0.5 : ℝ) = 1 / 2 := by norm_num
  have hs1 : ∑ k in Finset.range nDim, 2 * (rho * v k) * delta_m k
      = 2 * rho * ∑ k in Finset.range nDim, v k * delta_m k := by
    rw [Finset.mul_sum]
    exact Finset.sum_congr rfl (fun k _ => by ring)
  have hs2 : ∑ k in Finset.range nDim, (rho * v k) ^ 2
      = rho ^ 2 * ∑ k in Finset.range nDim, v k ^ 2 := by
    rw [Finset.mul_sum]
    exact Finset.sum_congr rfl (fun k _ => by ring)
  rw [hs1, hs2, h5]
  field_simp
  ring

/-- C30, the code against the first-order perturbation of the pressure.
`SetDeltaPressure` assigns `DeltaPressure` and no other field, but the value is
`0.5·δρ·|v|² + (γ-1)·(δE - v·δm)`: the term `0.5·|v|²·δρ` stands outside the factor
`γ-1`, so the value exceeds the linearised pressure `(γ-1)·(δE - v·δm + 0.5·|v|²·δρ)`
by `0.5·(2-γ)·|v|²·δρ`. For `γ = 7/5`, `v = (1, 0)` and a perturbation of the density
alone, `δρ = 1`, the code gives `1/2` and the linearised pressure is `1/5`. -/
theorem SetDeltaPressure_misplaced_factor {α : Type} [LinearOrderedField α]
    (var : CLinEulerVariable α) (val_velocity : Nat → α) (Gamma : α) :
    SetDeltaPressure var val_velocity Gamma
      = { var with
          DeltaPressure :=
            linearisedPressure var.nDim Gamma val_velocity (var.Solution 0)
                (fun k => var.Solution (k + 1)) (var.Solution (var.nVar - 1))
              + 1 / 2 * (2 - Gamma) * (∑ k in Finset.range var.nDim, val_velocity k ^ 2)
                * var.Solution 0 } ∧
    (SetDeltaPressure (sampleLinEulerVariable ℚ) (fun k => if k = 0 then 1 else 0)
        (7 / 5)).DeltaPressure = 1 / 2 ∧
    linearisedPressure 2 (7 / 5 : ℚ) (fun k => if k = 0 then 1 else 0) 1 (fun _ => 0) 0
      = 1 / 5 := by
  refine ⟨?_, ?_, ?_⟩
  · rw [SetDeltaPressure_eq]
    congr 1
    unfold linearisedPressure
    have h5 : (0.5 : α) = 1 / 2 := by norm_num
    rw [h5]
    ring
  · rw [SetDeltaPressure_eq]
    simp [sampleLinEulerVariable, Finset.sum_range_succ]
  · simp [linearisedPressure, Finset.sum_range_succ]
    norm_num

end SU2
